import Mathlib

/-! Win32 window handling (`src/osd/windows/window.c`)

A shallow embedding of the cross-thread coordination code of `window.c`:
the reentrant UI pause counter, the message dispatcher and the event pump of
the main thread, the event filters of the two message loops, the frame
update / redraw path, the window creation handshake, the registry as a chain
of pointers with its creation, destruction and exit paths, the fullscreen
switch and the double-click test of the window procedure.

Conventions of the embedding

* C globals are the fields of `World`; a C function that mutates globals is a
  function `World → World`.
* Calls that leave `window.c` (the machine, the input system, the renderer,
  Win32) are appended, in program order, to `World.trace`.
* Values returned by such calls are arguments of the embedded function.
* Pointers and handles are natural numbers, `0` being `NULL`.
* A loop whose length depends on the state takes a bound on its number of
  rounds (or the list of inputs of its rounds) and yields `none` when the
  bound does not suffice.
-/

namespace WinWindow

/-! ## Constants -/

/-- Win32 `TRUE`. -/
def TRUE : Int := 1

/-- Win32 `FALSE`. -/
def FALSE : Int := 0

/-- Width in bits of `WPARAM`/`LPARAM` (`UINT_PTR`/`LONG_PTR`) on a 64-bit build. -/
def PTR_BITS : Nat := 64

/-- Win32 `WM_DESTROY`. -/
def WM_DESTROY : Nat := 0x0002
/-- Win32 `WM_PAINT`. -/
def WM_PAINT : Nat := 0x000F
/-- Win32 `WM_QUIT`. -/
def WM_QUIT : Nat := 0x0012
/-- Win32 `WM_SYSKEYDOWN`. -/
def WM_SYSKEYDOWN : Nat := 0x0104
/-- Win32 `WM_SYSKEYUP`. -/
def WM_SYSKEYUP : Nat := 0x0105
/-- Win32 `WM_LBUTTONDOWN`. -/
def WM_LBUTTONDOWN : Nat := 0x0201
/-- Win32 `WM_LBUTTONUP`. -/
def WM_LBUTTONUP : Nat := 0x0202
/-- Win32 `WM_RBUTTONDOWN`. -/
def WM_RBUTTONDOWN : Nat := 0x0204
/-- Win32 `WM_RBUTTONUP`. -/
def WM_RBUTTONUP : Nat := 0x0205
/-- Win32 `WM_MBUTTONDOWN`. -/
def WM_MBUTTONDOWN : Nat := 0x0207
/-- Win32 `WM_MBUTTONUP`. -/
def WM_MBUTTONUP : Nat := 0x0208
/-- Win32 `WM_XBUTTONDOWN`. -/
def WM_XBUTTONDOWN : Nat := 0x020B
/-- Win32 `WM_XBUTTONUP`. -/
def WM_XBUTTONUP : Nat := 0x020C
/-- Win32 `WM_USER`. -/
def WM_USER : Nat := 0x0400

/-- Custom message `WM_USER_FINISH_CREATE_WINDOW`. -/
def WM_USER_FINISH_CREATE_WINDOW : Nat := WM_USER + 0
/-- Custom message `WM_USER_SELF_TERMINATE`. -/
def WM_USER_SELF_TERMINATE : Nat := WM_USER + 1
/-- Custom message `WM_USER_REDRAW`. -/
def WM_USER_REDRAW : Nat := WM_USER + 2
/-- Custom message `WM_USER_SET_FULLSCREEN`. -/
def WM_USER_SET_FULLSCREEN : Nat := WM_USER + 3
/-- Custom message `WM_USER_SET_MAXSIZE`. -/
def WM_USER_SET_MAXSIZE : Nat := WM_USER + 4
/-- Custom message `WM_USER_SET_MINSIZE`. -/
def WM_USER_SET_MINSIZE : Nat := WM_USER + 5
/-- Custom message `WM_USER_UI_TEMP_PAUSE`. -/
def WM_USER_UI_TEMP_PAUSE : Nat := WM_USER + 6
/-- Custom message `WM_USER_EXEC_FUNC`. -/
def WM_USER_EXEC_FUNC : Nat := WM_USER + 7

/-! ## Machine integers -/

/-- Value of a 32-bit unsigned quantity (`DWORD`). -/
def u32 (n : Int) : Nat := (n % 2 ^ 32).toNat

/-- Conversion of an unsigned word to C `int` (two's complement, 32 bits). -/
def to_int32 (n : Nat) : Int :=
  if n % 2 ^ 32 < 2 ^ 31 then ((n % 2 ^ 32 : Nat) : Int) else ((n % 2 ^ 32 : Nat) : Int) - 2 ^ 32

/-- Conversion of a C `int` to `WPARAM` (sign extension, then reinterpretation). -/
def int_to_WPARAM (p : Int) : Nat := (p % 2 ^ PTR_BITS).toNat

/-- Conversion of a 16-bit word to `short`. -/
def to_int16 (n : Nat) : Int :=
  if n % 2 ^ 16 < 2 ^ 15 then ((n % 2 ^ 16 : Nat) : Int) else ((n % 2 ^ 16 : Nat) : Int) - 2 ^ 16

/-- The `GET_X_LPARAM` of `windowsx.h`: `(int)(short)LOWORD(lp)`. -/
def GET_X_LPARAM (lp : Nat) : Int := to_int16 (lp % 2 ^ 16)

/-- The `GET_Y_LPARAM` of `windowsx.h`: `(int)(short)HIWORD(lp)`. -/
def GET_Y_LPARAM (lp : Nat) : Int := to_int16 ((lp / 2 ^ 16) % 2 ^ 16)

/-! ## Data model -/

/-- The Win32 `MSG` fields the code reads. -/
structure MSG where
  hwnd : Nat
  message : Nat
  wParam : Nat
  lParam : Nat
  deriving DecidableEq, Repr

/-- Calls to collaborators outside `window.c`, recorded in program order. -/
inductive Effect where
  | machine_pause
  | machine_resume
  | machine_schedule_exit
  | PostThreadMessage (threadid : Nat) (message wParam lParam : Nat)
  | WaitForSingleObject_ui_pause_event
  | call_func (func param : Nat)
  | TranslateMessage (m : MSG)
  | DispatchMessage (m : MSG)
  | wininput_handle_mouse_button (button : Int) (down : Int) (x y : Int)
  | PostQuitMessage (code : Int)
  | osd_lock_acquire (window thread : Nat)
  | osd_lock_try (window thread : Nat) (got : Bool)
  | osd_lock_release (window thread : Nat)
  | get_primitives (renderer : Nat)
  | PostMessage (hwnd message wParam lParam : Nat)
  | SendMessage (hwnd message wParam lParam : Nat)
  | GetDC (hwnd : Nat)
  | ReleaseDC (hwnd dc : Nat)
  | FillRect (dc : Nat)
  | renderer_draw (renderer dc : Nat) (update : Int) (primlist : Nat)
  | WaitMessage
  | winwindow_update_cursor_state
  | win_create_menu
  | win_create_window_ex_utf8 (window : Nat)
  | SetWindowLongPtr (hwnd window : Nat)
  | SetWindowPos (hwnd : Nat)
  | minimize_window (hwnd : Nat)
  | maximize_window (hwnd : Nat)
  | adjust_window_position_after_major_change (hwnd : Nat)
  | draw_create (window : Nat)
  | renderer_create (renderer : Nat)
  | ShowWindow (hwnd : Nat) (visible : Bool)
  | BeginPaint (hwnd : Nat)
  | EndPaint (hwnd : Nat)
  | DrawMenuBar (hwnd : Nat)
  | DefWindowProc (hwnd message wParam lParam : Nat)
  | osd_lock_alloc (window : Nat)
  | target_alloc (target : Nat)
  | set_starting_view (target : Nat)
  | WaitForSingleObject_window_thread_ready_event
  | DestroyWindow (hwnd : Nat)
  | renderer_destroy (renderer : Nat)
  | global_free (object : Nat)
  | target_free (target : Nat)
  | osd_lock_free (window : Nat)
  | draw_exit
  | WaitForSingleObject_window_thread
  | CloseHandle_ui_pause_event
  | CloseHandle_window_thread_ready_event
  | ShowCursor (visible : Bool)
  | SetWindowLong (hwnd : Nat)
  | GetWindowRect (hwnd : Nat)
  | ui_input_push_mouse_down_event (target : Nat) (x y : Int)
  | ui_input_push_mouse_double_click_event (target : Nat) (x y : Int)
  deriving Repr

/-- A code for each outside call: the index of its kind and its arguments, sorted by
type. Equality of calls is decided on the codes. -/
def Effect.code : Effect → Nat × List Nat × List Int × List Bool × List MSG
  | Effect.machine_pause => (0, [], [], [], [])
  | Effect.machine_resume => (1, [], [], [], [])
  | Effect.machine_schedule_exit => (2, [], [], [], [])
  | Effect.PostThreadMessage threadid message wParam lParam => (3, [threadid, message, wParam, lParam], [], [], [])
  | Effect.WaitForSingleObject_ui_pause_event => (4, [], [], [], [])
  | Effect.call_func func param => (5, [func, param], [], [], [])
  | Effect.TranslateMessage m => (6, [], [], [], [m])
  | Effect.DispatchMessage m => (7, [], [], [], [m])
  | Effect.wininput_handle_mouse_button button down x y => (8, [], [button, down, x, y], [], [])
  | Effect.PostQuitMessage code => (9, [], [code], [], [])
  | Effect.osd_lock_acquire window thread => (10, [window, thread], [], [], [])
  | Effect.osd_lock_try window thread got => (11, [window, thread], [], [got], [])
  | Effect.osd_lock_release window thread => (12, [window, thread], [], [], [])
  | Effect.get_primitives renderer => (13, [renderer], [], [], [])
  | Effect.PostMessage hwnd message wParam lParam => (14, [hwnd, message, wParam, lParam], [], [], [])
  | Effect.SendMessage hwnd message wParam lParam => (15, [hwnd, message, wParam, lParam], [], [], [])
  | Effect.GetDC hwnd => (16, [hwnd], [], [], [])
  | Effect.ReleaseDC hwnd dc => (17, [hwnd, dc], [], [], [])
  | Effect.FillRect dc => (18, [dc], [], [], [])
  | Effect.renderer_draw renderer dc update primlist => (19, [renderer, dc, primlist], [update], [], [])
  | Effect.WaitMessage => (20, [], [], [], [])
  | Effect.winwindow_update_cursor_state => (21, [], [], [], [])
  | Effect.win_create_menu => (22, [], [], [], [])
  | Effect.win_create_window_ex_utf8 window => (23, [window], [], [], [])
  | Effect.SetWindowLongPtr hwnd window => (24, [hwnd, window], [], [], [])
  | Effect.SetWindowPos hwnd => (25, [hwnd], [], [], [])
  | Effect.minimize_window hwnd => (26, [hwnd], [], [], [])
  | Effect.maximize_window hwnd => (27, [hwnd], [], [], [])
  | Effect.adjust_window_position_after_major_change hwnd => (28, [hwnd], [], [], [])
  | Effect.draw_create window => (29, [window], [], [], [])
  | Effect.renderer_create renderer => (30, [renderer], [], [], [])
  | Effect.ShowWindow hwnd visible => (31, [hwnd], [], [visible], [])
  | Effect.BeginPaint hwnd => (32, [hwnd], [], [], [])
  | Effect.EndPaint hwnd => (33, [hwnd], [], [], [])
  | Effect.DrawMenuBar hwnd => (34, [hwnd], [], [], [])
  | Effect.DefWindowProc hwnd message wParam lParam => (35, [hwnd, message, wParam, lParam], [], [], [])
  | Effect.osd_lock_alloc window => (36, [window], [], [], [])
  | Effect.target_alloc target => (37, [target], [], [], [])
  | Effect.set_starting_view target => (38, [target], [], [], [])
  | Effect.WaitForSingleObject_window_thread_ready_event => (39, [], [], [], [])
  | Effect.DestroyWindow hwnd => (40, [hwnd], [], [], [])
  | Effect.renderer_destroy renderer => (41, [renderer], [], [], [])
  | Effect.global_free object => (42, [object], [], [], [])
  | Effect.target_free target => (43, [target], [], [], [])
  | Effect.osd_lock_free window => (44, [window], [], [], [])
  | Effect.draw_exit => (45, [], [], [], [])
  | Effect.WaitForSingleObject_window_thread => (46, [], [], [], [])
  | Effect.CloseHandle_ui_pause_event => (47, [], [], [], [])
  | Effect.CloseHandle_window_thread_ready_event => (48, [], [], [], [])
  | Effect.ShowCursor visible => (49, [], [], [visible], [])
  | Effect.SetWindowLong hwnd => (50, [hwnd], [], [], [])
  | Effect.GetWindowRect hwnd => (51, [hwnd], [], [], [])
  | Effect.ui_input_push_mouse_down_event target x y => (52, [target], [x, y], [], [])
  | Effect.ui_input_push_mouse_double_click_event target x y => (53, [target], [x, y], [], [])

/-- The call a code stands for. -/
def Effect.decode : Nat × List Nat × List Int × List Bool × List MSG → Option Effect
  | (0, [], [], [], []) => some Effect.machine_pause
  | (1, [], [], [], []) => some Effect.machine_resume
  | (2, [], [], [], []) => some Effect.machine_schedule_exit
  | (3, [threadid, message, wParam, lParam], [], [], []) => some (Effect.PostThreadMessage threadid message wParam lParam)
  | (4, [], [], [], []) => some Effect.WaitForSingleObject_ui_pause_event
  | (5, [func, param], [], [], []) => some (Effect.call_func func param)
  | (6, [], [], [], [m]) => some (Effect.TranslateMessage m)
  | (7, [], [], [], [m]) => some (Effect.DispatchMessage m)
  | (8, [], [button, down, x, y], [], []) => some (Effect.wininput_handle_mouse_button button down x y)
  | (9, [], [code], [], []) => some (Effect.PostQuitMessage code)
  | (10, [window, thread], [], [], []) => some (Effect.osd_lock_acquire window thread)
  | (11, [window, thread], [], [got], []) => some (Effect.osd_lock_try window thread got)
  | (12, [window, thread], [], [], []) => some (Effect.osd_lock_release window thread)
  | (13, [renderer], [], [], []) => some (Effect.get_primitives renderer)
  | (14, [hwnd, message, wParam, lParam], [], [], []) => some (Effect.PostMessage hwnd message wParam lParam)
  | (15, [hwnd, message, wParam, lParam], [], [], []) => some (Effect.SendMessage hwnd message wParam lParam)
  | (16, [hwnd], [], [], []) => some (Effect.GetDC hwnd)
  | (17, [hwnd, dc], [], [], []) => some (Effect.ReleaseDC hwnd dc)
  | (18, [dc], [], [], []) => some (Effect.FillRect dc)
  | (19, [renderer, dc, primlist], [update], [], []) => some (Effect.renderer_draw renderer dc update primlist)
  | (20, [], [], [], []) => some Effect.WaitMessage
  | (21, [], [], [], []) => some Effect.winwindow_update_cursor_state
  | (22, [], [], [], []) => some Effect.win_create_menu
  | (23, [window], [], [], []) => some (Effect.win_create_window_ex_utf8 window)
  | (24, [hwnd, window], [], [], []) => some (Effect.SetWindowLongPtr hwnd window)
  | (25, [hwnd], [], [], []) => some (Effect.SetWindowPos hwnd)
  | (26, [hwnd], [], [], []) => some (Effect.minimize_window hwnd)
  | (27, [hwnd], [], [], []) => some (Effect.maximize_window hwnd)
  | (28, [hwnd], [], [], []) => some (Effect.adjust_window_position_after_major_change hwnd)
  | (29, [window], [], [], []) => some (Effect.draw_create window)
  | (30, [renderer], [], [], []) => some (Effect.renderer_create renderer)
  | (31, [hwnd], [], [visible], []) => some (Effect.ShowWindow hwnd visible)
  | (32, [hwnd], [], [], []) => some (Effect.BeginPaint hwnd)
  | (33, [hwnd], [], [], []) => some (Effect.EndPaint hwnd)
  | (34, [hwnd], [], [], []) => some (Effect.DrawMenuBar hwnd)
  | (35, [hwnd, message, wParam, lParam], [], [], []) => some (Effect.DefWindowProc hwnd message wParam lParam)
  | (36, [window], [], [], []) => some (Effect.osd_lock_alloc window)
  | (37, [target], [], [], []) => some (Effect.target_alloc target)
  | (38, [target], [], [], []) => some (Effect.set_starting_view target)
  | (39, [], [], [], []) => some Effect.WaitForSingleObject_window_thread_ready_event
  | (40, [hwnd], [], [], []) => some (Effect.DestroyWindow hwnd)
  | (41, [renderer], [], [], []) => some (Effect.renderer_destroy renderer)
  | (42, [object], [], [], []) => some (Effect.global_free object)
  | (43, [target], [], [], []) => some (Effect.target_free target)
  | (44, [window], [], [], []) => some (Effect.osd_lock_free window)
  | (45, [], [], [], []) => some Effect.draw_exit
  | (46, [], [], [], []) => some Effect.WaitForSingleObject_window_thread
  | (47, [], [], [], []) => some Effect.CloseHandle_ui_pause_event
  | (48, [], [], [], []) => some Effect.CloseHandle_window_thread_ready_event
  | (49, [], [], [visible], []) => some (Effect.ShowCursor visible)
  | (50, [hwnd], [], [], []) => some (Effect.SetWindowLong hwnd)
  | (51, [hwnd], [], [], []) => some (Effect.GetWindowRect hwnd)
  | (52, [target], [x, y], [], []) => some (Effect.ui_input_push_mouse_down_event target x y)
  | (53, [target], [x, y], [], []) => some (Effect.ui_input_push_mouse_double_click_event target x y)
  | _ => none

instance : DecidableEq Effect := fun a b =>
  if h : a.code = b.code then
    isTrue (by
      have hd : ∀ e : Effect, Effect.decode e.code = some e := by
        intro e
        cases e <;> rfl
      have h2 := congrArg Effect.decode h
      rw [hd a, hd b] at h2
      exact Option.some.inj h2)
  else isFalse (fun e => h (congrArg Effect.code e))

/-- Modelled from the spec: the state of an `osd_lock` (RenderSync), the thread
holding it or `none` when it is available; `osd_lock_*` live in the OSD
synchronisation layer, not in this file. -/
structure osd_lock where
  holder : Option Nat
  deriving DecidableEq, Repr

/-- The fields of `win_window_info` (and of its base `osd_window`) that the
embedded code reads or writes; `addr` is the address of the object. -/
structure win_window_info where
  addr : Nat
  m_hwnd : Nat
  m_focus_hwnd : Nat
  m_init_state : Int
  m_startmaximized : Int
  m_isminimized : Int
  m_ismaximized : Int
  m_monitor : Nat
  m_fullscreen : Int
  m_fullscreen_safe : Int
  m_maxwidth : Int
  m_maxheight : Int
  m_refresh : Int
  m_render_lock : osd_lock
  m_target : Nat
  m_targetview : Int
  m_targetorient : Int
  m_targetlayerconfig : Nat
  m_lastclicktime : Nat
  m_lastclickx : Int
  m_lastclicky : Int
  m_renderer : Nat
  m_primlist : Nat
  m_resize_state : Int
  deriving DecidableEq, Repr

/-- The globals of `window.c` together with the machine's pause flag, the two
thread message queues and the trace of outside calls. `win_window_list` is the
registry in list order (the `m_next` chain from the head). -/
structure World where
  multithreading_enabled : Bool
  main_threadid : Nat
  window_threadid : Nat
  ui_temp_pause : Int
  ui_temp_was_paused : Bool
  ui_pause_event : Bool
  last_update_time : Nat
  last_event_check : Nat
  machine_paused : Bool
  main_queue : List MSG
  window_queue : List MSG
  win_window_list : List win_window_info
  trace : List Effect
  deriving DecidableEq, Repr

/-- Appends one outside call to the trace. -/
def World.emit (w : World) (e : Effect) : World :=
  { w with trace := w.trace ++ [e] }

/-! ## The machine handle -/

/-- Modelled from the spec: `running_machine::paused()` of the machine handle
(`is_paused() -> bool`), the class is not part of this file. -/
def machine_paused (w : World) : Bool := w.machine_paused

/-- Modelled from the spec: `running_machine::pause()` of the machine handle;
the call is recorded and the machine is paused afterwards. -/
def machine_pause (w : World) : World :=
  { w with machine_paused := true, trace := w.trace ++ [Effect.machine_pause] }

/-- Modelled from the spec: `running_machine::resume()` of the machine handle;
the call is recorded and the machine is running afterwards. -/
def machine_resume (w : World) : World :=
  { w with machine_paused := false, trace := w.trace ++ [Effect.machine_resume] }

/-- Modelled from the spec: `running_machine::schedule_exit()` (`request_exit()`);
only the call is recorded. -/
def machine_schedule_exit (w : World) : World :=
  w.emit Effect.machine_schedule_exit

/-! ## UI pause (`winwindow_ui_pause_from_main_thread`) -/

/-- The function `winwindow_ui_pause_from_main_thread(machine, pause)`.
`SetEvent`/`ResetEvent` on the manual-reset `ui_pause_event` set and clear the
field of the same name. The counter is an unbounded integer: the embedding
covers the executions without signed overflow (see `pause_calls_depth_bounded`). -/
def winwindow_ui_pause_from_main_thread (w : World) (pause : Int) : World :=
  if pause ≠ 0 then
    -- if (ui_temp_pause++ == 0)
    let w1 := { w with ui_temp_pause := w.ui_temp_pause + 1 }
    if w.ui_temp_pause = 0 then
      let w2 := { w1 with ui_temp_was_paused := machine_paused w1 }
      let w3 := if !w2.ui_temp_was_paused then machine_pause w2 else w2
      { w3 with ui_pause_event := true }
    else w1
  else
    -- if (--ui_temp_pause == 0)
    let w1 := { w with ui_temp_pause := w.ui_temp_pause - 1 }
    if w1.ui_temp_pause = 0 then
      let w2 := if !w1.ui_temp_was_paused then machine_resume w1 else w1
      { w2 with ui_pause_event := false }
    else w1

/-- A finite sequence of `winwindow_ui_pause_from_main_thread` calls, first call first. -/
def pause_calls (w : World) (calls : List Int) : World :=
  calls.foldl winwindow_ui_pause_from_main_thread w

/-- The specification's reading of the pause protocol, from the depth alone:
one `pause()` on the call that starts a maximal run of depth > 0 and one
`resume()` on the call that ends it, nothing on any other call. -/
def run_edges (depth : Int) : List Int → List Effect
  | [] => []
  | p :: rest =>
    if p ≠ 0 then
      (if depth ≤ 0 ∧ 0 < depth + 1 then [Effect.machine_pause] else [])
        ++ run_edges (depth + 1) rest
    else
      (if 0 < depth ∧ depth - 1 ≤ 0 then [Effect.machine_resume] else [])
        ++ run_edges (depth - 1) rest

/-- A balanced nested sequence of pause requests seen from depth `d`: no resume
without a matching earlier pause, and the depth is back at zero at the end. -/
def balanced_from (d : Nat) : List Int → Bool
  | [] => d == 0
  | p :: rest =>
    if p ≠ 0 then balanced_from (d + 1) rest
    else 0 < d && balanced_from (d - 1) rest

/-- An initial state: depth 0, nothing signalled, machine running, nothing queued. -/
def World.init ( multithreading : Bool) : World :=
  { multithreading_enabled := multithreading
    main_threadid := 1
    window_threadid := if multithreading then 2 else 1
    ui_temp_pause := 0
    ui_temp_was_paused := false
    ui_pause_event := false
    last_update_time := 0
    last_event_check := 0
    machine_paused := false
    main_queue := []
    window_queue := []
    win_window_list := []
    trace := [] }

/-! ## Posting messages -/

/-- Win32 `PostThreadMessage(threadid, message, wParam, lParam)`: the message,
with a null window handle, is appended to the queue of the thread. In
single-thread mode the window thread is the main thread and there is one queue. -/
def PostThreadMessage (w : World) (threadid message wParam lParam : Nat) : World :=
  let w1 := w.emit (Effect.PostThreadMessage threadid message wParam lParam)
  if threadid = w.main_threadid then
    { w1 with main_queue := w1.main_queue ++ [⟨0, message, wParam, lParam⟩] }
  else if threadid = w.window_threadid then
    { w1 with window_queue := w1.window_queue ++ [⟨0, message, wParam, lParam⟩] }
  else w1

/-- Win32 `PostMessage(hwnd, message, wParam, lParam)` for a window of this
program: windows are created by `complete_create` on the window thread, so the
message is appended to that thread's queue. -/
def PostMessage (w : World) (hwnd message wParam lParam : Nat) : World :=
  let w1 := w.emit (Effect.PostMessage hwnd message wParam lParam)
  if w.window_threadid = w.main_threadid then
    { w1 with main_queue := w1.main_queue ++ [⟨hwnd, message, wParam, lParam⟩] }
  else
    { w1 with window_queue := w1.window_queue ++ [⟨hwnd, message, wParam, lParam⟩] }

/-! ## `winwindow_dispatch_message` and the cross-thread requests -/

/-- The function `winwindow_dispatch_message(machine, message)`. `exec` interprets
a function pointer: `exec func param` is what the call `func(param)` does to the
world; the call itself is recorded first. -/
def winwindow_dispatch_message (exec : Nat → Nat → World → World) (w : World)
    (message : MSG) : World :=
  if message.message = WM_QUIT then
    machine_schedule_exit w
  else if message.message = WM_USER_UI_TEMP_PAUSE then
    winwindow_ui_pause_from_main_thread w (to_int32 message.wParam)
  else if message.message = WM_USER_EXEC_FUNC then
    exec message.wParam message.lParam (w.emit (Effect.call_func message.wParam message.lParam))
  else
    (w.emit (Effect.TranslateMessage message)).emit (Effect.DispatchMessage message)

/-- The function `winwindow_ui_pause_from_window_thread(machine, pause)`. The wait on
`ui_pause_event` is recorded; it ends when the main thread raises the event. -/
def winwindow_ui_pause_from_window_thread (w : World) (pause : Int) : World :=
  if w.multithreading_enabled then
    let w1 := PostThreadMessage w w.main_threadid WM_USER_UI_TEMP_PAUSE (int_to_WPARAM pause) 0
    if pause ≠ 0 then w1.emit Effect.WaitForSingleObject_ui_pause_event else w1
  else
    winwindow_ui_pause_from_main_thread w pause

/-- The function `winwindow_ui_exec_on_main_thread(func, param)`; the two pointers are
carried unchanged by the casts to `WPARAM` and `LPARAM`. -/
def winwindow_ui_exec_on_main_thread (exec : Nat → Nat → World → World) (w : World)
    (func param : Nat) : World :=
  if w.multithreading_enabled then
    PostThreadMessage w w.main_threadid WM_USER_EXEC_FUNC func param
  else
    exec func param (w.emit (Effect.call_func func param))

/-! ## Registry access -/

/-- The function `is_mame_window(hwnd)`: some registered window has this handle. -/
def is_mame_window (win_window_list : List win_window_info) (hwnd : Nat) : Bool :=
  win_window_list.any (fun window => window.m_hwnd == hwnd)

/-- Dereference of a `win_window_info *` that points into the registry. -/
def World.window (w : World) (addr : Nat) : Option win_window_info :=
  w.win_window_list.find? (fun window => window.addr == addr)

/-- Write-back of a window object through its pointer. -/
def World.store (w : World) (window : win_window_info) : World :=
  { w with win_window_list :=
      w.win_window_list.map (fun old => if old.addr = window.addr then window else old) }

/-! ## `complete_create` -/

/-- Results of the outside calls made by `complete_create`. -/
structure create_env where
  /-- Option `menu()`. -/
  menu : Bool
  /-- Result of `win_create_menu` is non-zero. -/
  create_menu_failed : Bool
  /-- Handle returned by `win_create_window_ex_utf8`. -/
  hwnd : Nat
  /-- The comparison `video_config.mode == VIDEO_MODE_NONE`. -/
  video_mode_none : Bool
  /-- Object returned by `draw.create(window)`. -/
  renderer : Nat
  /-- Result of `m_renderer->create()` is non-zero. -/
  renderer_create_failed : Bool
  /-- Device context returned by `GetDC`. -/
  dc : Nat
  deriving DecidableEq, Repr

/-- The function `complete_create(window)`: the world, the window and the `int` result
(`1` on failure, `0` on success). Geometry helpers are recorded as calls. -/
def complete_create (env : create_env) (w : World) (window : win_window_info) :
    World × win_window_info × Int :=
  -- create the window menu if needed
  if env.menu ∧ env.create_menu_failed then
    (w.emit Effect.win_create_menu, window, 1)
  else
    let w0 := if env.menu then w.emit Effect.win_create_menu else w
    -- create the window, but don't show it yet
    let w1 := w0.emit (Effect.win_create_window_ex_utf8 window.addr)
    let window1 := { window with m_hwnd := env.hwnd }
    if window1.m_hwnd = 0 then
      (w1, window1, 1)
    else
      -- window->m_focus_hwnd = win_window_list->m_hwnd
      let head_hwnd : Nat :=
        match w1.win_window_list.head? with
        | some head => if head.addr = window1.addr then window1.m_hwnd else head.m_hwnd
        | none => 0
      let window2 := { window1 with m_focus_hwnd := head_hwnd }
      let w2 := w1.emit (Effect.SetWindowLongPtr window2.m_hwnd window2.addr)
      if env.video_mode_none then
        (w2, window2, 0)
      else
        let w3 := w2.emit (Effect.SetWindowPos window2.m_hwnd)
        let w4 :=
          if window2.m_startmaximized ≠ 0 then w3.emit (Effect.maximize_window window2.m_hwnd)
          else w3.emit (Effect.minimize_window window2.m_hwnd)
        let w5 := w4.emit (Effect.adjust_window_position_after_major_change window2.m_hwnd)
        let clear (v : World) : World :=
          ((v.emit (Effect.GetDC window2.m_hwnd)).emit (Effect.FillRect env.dc)).emit
            (Effect.ReleaseDC window2.m_hwnd env.dc)
        -- show the window
        if window2.m_fullscreen = 0 ∨ window2.m_fullscreen_safe ≠ 0 then
          let window3 := { window2 with m_renderer := env.renderer }
          let w6 := (w5.emit (Effect.draw_create window2.addr)).emit
            (Effect.renderer_create window3.m_renderer)
          if env.renderer_create_failed then
            (w6, window3, 1)
          else
            (clear (w6.emit (Effect.ShowWindow window3.m_hwnd true)), window3, 0)
        else
          (clear w5, window2, 0)

/-! ## The event filters of the two message loops -/

/-- One `case WM_?BUTTON*` of the filter: the call to `wininput_handle_mouse_button`
is recorded; `input` gives its result, and `dispatch` is its negation. -/
def filter_mouse_button (input : Int → Int → Int → Int → Bool) (w : World)
    (button down : Int) (message : MSG) : World × Bool :=
  (w.emit (Effect.wininput_handle_mouse_button button down
      (GET_X_LPARAM message.lParam) (GET_Y_LPARAM message.lParam)),
   !input button down (GET_X_LPARAM message.lParam) (GET_Y_LPARAM message.lParam))

/-- The `switch (message.message)` shared by the two filters (system keys and mouse
buttons); `none` when no `case` of it applies. -/
def filter_input_cases (input : Int → Int → Int → Int → Bool) (w : World)
    (message : MSG) : Option (World × Bool) :=
  if message.message = WM_SYSKEYUP ∨ message.message = WM_SYSKEYDOWN then some (w, false)
  else if message.message = WM_LBUTTONDOWN then some (filter_mouse_button input w 0 TRUE message)
  else if message.message = WM_RBUTTONDOWN then some (filter_mouse_button input w 1 TRUE message)
  else if message.message = WM_MBUTTONDOWN then some (filter_mouse_button input w 2 TRUE message)
  else if message.message = WM_XBUTTONDOWN then some (filter_mouse_button input w 3 TRUE message)
  else if message.message = WM_LBUTTONUP then some (filter_mouse_button input w 0 FALSE message)
  else if message.message = WM_RBUTTONUP then some (filter_mouse_button input w 1 FALSE message)
  else if message.message = WM_MBUTTONUP then some (filter_mouse_button input w 2 FALSE message)
  else if message.message = WM_XBUTTONUP then some (filter_mouse_button input w 3 FALSE message)
  else none

/-- The filter of `winwindow_process_events` for one dequeued message: the world after
the input calls and the final value of `dispatch`. -/
def process_events_filter (input : Int → Int → Int → Int → Bool) ( nodispatch : Bool)
    (w : World) (message : MSG) : World × Bool :=
  -- int dispatch = TRUE && !nodispatch;
  if message.hwnd = 0 ∨ is_mame_window w.win_window_list message.hwnd then
    match filter_input_cases input w message with
    | some r => r
    | none => (w, true)
  else
    (w, !nodispatch)

/-- The body of the `while (PeekMessage(...))` loop of `winwindow_process_events` for
one dequeued message. -/
def process_events_message (exec : Nat → Nat → World → World)
    (input : Int → Int → Int → Int → Bool) ( nodispatch : Bool)
    (w : World) (message : MSG) : World :=
  let r := process_events_filter input nodispatch w message
  if r.2 then winwindow_dispatch_message exec r.1 message else r.1

/-- The filter of `thread_entry` for one message returned by `GetMessage`: the world
after the handlers and the final value of `dispatch`. The window pointer carried by
`WM_USER_FINISH_CREATE_WINDOW` is dereferenced through the registry, where
`winwindow_video_window_create` has put the object before posting the message. -/
def thread_entry_filter (env : create_env) (input : Int → Int → Int → Int → Bool)
    (w : World) (message : MSG) : World × Bool :=
  if message.hwnd = 0 ∨ is_mame_window w.win_window_list message.hwnd then
    match filter_input_cases input w message with
    | some r => r
    | none =>
      if message.message = WM_USER_SELF_TERMINATE then
        -- PostQuitMessage(0) queues WM_QUIT for the calling thread
        let w1 := w.emit (Effect.PostQuitMessage 0)
        ({ w1 with window_queue := w1.window_queue ++ [⟨0, WM_QUIT, 0, 0⟩] }, false)
      else if message.message = WM_USER_FINISH_CREATE_WINDOW then
        -- window->m_init_state = complete_create(window) ? -1 : 1;
        match w.window message.lParam with
        | some window =>
          let r := complete_create env w window
          (r.1.store { r.2.1 with m_init_state := if r.2.2 ≠ 0 then -1 else 1 }, false)
        | none => (w, false)
      else (w, true)
  else
    (w, true)

/-- The body of the `while (GetMessage(...))` loop of `thread_entry` for one message. -/
def thread_entry_message (env : create_env) (input : Int → Int → Int → Int → Bool)
    (w : World) (message : MSG) : World :=
  let r := thread_entry_filter env input w message
  if r.2 then (r.1.emit (Effect.TranslateMessage message)).emit (Effect.DispatchMessage message)
  else r.1

/-- Outside calls that belong to drawing a frame: fetching the primitives, posting or
sending `WM_USER_REDRAW`, filling and the renderer's `draw`. -/
def Effect.is_frame : Effect → Bool
  | Effect.get_primitives _ => true
  | Effect.PostMessage _ message _ _ => message == WM_USER_REDRAW
  | Effect.SendMessage _ message _ _ => message == WM_USER_REDRAW
  | Effect.FillRect _ => true
  | Effect.renderer_draw _ _ _ _ => true
  | _ => false

/-- Outside calls on a render lock. -/
def Effect.is_lock : Effect → Bool
  | Effect.osd_lock_acquire _ _ => true
  | Effect.osd_lock_try _ _ _ => true
  | Effect.osd_lock_release _ _ => true
  | _ => false

/-! ## RenderSync -/

/-- Modelled from the spec: `osd_lock_acquire` (`acquire_blocking()`, "waits until
available"); `none` when the caller has to wait because the lock is held. -/
def osd_lock_acquire (thread : Nat) (lock : osd_lock) : Option osd_lock :=
  if lock.holder = none then some ⟨some thread⟩ else none

/-- Modelled from the spec: `osd_lock_try` (`try_acquire()`, "returns immediately with
a success/failure result"). -/
def osd_lock_try (thread : Nat) (lock : osd_lock) : Bool × osd_lock :=
  if lock.holder = none then (true, ⟨some thread⟩) else (false, lock)

/-- Modelled from the spec: `osd_lock_release`, the lock is available afterwards. -/
def osd_lock_release (_lock : osd_lock) : osd_lock := ⟨none⟩

/-! ## Drawing on the window thread -/

/-- The part of `draw_video_contents` that runs with the render lock held
(the `if (window->m_hwnd != NULL && !IsIconic(window->m_hwnd))` statement);
`iconic` is the result of `IsIconic`. The call through `m_renderer` is recorded
with the pointer used and with the primitive list the window holds. -/
def draw_video_contents_locked ( iconic : Bool) (w : World) (window : win_window_info)
    (dc : Nat) (update : Int) : World :=
  if window.m_hwnd ≠ 0 ∧ iconic = false then
    if window.m_primlist = 0 then
      w.emit (Effect.FillRect dc)
    else
      w.emit (Effect.renderer_draw window.m_renderer dc update window.m_primlist)
  else w

/-- The function `draw_video_contents(window, dc, update)`, run by the window thread. -/
def draw_video_contents ( iconic : Bool) (w : World) (window : win_window_info)
    (dc : Nat) (update : Int) : Option (World × win_window_info) :=
  match osd_lock_acquire w.window_threadid window.m_render_lock with
  | none => none
  | some held =>
    let w1 := w.emit (Effect.osd_lock_acquire window.addr w.window_threadid)
    let w2 := draw_video_contents_locked iconic w1 { window with m_render_lock := held } dc update
    some (w2.emit (Effect.osd_lock_release window.addr w.window_threadid),
          { window with m_render_lock := osd_lock_release held })

/-- Results of the outside calls made while the window procedure handles one message. -/
structure proc_env where
  /-- Value `update_minmax_state` computes for `m_isminimized` in window mode. -/
  isminimized : Int
  /-- Value `update_minmax_state` computes for `m_ismaximized` in window mode. -/
  ismaximized : Int
  /-- Device context returned by `GetDC` or `BeginPaint`. -/
  dc : Nat
  /-- Result of `IsIconic`. -/
  iconic : Bool
  /-- Result of `win_has_menu()`. -/
  has_menu : Bool
  deriving DecidableEq, Repr

/-- The function `update_minmax_state(window)`; the two geometry comparisons are
results of outside calls. -/
def update_minmax_state (env : proc_env) (window : win_window_info) : win_window_info :=
  if window.m_fullscreen = 0 then
    { window with m_isminimized := env.isminimized, m_ismaximized := env.ismaximized }
  else
    { window with m_isminimized := FALSE, m_ismaximized := TRUE }

/-- The window procedure `winwindow_video_window_proc` on `WM_USER_REDRAW` (for a
window whose user data is set): `update_minmax_state`, then the `case`. -/
def window_proc_redraw (env : proc_env) (w : World) (window : win_window_info)
    (lparam : Nat) : Option (World × win_window_info) :=
  let window1 := update_minmax_state env window
  let w1 := w.emit (Effect.GetDC window1.m_hwnd)
  let window2 := { window1 with m_primlist := lparam }
  match draw_video_contents env.iconic w1 window2 env.dc FALSE with
  | none => none
  | some r => some (r.1.emit (Effect.ReleaseDC window1.m_hwnd env.dc), r.2)

/-- The window procedure `winwindow_video_window_proc` on `WM_PAINT`. -/
def window_proc_paint (env : proc_env) (w : World) (window : win_window_info) :
    Option (World × win_window_info) :=
  let window1 := update_minmax_state env window
  let w1 := w.emit (Effect.BeginPaint window1.m_hwnd)
  match draw_video_contents env.iconic w1 window1 env.dc TRUE with
  | none => none
  | some r =>
    let w2 := if env.has_menu then r.1.emit (Effect.DrawMenuBar r.2.m_hwnd) else r.1
    some (w2.emit (Effect.EndPaint window1.m_hwnd), r.2)

/-- The window procedure `winwindow_video_window_proc` on `WM_USER_SET_MINSIZE`. -/
def window_proc_set_minsize (env : proc_env) (w : World) (window : win_window_info) :
    World × win_window_info :=
  let window1 := update_minmax_state env window
  (w.emit (Effect.minimize_window window1.m_hwnd), window1)

/-- The window procedure `winwindow_video_window_proc` on `WM_USER_SET_MAXSIZE`. -/
def window_proc_set_maxsize (env : proc_env) (w : World) (window : win_window_info) :
    World × win_window_info :=
  let window1 := update_minmax_state env window
  (w.emit (Effect.maximize_window window1.m_hwnd), window1)

/-! ## Frame update on the main thread -/

/-- Results of the outside calls made by `win_window_info::update()`. -/
structure update_env where
  /-- Result of `m_target->view()`. -/
  view : Int
  /-- Result of `m_target->orientation()`. -/
  orientation : Int
  /-- Result of `m_target->layer_config()`. -/
  layer_config : Nat
  /-- Result of `machine().video().throttled()`. -/
  throttled : Bool
  /-- Result of `timeGetTime()` in the blocking test. -/
  time_check : Nat
  /-- Result of `timeGetTime()` stored in `last_update_time`. -/
  time_post : Nat
  /-- Result of `m_renderer->get_primitives()`. -/
  primlist : Nat
  /-- Outside results while `WM_USER_SET_MINSIZE` is handled. -/
  minsize : proc_env
  /-- Outside results while `WM_USER_SET_MAXSIZE` is handled. -/
  maxsize : proc_env
  /-- Outside results while `WM_USER_REDRAW` is handled (single-thread mode). -/
  redraw : proc_env
  deriving DecidableEq, Repr

/-- The statement `if (m_isminimized) SendMessage(m_hwnd, WM_USER_SET_MINSIZE, 0, 0);` of
`win_window_info::update()`. `SendMessage` is recorded and then the window procedure
runs to completion on the window's thread. -/
def update_send_minsize (env : update_env) (w : World) (window : win_window_info) :
    World × win_window_info :=
  if window.m_isminimized ≠ 0 then
    if window.m_hwnd ≠ 0 then
      window_proc_set_minsize env.minsize
        (w.emit (Effect.SendMessage window.m_hwnd WM_USER_SET_MINSIZE 0 0)) window
    else
      -- a null handle reaches no window procedure
      (w.emit (Effect.SendMessage window.m_hwnd WM_USER_SET_MINSIZE 0 0), window)
  else (w, window)

/-- The statement `if (m_ismaximized) SendMessage(m_hwnd, WM_USER_SET_MAXSIZE, 0, 0);` of
`win_window_info::update()`. -/
def update_send_maxsize (env : update_env) (w : World) (window : win_window_info) :
    World × win_window_info :=
  if window.m_ismaximized ≠ 0 then
    if window.m_hwnd ≠ 0 then
      window_proc_set_maxsize env.maxsize
        (w.emit (Effect.SendMessage window.m_hwnd WM_USER_SET_MAXSIZE 0 0)) window
    else
      (w.emit (Effect.SendMessage window.m_hwnd WM_USER_SET_MAXSIZE 0 0), window)
  else (w, window)

/-- First statement of `win_window_info::update()`: "see if the target has changed
significantly in window mode". -/
def update_target_changed (env : update_env) (w : World) (window : win_window_info) :
    World × win_window_info :=
  if env.view ≠ window.m_targetview ∨ env.orientation ≠ window.m_targetorient
      ∨ env.layer_config ≠ window.m_targetlayerconfig then
    let window1 := { window with m_targetview := env.view, m_targetorient := env.orientation,
                                 m_targetlayerconfig := env.layer_config }
    -- in window mode, reminimize/maximize
    if window1.m_fullscreen = 0 then
      let a := update_send_minsize env w window1
      update_send_maxsize env a.1 a.2
    else (w, window1)
  else (w, window)

/-- The fields of a window that `update()` tests before drawing, its lock and its
creation state are the same in both objects. -/
def same_surface (window window' : win_window_info) : Prop :=
  window'.addr = window.addr ∧ window'.m_hwnd = window.m_hwnd ∧
  window'.m_target = window.m_target ∧ window'.m_renderer = window.m_renderer ∧
  window'.m_render_lock = window.m_render_lock ∧ window'.m_primlist = window.m_primlist ∧
  window'.m_init_state = window.m_init_state

/-- The world `w'` is `w` with more calls in the trace, none of which draws a frame or
touches a render lock. -/
def quiet_extension (w w' : World) : Prop :=
  ∃ l : List Effect, w' = { w with trace := w.trace ++ l } ∧
    l.all (fun e => !e.is_frame && !e.is_lock) = true

/-- The block `if (got_lock) { ... }` of `win_window_info::update()`, entered with the
render lock held by the main thread. -/
def update_got_lock (env : update_env) (w : World) (window : win_window_info) :
    Option (World × win_window_info) :=
  -- don't hold the lock; we just used it to see if rendering was still happening
  let w1 := w.emit (Effect.osd_lock_release window.addr w.main_threadid)
  let window1 := { window with m_render_lock := osd_lock_release window.m_render_lock }
  let w2 := w1.emit (Effect.get_primitives window1.m_renderer)
  let w3 := { w2 with last_update_time := env.time_post }
  if w3.multithreading_enabled then
    some (PostMessage w3 window1.m_hwnd WM_USER_REDRAW 0 env.primlist, window1)
  else
    window_proc_redraw env.redraw
      (w3.emit (Effect.SendMessage window1.m_hwnd WM_USER_REDRAW 0 env.primlist))
      window1 env.primlist

/-- Second statement of `win_window_info::update()`: "if we're visible and running and
not in the middle of a resize, draw". `none` when the blocking acquire has to wait. -/
def update_draw (env : update_env) (w : World) (window : win_window_info) :
    Option (World × win_window_info) :=
  if window.m_hwnd ≠ 0 ∧ window.m_target ≠ 0 ∧ window.m_renderer ≠ 0 then
    -- only block if we're throttled
    if env.throttled = true ∨ 250 < u32 ((env.time_check : Int) - (w.last_update_time : Int)) then
      match osd_lock_acquire w.main_threadid window.m_render_lock with
      | none => none
      | some held =>
        update_got_lock env (w.emit (Effect.osd_lock_acquire window.addr w.main_threadid))
          { window with m_render_lock := held }
    else
      let r := osd_lock_try w.main_threadid window.m_render_lock
      let w1 := w.emit (Effect.osd_lock_try window.addr w.main_threadid r.1)
      if r.1 then update_got_lock env w1 { window with m_render_lock := r.2 }
      else some (w1, { window with m_render_lock := r.2 })
  else some (w, window)

/-- The method `win_window_info::update()`. -/
def win_window_info.update (env : update_env) (w : World) (window : win_window_info) :
    Option (World × win_window_info) :=
  let r := update_target_changed env w window
  update_draw env r.1 r.2

/-- The constructor `win_window_info::win_window_info(machine)` for the object at
`addr`: every field is zero, the surface handle and renderer are null and
`m_init_state` is 0 (pending). -/
def win_window_info.new (addr : Nat) : win_window_info :=
  { addr := addr, m_hwnd := 0, m_focus_hwnd := 0, m_init_state := 0, m_startmaximized := 0,
    m_isminimized := 0, m_ismaximized := 0, m_monitor := 0, m_fullscreen := 0,
    m_fullscreen_safe := 0, m_maxwidth := 0, m_maxheight := 0, m_refresh := 0,
    m_render_lock := ⟨none⟩, m_target := 0, m_targetview := 0, m_targetorient := 0,
    m_targetlayerconfig := 0, m_lastclicktime := 0, m_lastclickx := 0, m_lastclicky := 0,
    m_renderer := 0, m_primlist := 0, m_resize_state := 0 }

/-- A window with a live surface, target and renderer, and no outside results that
matter: used as a concrete input. -/
def sample_window : win_window_info :=
  { win_window_info.new 16 with m_hwnd := 7, m_target := 8, m_renderer := 9, m_init_state := 1 }

/-- Outside results for one window-procedure call: window mode geometry says neither
minimized nor maximized, device context 5, not iconic, no menu. -/
def sample_proc_env : proc_env := ⟨0, 0, 5, false, false⟩

/-- Outside results for one `update()`: unchanged target, not throttled, 100 ms after
the last update, primitive list 11. -/
def sample_update_env : update_env :=
  { view := 0, orientation := 0, layer_config := 0, throttled := false, time_check := 100,
    time_post := 101, primlist := 11, minsize := sample_proc_env, maxsize := sample_proc_env,
    redraw := sample_proc_env }

/-! ## Window creation -/

/-- Arguments of `winwindow_video_window_create` and results of the outside calls it
makes before the handshake. -/
structure window_create_env where
  /-- Address returned by `global_alloc(win_window_info(machine))`. -/
  addr : Nat
  /-- Argument `monitor`. -/
  monitor : Nat
  /-- Field `config->width`. -/
  width : Int
  /-- Field `config->height`. -/
  height : Int
  /-- Field `config->refresh`. -/
  refresh : Int
  /-- Value of `video_config.windowed`. -/
  windowed : Bool
  /-- Result of `machine.render().target_alloc()`. -/
  target : Nat
  /-- Result of `m_target->view()`. -/
  view : Int
  /-- Result of `m_target->orientation()`. -/
  orientation : Int
  /-- Result of `m_target->layer_config()`. -/
  layer_config : Nat
  /-- Result of `options.maximize()`. -/
  maximize : Bool
  deriving DecidableEq, Repr

/-- The window object `winwindow_video_window_create` has built when it reaches the
handshake: the constructor's zeros, the configuration, the fullscreen-safe test
against the registry `win_window_list`, a fresh lock and the render target. -/
def created_window (cfg : window_create_env) (win_window_list : List win_window_info) :
    win_window_info :=
  { win_window_info.new cfg.addr with
    m_maxwidth := cfg.width
    m_maxheight := cfg.height
    m_refresh := cfg.refresh
    m_monitor := cfg.monitor
    m_fullscreen := if cfg.windowed then 0 else 1
    -- see if we are safe for fullscreen
    m_fullscreen_safe := if win_window_list.any (fun win => win.m_monitor == cfg.monitor)
                         then FALSE else TRUE
    m_render_lock := ⟨none⟩
    m_target := cfg.target
    m_targetview := cfg.view
    m_targetorient := cfg.orientation
    m_targetlayerconfig := cfg.layer_config
    m_startmaximized := if cfg.maximize then 1 else 0 }

/-- The function `winwindow_video_window_create` up to its polling loop: the new window
is appended to the registry (the tail pointer designating the end of the list), then
in dual-thread mode one `WM_USER_FINISH_CREATE_WINDOW` carrying the window pointer is
posted to the window thread, and in single-thread mode `complete_create` runs in place
and `m_init_state` is assigned from its result. -/
def winwindow_video_window_create_start (cfg : window_create_env) (env : create_env)
    (w : World) : World :=
  let window := created_window cfg w.win_window_list
  -- add us to the list
  let w1 := { w with win_window_list := w.win_window_list ++ [window] }
  let w2 := ((w1.emit (Effect.osd_lock_alloc window.addr)).emit
    (Effect.target_alloc window.m_target)).emit (Effect.set_starting_view window.m_target)
  -- finish the window creation on the window thread
  if w2.multithreading_enabled then
    PostThreadMessage (w2.emit Effect.WaitForSingleObject_window_thread_ready_event)
      w2.window_threadid WM_USER_FINISH_CREATE_WINDOW 0 window.addr
  else
    let r := complete_create env w2 window
    r.1.store { r.2.1 with m_init_state := if r.2.2 ≠ 0 then -1 else 1 }

/-- The loop `while (GetMessage(&message, NULL, 0, 0))` of `thread_entry` over the
messages `GetMessage` returns, in order; the loop ends on `WM_QUIT`. -/
def thread_entry_loop (env : create_env) (input : Int → Int → Int → Int → Bool) :
    List MSG → World → World
  | [], w => w
  | message :: rest, w =>
    if message.message = WM_QUIT then w
    else thread_entry_loop env input rest (thread_entry_message env input w message)

/-- The value of `m_init_state` of the window object at `addr`, when it is registered. -/
def World.init_state (w : World) (addr : Nat) : Option Int :=
  (w.window addr).map (fun window => window.m_init_state)

/-- Outside results for one `complete_create`: no menu, surface handle 7, a video mode
other than none, renderer 9 whose `create()` succeeds, device context 5. -/
def sample_create_env : create_env := ⟨false, false, 7, false, 9, false, 5⟩

/-- Arguments for one `winwindow_video_window_create`: object at address 16 on monitor 3,
windowed, render target 8. -/
def sample_create_config : window_create_env :=
  { addr := 16, monitor := 3, width := 0, height := 0, refresh := 0, windowed := true,
    target := 8, view := 0, orientation := 0, layer_config := 0, maximize := false }

/-! ## Frames in the two threading modes -/

/-- The call is a renderer `draw` invocation. -/
def Effect.is_draw : Effect → Bool
  | Effect.renderer_draw _ _ _ _ => true
  | _ => false

/-- The renderer `draw` invocations recorded in a trace, in order. -/
def draws (trace : List Effect) : List Effect :=
  trace.filter Effect.is_draw

/-- The window procedure on `WM_USER_REDRAW` up to the moment `draw_video_contents` has
acquired the render lock; `none` while the lock is held by another thread. -/
def window_proc_redraw_begin (env : proc_env) (w : World) (window : win_window_info)
    (lparam : Nat) : Option (World × win_window_info) :=
  let window1 := update_minmax_state env window
  let w1 := w.emit (Effect.GetDC window1.m_hwnd)
  let window2 := { window1 with m_primlist := lparam }
  match osd_lock_acquire w1.window_threadid window2.m_render_lock with
  | none => none
  | some held =>
    some (w1.emit (Effect.osd_lock_acquire window2.addr w1.window_threadid),
          { window2 with m_render_lock := held })

/-- The window procedure on `WM_USER_REDRAW` from the moment `draw_video_contents` holds
the render lock: the drawing, the release and `ReleaseDC`. -/
def window_proc_redraw_end (env : proc_env) (w : World) (window : win_window_info) :
    World × win_window_info :=
  let w2 := draw_video_contents_locked env.iconic w window env.dc FALSE
  ((w2.emit (Effect.osd_lock_release window.addr w.window_threadid)).emit
      (Effect.ReleaseDC window.m_hwnd env.dc),
    { window with m_render_lock := osd_lock_release window.m_render_lock })

/-- One window seen by the two threads: the globals, the window object, and whether
the window thread is inside `draw_video_contents` with the render lock held. -/
structure frame_system where
  world : World
  window : win_window_info
  drawing : Bool
  deriving DecidableEq, Repr

/-- The steps of the two threads on the frame path. The main thread's `update()` is
one step (it never keeps the lock across calls); the window thread handles a queued
`WM_USER_REDRAW` in two steps, before and after the point where it holds the lock. -/
inductive frame_action where
  | update (env : update_env)
  | redraw_begin
  | redraw_end
  deriving DecidableEq, Repr

/-- One step of the dual-thread system; `none` when the thread cannot take the step in
this state (the main thread waits for the lock or for a sent message to be handled,
the window thread has no redraw message to handle). `penv` holds the outside results
of the window procedure. -/
def frame_step (cenv : create_env) (input : Int → Int → Int → Int → Bool) (penv : proc_env)
    (s : frame_system) : frame_action → Option frame_system
  | frame_action.update env =>
    -- a cross-thread SendMessage is answered only from the window thread's message loop
    if s.drawing = true ∧ (update_target_changed env s.world s.window).1 ≠ s.world then none
    else
      match s.window.update env s.world with
      | none => none
      | some r => some { s with world := r.1, window := r.2 }
  | frame_action.redraw_begin =>
    if s.drawing = true then none
    else
      match s.world.window_queue with
      | [] => none
      | message :: rest =>
        if message.message = WM_USER_REDRAW ∧ message.hwnd = s.window.m_hwnd then
          let w1 := thread_entry_message cenv input { s.world with window_queue := rest } message
          match window_proc_redraw_begin penv w1 s.window message.lParam with
          | none => none
          | some r => some { world := r.1, window := r.2, drawing := true }
        else none
  | frame_action.redraw_end =>
    if s.drawing = true then
      let r := window_proc_redraw_end penv s.world s.window
      some { world := r.1, window := r.2, drawing := false }
    else none

/-- A schedule of the dual-thread system, first step first. -/
def frame_run (cenv : create_env) (input : Int → Int → Int → Int → Bool) (penv : proc_env) :
    List frame_action → frame_system → Option frame_system
  | [], s => some s
  | a :: rest, s =>
    match frame_step cenv input penv s a with
    | none => none
    | some s1 => frame_run cenv input penv rest s1

/-- A sequence of `update()` calls in single-thread mode, first call first. -/
def update_run : List update_env → World × win_window_info → Option (World × win_window_info)
  | [], r => some r
  | env :: rest, r =>
    match r.2.update env r.1 with
    | none => none
    | some r1 => update_run rest r1

/-- The `update()` requests of a schedule that run while the window thread is not
inside `draw_video_contents`; `drawing` is the state at the start of the schedule. -/
def updates_outside_draw : List frame_action → Bool → List update_env
  | [], _ => []
  | frame_action.update env :: rest, drawing =>
    (if drawing then [] else [env]) ++ updates_outside_draw rest drawing
  | frame_action.redraw_begin :: rest, _ => updates_outside_draw rest true
  | frame_action.redraw_end :: rest, _ => updates_outside_draw rest false

/-- The world of single-thread mode that corresponds to a dual-thread world: the window
thread is the main thread. -/
def World.single_thread (w : World) : World :=
  { w with multithreading_enabled := false, window_threadid := w.main_threadid }

/-- The renderer invocations made by one redraw of the primitive list `p` on the
window: none on a dead or iconic surface or when there is no list (then the client
area is filled), else one `draw` with update flag `FALSE`. -/
def redraw_draws (penv : proc_env) (window : win_window_info) (p : Nat) : List Effect :=
  if window.m_hwnd ≠ 0 ∧ penv.iconic = false then
    if p = 0 then [] else [Effect.renderer_draw window.m_renderer penv.dc FALSE p]
  else []

/-- The renderer invocations a sequence of `update()` requests asks for: one redraw per
request when the window has a live surface, target and renderer, none otherwise. -/
def requested_draws (penv : proc_env) (window : win_window_info) (envs : List update_env) :
    List Effect :=
  if window.m_hwnd ≠ 0 ∧ window.m_target ≠ 0 ∧ window.m_renderer ≠ 0 then
    envs.flatMap (fun env => redraw_draws penv window env.primlist)
  else []

/-- The identity of a window as far as drawing goes: object, surface, target, renderer. -/
def same_core (window window' : win_window_info) : Prop :=
  window'.addr = window.addr ∧ window'.m_hwnd = window.m_hwnd ∧
  window'.m_target = window.m_target ∧ window'.m_renderer = window.m_renderer

/-- The renderer invocations still owed by the window thread: the frame it is drawing
and the redraw messages in its queue. -/
def pending_draws (penv : proc_env) (s : frame_system) : List Effect :=
  (if s.drawing then redraw_draws penv s.window s.window.m_primlist else []) ++
  s.world.window_queue.flatMap (fun m => redraw_draws penv s.window m.lParam)

/-- Invariant of the dual-thread frame system: two distinct threads, the render lock is
held exactly while the window thread draws, and the window thread's queue holds only
redraw messages for the window. -/
def frame_inv (s : frame_system) : Prop :=
  s.world.multithreading_enabled = true ∧
  s.world.window_threadid ≠ s.world.main_threadid ∧
  s.window.m_render_lock.holder
    = (if s.drawing then some s.world.window_threadid else none) ∧
  ∀ m ∈ s.world.window_queue, m.message = WM_USER_REDRAW ∧ m.hwnd = s.window.m_hwnd

/-- The world `w'` has the threading set-up of `w` and the same renderer invocations. -/
def same_draws (w w' : World) : Prop :=
  w'.multithreading_enabled = w.multithreading_enabled ∧
  w'.main_threadid = w.main_threadid ∧ w'.window_threadid = w.window_threadid ∧
  draws w'.trace = draws w.trace

/-- The claim's table of mouse-button messages: the button index (left 0, right 1,
middle 2, X 3) and the down flag of each of the eight messages, `none` for every
other message. -/
def spec_mouse_button (message : Nat) : Option (Int × Int) :=
  if message = WM_LBUTTONDOWN then some (0, TRUE)
  else if message = WM_LBUTTONUP then some (0, FALSE)
  else if message = WM_RBUTTONDOWN then some (1, TRUE)
  else if message = WM_RBUTTONUP then some (1, FALSE)
  else if message = WM_MBUTTONDOWN then some (2, TRUE)
  else if message = WM_MBUTTONUP then some (2, FALSE)
  else if message = WM_XBUTTONDOWN then some (3, TRUE)
  else if message = WM_XBUTTONUP then some (3, FALSE)
  else none

/-- Invariant linking the cross-thread pause signal to the machine: the signal is
raised only at a depth of at least one, and at such a depth the machine is paused. -/
def signal_inv (w : World) : Prop :=
  (w.ui_pause_event = true → 1 ≤ w.ui_temp_pause) ∧
  (1 ≤ w.ui_temp_pause → w.machine_paused = true)

/-! ## `winwindow_process_events` and its periodic entry -/

/-- Win32 `GetTickCount()` at `time` milliseconds after system start: a `DWORD`, so the
value wraps to zero every 2^32 ms. -/
def GetTickCount (time : Nat) : Nat := time % 2 ^ 32

/-- The loop `while (PeekMessage(&message, NULL, 0, 0, PM_REMOVE))` of
`winwindow_process_events` over the messages that one drain of the queue returns. -/
def process_events_drain (exec : Nat → Nat → World → World)
    (input : Int → Int → Int → Int → Bool) ( nodispatch : Bool) (w : World)
    (messages : List MSG) : World :=
  messages.foldl (process_events_message exec input nodispatch) w

/-- The loop `do { ... } while (ui_temp_pause > 0)` of `winwindow_process_events`.
`drains` lists, for each pass over the queue, the messages `PeekMessage` returns before
the queue is empty; with the pause depth above zero the pass starts with `WaitMessage()`,
which blocks when no further message arrives (`none`). -/
def process_events_loop (exec : Nat → Nat → World → World)
    (input : Int → Int → Int → Int → Bool) ( nodispatch : Bool) :
    List (List MSG) → World → Option World
  | [], w => if 0 < w.ui_temp_pause then none else some w
  | messages :: rest, w =>
    -- if we are paused, lets wait for a message
    let w1 := if 0 < w.ui_temp_pause then w.emit Effect.WaitMessage else w
    let w2 := process_events_drain exec input nodispatch w1 messages
    if 0 < w2.ui_temp_pause then process_events_loop exec input nodispatch rest w2
    else some w2

/-- The function `winwindow_process_events(machine, ingame, nodispatch)`, called at
`time`: the tick is remembered in `last_event_check`, the queue is drained until the
pause depth is not above zero, then the cursor state is updated. -/
def winwindow_process_events (exec : Nat → Nat → World → World)
    (input : Int → Int → Int → Int → Bool) (_ingame : Int) ( nodispatch : Bool)
    (time : Nat) (drains : List (List MSG)) (w : World) : Option World :=
  -- remember the last time we did this
  let w1 := { w with last_event_check := GetTickCount time }
  (process_events_loop exec input nodispatch drains w1).map
    (fun v => v.emit Effect.winwindow_update_cursor_state)

/-- The function `winwindow_process_events_periodic(machine)` called at `time_check`;
`time_pass` is the time at which the pump pass, when there is one, reads the tick
counter. The difference of the two `DWORD`s wraps modulo 2^32. -/
def winwindow_process_events_periodic (exec : Nat → Nat → World → World)
    (input : Int → Int → Int → Int → Bool) (time_check time_pass : Nat)
    (drains : List (List MSG)) (w : World) : Option World :=
  let currticks := GetTickCount time_check
  -- update once every 1/8th of a second
  if u32 ((currticks : Int) - (w.last_event_check : Int)) < 1000 / 8 then some w
  else winwindow_process_events exec input TRUE false time_pass drains w

/-! ## `winwindow_video_window_create`: the polling loop and the error check -/

/-- One round of the schedule under which the polling loop of
`winwindow_video_window_create` runs in dual-thread mode: what the window thread handles
before the main thread tests `m_init_state`, then, if the window is still pending, the
time and the queue drains of the pump pass the main thread makes. -/
structure poll_round where
  /-- Messages `GetMessage` returns to the window thread before the test. -/
  window_thread : List MSG
  /-- Time at which `winwindow_process_events` reads the tick counter. -/
  time : Nat
  /-- Messages of each drain of the main thread's queue during the pump pass. -/
  drains : List (List MSG)
  deriving DecidableEq, Repr

/-- Where the polling loop stands when the rounds of a schedule are used up. -/
inductive poll_result where
  /-- The loop has ended: `m_init_state` was not 0 at a test. -/
  | done (w : World)
  /-- The window is still pending and the loop goes on. -/
  | pending (w : World)
  /-- A pump pass of the loop does not return. -/
  | blocked
  deriving DecidableEq, Repr

/-- The loop `while (window->m_init_state == 0) { winwindow_process_events(machine, 0, 1);
Sleep(1); }` for the window object at `addr`, over the rounds of a schedule. -/
def create_poll (env : create_env) (exec : Nat → Nat → World → World)
    (input : Int → Int → Int → Int → Bool) (addr : Nat) :
    List poll_round → World → poll_result
  | [], w => if w.init_state addr = some 0 then poll_result.pending w else poll_result.done w
  | r :: rest, w =>
    let v := thread_entry_loop env input r.window_thread w
    if v.init_state addr = some 0 then
      -- pump the message queue
      match winwindow_process_events exec input 0 true r.time r.drains v with
      | none => poll_result.blocked
      | some v1 => create_poll env exec input addr rest v1
    else poll_result.done v

/-- The function `winwindow_video_window_create(machine, index, monitor, config)`:
`none` when the call has not returned within the schedule `polls`, the exception of
`fatalerror` as `Except.error`, and the world at a normal return otherwise. -/
def winwindow_video_window_create (cfg : window_create_env) (env : create_env)
    (exec : Nat → Nat → World → World) (input : Int → Int → Int → Int → Bool)
    (polls : List poll_round) (w : World) : Option (Except String World) :=
  let w1 := winwindow_video_window_create_start cfg env w
  let r := if w.multithreading_enabled then create_poll env exec input cfg.addr polls w1
           else poll_result.done w1
  match r with
  | poll_result.done w2 =>
    -- handle error conditions
    if w2.init_state cfg.addr = some (-1) then
      some (Except.error "Unable to complete window creation\n")
    else some (Except.ok w2)
  | poll_result.pending _ => none
  | poll_result.blocked => none

/-! ## The registry as a linked list -/

/-- What a `win_window_info **` of the file points at: the global head pointer
`win_window_list`, or the field `m_next` of the window object at an address. -/
inductive window_link where
  /-- The address `&win_window_list`. -/
  | head
  /-- The address `&window->m_next`. -/
  | next (window : Nat)
  deriving DecidableEq, Repr

/-- The pointers that thread the registry: the global head, the field `m_next` of the
window object at each address, and the global `last_window_ptr`. The list
`World.win_window_list` is the chain these pointers describe, head first. -/
structure window_links where
  /-- The global `win_window_list`. -/
  win_window_list : Nat
  /-- The field `m_next` of the window object at each address. -/
  m_next : Nat → Nat
  /-- The global `last_window_ptr`. -/
  last_window_ptr : window_link

/-- The read `*ptr` of a link. -/
def window_links.get (l : window_links) : window_link → Nat
  | window_link.head => l.win_window_list
  | window_link.next window => l.m_next window

/-- The write `*ptr = value` of a link. -/
def window_links.set (l : window_links) : window_link → Nat → window_links
  | window_link.head, value => { l with win_window_list := value }
  | window_link.next window, value =>
    { l with m_next := fun a => if a = window then value else l.m_next a }

/-- The part of `window_init` that sets up the window list. -/
def window_init_list (l : window_links) : window_links :=
  -- set up the window list
  { l with last_window_ptr := window_link.head }

/-- The part of `winwindow_video_window_create` that links the new object at address
`window` into the registry: the constructor has set its `m_next` to null. -/
def video_window_create_list (l : window_links) (window : Nat) : window_links :=
  -- win_window_info::win_window_info: m_next(NULL)
  let l1 := { l with m_next := fun a => if a = window then 0 else l.m_next a }
  -- add us to the list
  let l2 := l1.set l1.last_window_ptr window
  { l2 with last_window_ptr := window_link.next window }

/-- The loop `for (prevptr = &win_window_list; *prevptr != NULL; prevptr =
&(*prevptr)->m_next)` of `winwindow_video_window_destroy` from `prevptr` on, with at
most `fuel` tests of the loop condition (`none` when they do not suffice). -/
def video_window_destroy_loop (l : window_links) (window : Nat) :
    Nat → window_link → Option window_links
  | 0, _ => none
  | fuel + 1, prevptr =>
    if l.get prevptr = 0 then some l
    else if l.get prevptr = window then
      -- *prevptr = window->m_next; break;
      some (l.set prevptr (l.m_next window))
    else video_window_destroy_loop l window fuel (window_link.next (l.get prevptr))

/-- The part of `winwindow_video_window_destroy` that removes the object at address
`window` from the registry. -/
def video_window_destroy_list (fuel : Nat) (l : window_links) (window : Nat) :
    Option window_links :=
  -- remove us from the list
  video_window_destroy_loop l window fuel window_link.head

/-- The loop `while (win_window_list != NULL)` of `window_exit` on the registry
pointers, with at most `fuel` tests of its condition: the pointers afterwards and the
addresses passed to `winwindow_video_window_destroy`, in call order. -/
def window_exit_list : Nat → window_links → Option (window_links × List Nat)
  | 0, _ => none
  | fuel + 1, l =>
    if l.win_window_list = 0 then some (l, [])
    else
      let temp := l.win_window_list
      let l1 := { l with win_window_list := l.m_next temp }
      match video_window_destroy_list (fuel + 1) l1 temp with
      | none => none
      | some l2 =>
        match window_exit_list fuel l2 with
        | none => none
        | some r => some (r.1, temp :: r.2)

/-- The chain of window objects from the pointer value `p`: `linked m_next p xs` holds
when following `m_next` from `p` visits exactly the addresses `xs`, in order, and then
reaches null. -/
def linked (m_next : Nat → Nat) : Nat → List Nat → Bool
  | p, [] => p == 0
  | p, a :: rest => p == a && (a != 0 && linked m_next (m_next a) rest)

/-- The registry described by the pointers is the list `xs` of window addresses. -/
def window_links.registry (l : window_links) (xs : List Nat) : Prop :=
  linked l.m_next l.win_window_list xs = true

/-- The link that ends the chain `xs`: the head pointer of an empty registry, the
`m_next` field of the last window otherwise. -/
def tail_link (xs : List Nat) : window_link :=
  match xs.getLast? with
  | none => window_link.head
  | some a => window_link.next a

/-! ## Destroying windows -/

/-- The window procedure `winwindow_video_window_proc` on `WM_DESTROY`: the rendering
bits are released and the renderer and surface handle are nulled. -/
def window_proc_destroy (env : proc_env) (w : World) (window : win_window_info)
    (wparam lparam : Nat) : World × win_window_info :=
  let window1 := update_minmax_state env window
  -- window->m_renderer->destroy(); global_free(window->m_renderer);
  let w1 := (w.emit (Effect.renderer_destroy window1.m_renderer)).emit
    (Effect.global_free window1.m_renderer)
  let window2 := { window1 with m_renderer := 0, m_hwnd := 0 }
  (w1.emit (Effect.DefWindowProc window1.m_hwnd WM_DESTROY wparam lparam), window2)

/-- The window procedure `winwindow_video_window_proc` on `WM_USER_SELF_TERMINATE`.
Win32 `DestroyWindow` sends `WM_DESTROY` to the window procedure before it returns;
`denv` holds the outside results of that nested call. -/
def window_proc_self_terminate (env denv : proc_env) (w : World) (window : win_window_info) :
    World × win_window_info :=
  let window1 := update_minmax_state env window
  -- DestroyWindow(window->m_hwnd);
  window_proc_destroy denv (w.emit (Effect.DestroyWindow window1.m_hwnd)) window1 0 0

/-- The function `winwindow_video_window_destroy(window)`. The list operation is what
the pointer loop `video_window_destroy_list` does to the chain. Win32 `SendMessage`
runs the window procedure of the target window before it returns. -/
def winwindow_video_window_destroy (env denv : proc_env) (w : World)
    (window : win_window_info) : World :=
  -- remove us from the list
  let w1 := { w with win_window_list :=
    w.win_window_list.eraseP (fun x => x.addr == window.addr) }
  -- destroy the window
  let r := if window.m_hwnd ≠ 0 then
      window_proc_self_terminate env denv
        (w1.emit (Effect.SendMessage window.m_hwnd WM_USER_SELF_TERMINATE 0 0)) window
    else (w1, window)
  -- free the render target, the lock and the window itself
  ((r.1.emit (Effect.target_free r.2.m_target)).emit (Effect.osd_lock_free r.2.addr)).emit
    (Effect.global_free r.2.addr)

/-- The loop `while (win_window_list != NULL)` of `window_exit`, with at most `fuel`
tests of its condition (`none` when they do not suffice). -/
def window_exit_loop (env denv : proc_env) : Nat → World → Option World
  | 0, _ => none
  | fuel + 1, w =>
    match w.win_window_list with
    | [] => some w
    | temp :: rest =>
      -- win_window_list = temp->m_next; winwindow_video_window_destroy(temp);
      window_exit_loop env denv fuel
        (winwindow_video_window_destroy env denv { w with win_window_list := rest } temp)

/-- The function `windows_osd_interface::window_exit()`. The wait for the window thread
and the loop that shows the cursor again are recorded as one call each. Of the two
handle tests, `ui_pause_event` is non-null after `window_init` (which stops with a fatal
error otherwise) and `window_thread_ready_event` is created in dual-thread mode only. -/
def window_exit (env denv : proc_env) (fuel : Nat) (w : World) : Option World :=
  -- free all the windows
  match window_exit_loop env denv fuel w with
  | none => none
  | some w1 =>
    -- kill the drawers
    let w2 := w1.emit Effect.draw_exit
    -- if we're multithreaded, clean up the window thread
    let w3 := if w2.multithreading_enabled then
        (PostThreadMessage w2 w2.window_threadid WM_USER_SELF_TERMINATE 0 0).emit
          Effect.WaitForSingleObject_window_thread
      else w2
    -- kill the UI pause event
    let w4 := w3.emit Effect.CloseHandle_ui_pause_event
    -- kill the window thread ready event
    let w5 := if w4.multithreading_enabled then
        w4.emit Effect.CloseHandle_window_thread_ready_event
      else w4
    -- if we hid the cursor during the emulation, show it
    some (w5.emit (Effect.ShowCursor true))

/-- The outside calls the specification expects from destroying one window: the
self-terminate message and the teardown of the surface when the surface handle is live,
then the release of the render target, of the render lock and of the object. -/
def destroy_calls (window : win_window_info) : List Effect :=
  (if window.m_hwnd ≠ 0 then
    [Effect.SendMessage window.m_hwnd WM_USER_SELF_TERMINATE 0 0,
     Effect.DestroyWindow window.m_hwnd,
     Effect.renderer_destroy window.m_renderer,
     Effect.global_free window.m_renderer,
     Effect.DefWindowProc window.m_hwnd WM_DESTROY 0 0]
   else []) ++
  [Effect.target_free window.m_target, Effect.osd_lock_free window.addr,
   Effect.global_free window.addr]

/-- The outside calls the specification expects from destroying the windows of a
registry, head first. -/
def exit_calls : List win_window_info → List Effect
  | [] => []
  | window :: rest => destroy_calls window ++ exit_calls rest

/-! ## Mouse clicks in the window procedure -/

/-- The window procedure `winwindow_video_window_proc` on `WM_LBUTTONDOWN`, called at
`time`; `double_click_time` is the result of `GetDoubleClickTime()`. The difference of
the two `DWORD` ticks wraps modulo 2^32. -/
def window_proc_lbuttondown (env : proc_env) (time double_click_time : Nat) (w : World)
    (window : win_window_info) (lparam : Nat) : World × win_window_info :=
  let window1 := update_minmax_state env window
  let ticks := GetTickCount time
  let w1 := w.emit (Effect.ui_input_push_mouse_down_event window1.m_target
    (GET_X_LPARAM lparam) (GET_Y_LPARAM lparam))
  -- check for a double-click
  if u32 ((ticks : Int) - (window1.m_lastclicktime : Int)) < double_click_time ∧
      GET_X_LPARAM lparam ≥ window1.m_lastclickx - 4 ∧
      GET_X_LPARAM lparam ≤ window1.m_lastclickx + 4 ∧
      GET_Y_LPARAM lparam ≥ window1.m_lastclicky - 4 ∧
      GET_Y_LPARAM lparam ≤ window1.m_lastclicky + 4 then
    (w1.emit (Effect.ui_input_push_mouse_double_click_event window1.m_target
        (GET_X_LPARAM lparam) (GET_Y_LPARAM lparam)),
     { window1 with m_lastclicktime := 0 })
  else
    (w1, { window1 with
      m_lastclicktime := ticks
      m_lastclickx := GET_X_LPARAM lparam
      m_lastclicky := GET_Y_LPARAM lparam })

/-- Three presses of the left button on the window `window` at the same position
`lparam`, at the times `t1`, `t2` and `t3`. -/
def three_clicks (env : proc_env) (double_click_time t1 t2 t3 : Nat) (w : World)
    (window : win_window_info) (lparam : Nat) : World × win_window_info :=
  let r1 := window_proc_lbuttondown env t1 double_click_time w window lparam
  let r2 := window_proc_lbuttondown env t2 double_click_time r1.1 r1.2 lparam
  window_proc_lbuttondown env t3 double_click_time r2.1 r2.2 lparam

/-! ## `set_fullscreen` -/

/-- Results of the outside calls and reads `set_fullscreen` makes. -/
structure fullscreen_env where
  /-- The test `m_non_fullscreen_bounds.right != m_non_fullscreen_bounds.left`. -/
  has_bounds : Bool
  /-- The comparison `video_config.mode == VIDEO_MODE_NONE`. -/
  video_mode_none : Bool
  /-- Object returned by `draw.create(window)`. -/
  renderer : Nat
  /-- Result of `m_renderer->create()` is non-zero. -/
  renderer_create_failed : Bool
  deriving DecidableEq, Repr

/-- How a call of `set_fullscreen` ends. -/
inductive fullscreen_result where
  /-- The function returns. -/
  | returned (w : World) (window : win_window_info)
  /-- The process ends in `exit(status)`. -/
  | exit (status : Int) (w : World) (window : win_window_info)
  /-- The call `window->m_renderer->destroy()` goes through a null `m_renderer`: the
  behaviour is undefined. -/
  | null_renderer (w : World) (window : win_window_info)
  deriving DecidableEq, Repr

/-- The calls by which `set_fullscreen` configures the surface `hwnd` for the new state
(the two branches of `if (!fullscreen)`). -/
def set_fullscreen_configure (env : fullscreen_env) (hwnd : Nat) (fullscreen : Int) :
    List Effect :=
  if fullscreen = 0 then
    -- adjust the style; force to the bottom, then back on top
    [Effect.SetWindowLong hwnd, Effect.SetWindowLong hwnd, Effect.SetWindowPos hwnd,
     Effect.SetWindowPos hwnd, Effect.SetWindowPos hwnd] ++
    -- if we have previous non-fullscreen bounds, use those
    (if env.has_bounds then [Effect.SetWindowPos hwnd]
     -- otherwise, set a small size and maximize from there
     else [Effect.SetWindowPos hwnd, Effect.maximize_window hwnd])
  else
    -- save the bounds, adjust the style, set topmost
    [Effect.GetWindowRect hwnd, Effect.SetWindowLong hwnd, Effect.SetWindowLong hwnd,
     Effect.SetWindowPos hwnd, Effect.SetWindowPos hwnd]

/-- The function `set_fullscreen(window, fullscreen)`. -/
def set_fullscreen (env : fullscreen_env) (w : World) (window : win_window_info)
    (fullscreen : Int) : fullscreen_result :=
  -- if we're in the right state, punt
  if window.m_fullscreen = fullscreen then fullscreen_result.returned w window
  else
    let window1 := { window with m_fullscreen := fullscreen }
    -- kill off the drawers
    if window1.m_renderer = 0 then fullscreen_result.null_renderer w window1
    else
      let w1 := (w.emit (Effect.renderer_destroy window1.m_renderer)).emit
        (Effect.global_free window1.m_renderer)
      let window2 := { window1 with m_renderer := 0 }
      -- hide ourself
      let w2 := w1.emit (Effect.ShowWindow window2.m_hwnd false)
      let w3 := { w2 with trace :=
        w2.trace ++ set_fullscreen_configure env window2.m_hwnd fullscreen }
      -- adjust the window to compensate for the change
      let w4 := w3.emit (Effect.adjust_window_position_after_major_change window2.m_hwnd)
      -- show ourself
      if window2.m_fullscreen = 0 ∨ window2.m_fullscreen_safe ≠ 0 then
        let w5 := if env.video_mode_none then w4
          else w4.emit (Effect.ShowWindow window2.m_hwnd true)
        let window3 := { window2 with m_renderer := env.renderer }
        let w6 := (w5.emit (Effect.draw_create window3.addr)).emit
          (Effect.renderer_create window3.m_renderer)
        if env.renderer_create_failed then fullscreen_result.exit 1 w6 window3
        else
          -- ensure we're still adjusted correctly
          fullscreen_result.returned
            (w6.emit (Effect.adjust_window_position_after_major_change window3.m_hwnd))
            window3
      else
        fullscreen_result.returned
          (w4.emit (Effect.adjust_window_position_after_major_change window2.m_hwnd))
          window2

/-- Calls that create or destroy a renderer. -/
def Effect.is_renderer_lifetime : Effect → Bool
  | Effect.renderer_destroy _ => true
  | Effect.draw_create _ => true
  | Effect.renderer_create _ => true
  | _ => false

/-- What a call of `set_fullscreen` leaves behind, however it ends. -/
def fullscreen_result.state : fullscreen_result → World × win_window_info
  | fullscreen_result.returned w window => (w, window)
  | fullscreen_result.exit _ w window => (w, window)
  | fullscreen_result.null_renderer w window => (w, window)

/-- The call of `set_fullscreen` returns. -/
def fullscreen_result.is_returned : fullscreen_result → Bool
  | fullscreen_result.returned _ _ => true
  | _ => false

/-- The exit status when the call of `set_fullscreen` ends the process. -/
def fullscreen_result.exit_status : fullscreen_result → Option Int
  | fullscreen_result.exit status _ _ => some status
  | _ => none

/-- The call of `set_fullscreen` ends in the call through a null `m_renderer`. -/
def fullscreen_result.is_null_renderer : fullscreen_result → Bool
  | fullscreen_result.null_renderer _ _ => true
  | _ => false

/-! ## Sequences of window creations and the fullscreen-safe flag -/

/-- One call of `winwindow_video_window_create`: its arguments, the outside results of
the handshake and the schedule of its polling loop. -/
structure create_call where
  /-- Arguments and outside results before the handshake. -/
  cfg : window_create_env
  /-- Outside results of `complete_create`. -/
  env : create_env
  /-- Schedule of the polling loop (dual-thread mode). -/
  polls : List poll_round
  deriving DecidableEq, Repr

/-- A sequence of `winwindow_video_window_create` calls, each returning normally before
the next starts; `none` when one of them does not return or raises the fatal error. -/
def create_calls (exec : Nat → Nat → World → World) (input : Int → Int → Int → Int → Bool) :
    List create_call → World → Option World
  | [], w => some w
  | c :: rest, w =>
    match winwindow_video_window_create c.cfg c.env exec input c.polls w with
    | some (Except.ok w1) => create_calls exec input rest w1
    | _ => none

/-- The monitor and the fullscreen-safe flag of each registered window, in registry
order. -/
def safe_view (ws : List win_window_info) : List (Nat × Int) :=
  ws.map (fun x => (x.m_monitor, x.m_fullscreen_safe))

/-- In a list of monitors and flags, a flag is set exactly on the first entry of each
monitor. -/
def first_on_monitor (v : List (Nat × Int)) : Prop :=
  ∀ (pre : List (Nat × Int)) (p : Nat × Int) (post : List (Nat × Int)),
    v = pre ++ p :: post → (p.2 ≠ 0 ↔ ∀ q ∈ pre, q.1 ≠ p.1)

/-- Invariant linking the pause depth to the machine, for a machine that was
running when the depth was last zero. -/
def pause_inv (w : World) : Prop :=
  (w.ui_temp_pause ≤ 0 → w.machine_paused = false) ∧
  (0 < w.ui_temp_pause → w.machine_paused = true ∧ w.ui_temp_was_paused = false)

/-- Invariant of the pause counter for a machine that was already paused when
the depth was last zero. -/
def pause_inv_ext (w : World) : Prop :=
  w.machine_paused = true ∧ (1 ≤ w.ui_temp_pause → w.ui_temp_was_paused = true)

/-! ## Theorems -/

section PauseLemmas

theorem pause_first (w : World) (p : Int) (hp : p ≠ 0) (hz : w.ui_temp_pause = 0) :
    winwindow_ui_pause_from_main_thread w p =
      if w.machine_paused then
        { w with ui_temp_pause := 1, ui_temp_was_paused := true, ui_pause_event := true }
      else
        { w with ui_temp_pause := 1, ui_temp_was_paused := false, ui_pause_event := true,
                 machine_paused := true, trace := w.trace ++ [Effect.machine_pause] } := by
  unfold winwindow_ui_pause_from_main_thread machine_pause machine_paused
  rw [if_pos hp]
  cases hm : w.machine_paused <;> simp [hz, hm]

theorem pause_nested (w : World) (p : Int) (hp : p ≠ 0) (hz : w.ui_temp_pause ≠ 0) :
    winwindow_ui_pause_from_main_thread w p =
      { w with ui_temp_pause := w.ui_temp_pause + 1 } := by
  unfold winwindow_ui_pause_from_main_thread
  rw [if_pos hp]
  simp [hz]

theorem resume_last (w : World) (hz : w.ui_temp_pause = 1) :
    winwindow_ui_pause_from_main_thread w 0 =
      if w.ui_temp_was_paused then
        { w with ui_temp_pause := 0, ui_pause_event := false }
      else
        { w with ui_temp_pause := 0, ui_pause_event := false,
                 machine_paused := false, trace := w.trace ++ [Effect.machine_resume] } := by
  unfold winwindow_ui_pause_from_main_thread machine_resume
  cases hm : w.ui_temp_was_paused <;> simp [hz, hm]

theorem resume_nested (w : World) (hz : w.ui_temp_pause ≠ 1) :
    winwindow_ui_pause_from_main_thread w 0 =
      { w with ui_temp_pause := w.ui_temp_pause - 1 } := by
  unfold winwindow_ui_pause_from_main_thread
  have : ¬ (w.ui_temp_pause - 1 = 0) := by omega
  simp [this]

theorem pause_step_inv (w : World) (p : Int) (h : pause_inv w) :
    pause_inv (winwindow_ui_pause_from_main_thread w p) ∧
    (winwindow_ui_pause_from_main_thread w p).trace
      = w.trace ++ (run_edges w.ui_temp_pause [p]) := by
  obtain ⟨h0, h1⟩ := h
  by_cases hp : p ≠ 0
  · by_cases hz : w.ui_temp_pause = 0
    · have hm := h0 (by omega)
      rw [pause_first w p hp hz]
      simp [hm, pause_inv, run_edges, hp, hz]
    · rw [pause_nested w p hp hz]
      have hne : ¬ (w.ui_temp_pause ≤ 0 ∧ 0 < w.ui_temp_pause + 1) := by omega
      refine ⟨⟨fun hle => h0 ?_, fun hlt => h1 ?_⟩, ?_⟩
      · simp at hle; omega
      · simp at hlt; omega
      · simp only [run_edges, if_pos hp, if_neg hne, List.append_nil]
  · have hp0 : p = 0 := by simpa using hp
    subst hp0
    by_cases hz : w.ui_temp_pause = 1
    · have hw := h1 (by omega)
      rw [resume_last w hz]
      simp [hw.2, pause_inv, run_edges, hz]
    · rw [resume_nested w hz]
      have hne : ¬ (0 < w.ui_temp_pause ∧ w.ui_temp_pause - 1 ≤ 0) := by omega
      refine ⟨⟨fun hle => h0 ?_, fun hlt => h1 ?_⟩, ?_⟩
      · simp at hle; omega
      · simp at hlt; omega
      · simp only [run_edges, ne_eq, not_true_eq_false, if_false, if_neg hne, List.append_nil]

theorem pause_step_depth (w : World) (p : Int) :
    (winwindow_ui_pause_from_main_thread w p).ui_temp_pause
      = if p ≠ 0 then w.ui_temp_pause + 1 else w.ui_temp_pause - 1 := by
  by_cases hp : p ≠ 0
  · rw [if_pos hp]
    by_cases hz : w.ui_temp_pause = 0
    · rw [pause_first w p hp hz]; split_ifs <;> simp [hz]
    · rw [pause_nested w p hp hz]
  · rw [if_neg hp]
    have hp0 : p = 0 := by simpa using hp
    subst hp0
    by_cases hz : w.ui_temp_pause = 1
    · rw [resume_last w hz]; split_ifs <;> simp [hz]
    · rw [resume_nested w hz]

theorem pause_calls_trace (calls : List Int) :
    ∀ w : World, pause_inv w →
      (pause_calls w calls).trace = w.trace ++ run_edges w.ui_temp_pause calls := by
  induction calls with
  | nil => intro w _; simp [pause_calls, run_edges]
  | cons p rest ih =>
    intro w h
    obtain ⟨hinv, htr⟩ := pause_step_inv w p h
    have := ih (winwindow_ui_pause_from_main_thread w p) hinv
    simp only [pause_calls, List.foldl_cons] at this ⊢
    rw [this, htr, pause_step_depth]
    by_cases hp : p ≠ 0
    · simp [run_edges, hp]
    · have hp0 : p = 0 := by simpa using hp
      simp [run_edges, hp0]

theorem run_edges_pauses (k : Nat) (rest : List Int) :
    ∀ d : Int, 0 < d → run_edges d (List.replicate k TRUE ++ rest) = run_edges (d + k) rest := by
  induction k with
  | zero => intro d _; simp
  | succ k ih =>
    intro d hd
    have hne : ¬ (d ≤ 0 ∧ 0 < d + 1) := by omega
    rw [List.replicate_succ, List.cons_append, run_edges]
    simp only [TRUE, one_ne_zero, ne_eq, not_false_eq_true, if_true, hne, if_false, List.nil_append]
    have := ih (d + 1) (by omega)
    simp only [TRUE] at this
    rw [this]
    push_cast
    ring_nf

theorem run_edges_resumes (k : Nat) :
    run_edges ((k : Int) + 1) (List.replicate (k + 1) FALSE) = [Effect.machine_resume] := by
  induction k with
  | zero => simp [run_edges, FALSE]
  | succ k ih =>
    rw [List.replicate_succ, run_edges]
    have hne : ¬ (0 < ((k + 1 : Nat) : Int) + 1 ∧ ((k + 1 : Nat) : Int) + 1 - 1 ≤ 0) := by
      push_cast; omega
    simp only [FALSE, ne_eq, not_true_eq_false, if_false, hne, List.nil_append]
    have : ((k + 1 : Nat) : Int) + 1 - 1 = (k : Int) + 1 := by push_cast; ring
    rw [this]
    simpa [FALSE] using ih

theorem pause_calls_depth_bounded (calls : List Int) :
    ∀ w : World, w.ui_temp_pause - calls.length ≤ (pause_calls w calls).ui_temp_pause ∧
      (pause_calls w calls).ui_temp_pause ≤ w.ui_temp_pause + calls.length := by
  induction calls with
  | nil => intro w; simp [pause_calls]
  | cons p rest ih =>
    intro w
    have h := ih (winwindow_ui_pause_from_main_thread w p)
    rw [pause_step_depth] at h
    simp only [pause_calls, List.foldl_cons, List.length_cons] at h ⊢
    push_cast
    split_ifs at h <;> omega

theorem pause_step_ext (w : World) (p : Int) (h : pause_inv_ext w) :
    pause_inv_ext (winwindow_ui_pause_from_main_thread w p) ∧
    (winwindow_ui_pause_from_main_thread w p).trace = w.trace := by
  obtain ⟨hm, hw⟩ := h
  by_cases hp : p ≠ 0
  · by_cases hz : w.ui_temp_pause = 0
    · rw [pause_first w p hp hz]
      simp [hm, pause_inv_ext]
    · rw [pause_nested w p hp hz]
      refine ⟨⟨hm, fun hle => hw ?_⟩, rfl⟩
      simp at hle; omega
  · have hp0 : p = 0 := by simpa using hp
    subst hp0
    by_cases hz : w.ui_temp_pause = 1
    · rw [resume_last w hz]
      simp [hw (by omega), hm, pause_inv_ext]
    · rw [resume_nested w hz]
      refine ⟨⟨hm, fun hle => hw ?_⟩, rfl⟩
      simp at hle; omega

theorem pause_calls_ext (calls : List Int) :
    ∀ w : World, pause_inv_ext w →
      (pause_calls w calls).trace = w.trace ∧ (pause_calls w calls).machine_paused = true := by
  induction calls with
  | nil => intro w h; exact ⟨rfl, h.1⟩
  | cons p rest ih =>
    intro w h
    obtain ⟨hinv, htr⟩ := pause_step_ext w p h
    have := ih _ hinv
    simp only [pause_calls, List.foldl_cons] at this ⊢
    rw [htr] at this
    exact this

theorem pause_calls_balanced_depth (calls : List Int) :
    ∀ (d : Nat) (w : World), w.ui_temp_pause = d → balanced_from d calls = true →
      (pause_calls w calls).ui_temp_pause = 0 := by
  induction calls with
  | nil =>
    intro d w hd hb
    simp only [balanced_from, beq_iff_eq] at hb
    simp [pause_calls, hd, hb]
  | cons p rest ih =>
    intro d w hd hb
    simp only [pause_calls, List.foldl_cons]
    by_cases hp : p ≠ 0
    · simp only [balanced_from, if_pos hp] at hb
      refine ih (d + 1) _ ?_ hb
      rw [pause_step_depth, if_pos hp, hd]; push_cast; rfl
    · simp only [balanced_from, if_neg hp, Bool.and_eq_true, decide_eq_true_eq] at hb
      refine ih (d - 1) _ ?_ hb.2
      rw [pause_step_depth, if_neg hp, hd]
      omega

end PauseLemmas

section DispatchLemmas

theorem to_int32_int_to_WPARAM (p : Int) (hlo : -2 ^ 31 ≤ p) (hhi : p < 2 ^ 31) :
    to_int32 (int_to_WPARAM p) = p := by
  unfold to_int32 int_to_WPARAM PTR_BITS
  norm_num at hlo hhi ⊢
  omega

theorem filter_input_cases_syskey (input : Int → Int → Int → Int → Bool) (w : World)
    (message : MSG) (h : message.message = WM_SYSKEYDOWN ∨ message.message = WM_SYSKEYUP) :
    filter_input_cases input w message = some (w, false) := by
  unfold filter_input_cases
  rw [if_pos (Or.symm h)]

end DispatchLemmas

section UpdateLemmas

theorem same_surface_refl (window : win_window_info) : same_surface window window :=
  ⟨rfl, rfl, rfl, rfl, rfl, rfl, rfl⟩

theorem same_surface_trans {a b c : win_window_info} (h1 : same_surface a b)
    (h2 : same_surface b c) : same_surface a c := by
  obtain ⟨a1, a2, a3, a4, a5, a6, a7⟩ := h1
  obtain ⟨b1, b2, b3, b4, b5, b6, b7⟩ := h2
  exact ⟨b1.trans a1, b2.trans a2, b3.trans a3, b4.trans a4, b5.trans a5, b6.trans a6,
    b7.trans a7⟩

theorem quiet_extension_refl (w : World) : quiet_extension w w :=
  ⟨[], by simp, by simp⟩

theorem quiet_extension_trans {a b c : World} (h1 : quiet_extension a b)
    (h2 : quiet_extension b c) : quiet_extension a c := by
  obtain ⟨l1, rfl, hl1⟩ := h1
  obtain ⟨l2, rfl, hl2⟩ := h2
  refine ⟨l1 ++ l2, by simp, ?_⟩
  rw [List.all_append, hl1, hl2]; rfl

theorem update_minmax_state_same (env : proc_env) (window : win_window_info) :
    same_surface window (update_minmax_state env window) := by
  unfold update_minmax_state same_surface
  split_ifs <;> simp

theorem update_send_minsize_same (env : update_env) (w : World) (window : win_window_info) :
    same_surface window (update_send_minsize env w window).2 ∧
    quiet_extension w (update_send_minsize env w window).1 := by
  unfold update_send_minsize window_proc_set_minsize
  split_ifs
  · refine ⟨update_minmax_state_same _ _,
      [Effect.SendMessage window.m_hwnd WM_USER_SET_MINSIZE 0 0,
       Effect.minimize_window (update_minmax_state env.minsize window).m_hwnd], by simp [World.emit], ?_⟩
    simp [Effect.is_frame, Effect.is_lock, WM_USER_SET_MINSIZE, WM_USER_REDRAW, WM_USER]
  · refine ⟨same_surface_refl _,
      [Effect.SendMessage window.m_hwnd WM_USER_SET_MINSIZE 0 0], by simp [World.emit], ?_⟩
    simp [Effect.is_frame, Effect.is_lock, WM_USER_SET_MINSIZE, WM_USER_REDRAW, WM_USER]
  · exact ⟨same_surface_refl _, quiet_extension_refl _⟩

theorem update_send_maxsize_same (env : update_env) (w : World) (window : win_window_info) :
    same_surface window (update_send_maxsize env w window).2 ∧
    quiet_extension w (update_send_maxsize env w window).1 := by
  unfold update_send_maxsize window_proc_set_maxsize
  split_ifs
  · refine ⟨update_minmax_state_same _ _,
      [Effect.SendMessage window.m_hwnd WM_USER_SET_MAXSIZE 0 0,
       Effect.maximize_window (update_minmax_state env.maxsize window).m_hwnd], by simp [World.emit], ?_⟩
    simp [Effect.is_frame, Effect.is_lock, WM_USER_SET_MAXSIZE, WM_USER_REDRAW, WM_USER]
  · refine ⟨same_surface_refl _,
      [Effect.SendMessage window.m_hwnd WM_USER_SET_MAXSIZE 0 0], by simp [World.emit], ?_⟩
    simp [Effect.is_frame, Effect.is_lock, WM_USER_SET_MAXSIZE, WM_USER_REDRAW, WM_USER]
  · exact ⟨same_surface_refl _, quiet_extension_refl _⟩

theorem update_sends_same (env : update_env) (w : World) (window window1 : win_window_info)
    (h0 : same_surface window window1) :
    same_surface window
      (update_send_maxsize env (update_send_minsize env w window1).1
        (update_send_minsize env w window1).2).2 ∧
    quiet_extension w
      (update_send_maxsize env (update_send_minsize env w window1).1
        (update_send_minsize env w window1).2).1 := by
  have h1 := update_send_minsize_same env w window1
  have h2 := update_send_maxsize_same env (update_send_minsize env w window1).1
    (update_send_minsize env w window1).2
  exact ⟨same_surface_trans h0 (same_surface_trans h1.1 h2.1),
    quiet_extension_trans h1.2 h2.2⟩

theorem update_target_changed_same (env : update_env) (w : World) (window : win_window_info) :
    same_surface window (update_target_changed env w window).2 ∧
    quiet_extension w (update_target_changed env w window).1 := by
  unfold update_target_changed
  dsimp only
  split_ifs
  · exact update_sends_same env w window _ ⟨rfl, rfl, rfl, rfl, rfl, rfl, rfl⟩
  · exact ⟨⟨rfl, rfl, rfl, rfl, rfl, rfl, rfl⟩, quiet_extension_refl _⟩
  · exact ⟨same_surface_refl _, quiet_extension_refl _⟩

theorem draw_video_contents_free ( iconic : Bool) (w : World) (window : win_window_info)
    (dc : Nat) (update : Int) (hfree : window.m_render_lock.holder = none) :
    draw_video_contents iconic w window dc update =
      some ({ w with trace := w.trace
                ++ [Effect.osd_lock_acquire window.addr w.window_threadid]
                ++ (if window.m_hwnd ≠ 0 ∧ iconic = false then
                      (if window.m_primlist = 0 then [Effect.FillRect dc]
                       else [Effect.renderer_draw window.m_renderer dc update window.m_primlist])
                    else [])
                ++ [Effect.osd_lock_release window.addr w.window_threadid] },
            { window with m_render_lock := ⟨none⟩ }) := by
  unfold draw_video_contents osd_lock_acquire draw_video_contents_locked osd_lock_release World.emit
  rw [if_pos hfree]
  by_cases h1 : window.m_hwnd ≠ 0 ∧ iconic = false
  · by_cases h2 : window.m_primlist = 0
    · simp [h1, h2]
    · simp [h1, h2]
  · simp [h1]

theorem draw_video_contents_held ( iconic : Bool) (w : World) (window : win_window_info)
    (dc : Nat) (update : Int) (hheld : window.m_render_lock.holder ≠ none) :
    draw_video_contents iconic w window dc update = none := by
  unfold draw_video_contents osd_lock_acquire
  rw [if_neg hheld]

theorem update_draw_not_live (env : update_env) (w : World) (window : win_window_info)
    (h : ¬ (window.m_hwnd ≠ 0 ∧ window.m_target ≠ 0 ∧ window.m_renderer ≠ 0)) :
    update_draw env w window = some (w, window) := by
  unfold update_draw
  rw [if_neg h]

theorem update_draw_block_free (env : update_env) (w : World) (window : win_window_info)
    (hlive : window.m_hwnd ≠ 0 ∧ window.m_target ≠ 0 ∧ window.m_renderer ≠ 0)
    (hblock : env.throttled = true ∨
      250 < u32 ((env.time_check : Int) - (w.last_update_time : Int)))
    (hfree : window.m_render_lock.holder = none) :
    update_draw env w window =
      update_got_lock env (w.emit (Effect.osd_lock_acquire window.addr w.main_threadid))
        { window with m_render_lock := ⟨some w.main_threadid⟩ } := by
  unfold update_draw osd_lock_acquire
  rw [if_pos hlive, if_pos hblock, if_pos hfree]

theorem update_draw_block_held (env : update_env) (w : World) (window : win_window_info)
    (hlive : window.m_hwnd ≠ 0 ∧ window.m_target ≠ 0 ∧ window.m_renderer ≠ 0)
    (hblock : env.throttled = true ∨
      250 < u32 ((env.time_check : Int) - (w.last_update_time : Int)))
    (hheld : window.m_render_lock.holder ≠ none) :
    update_draw env w window = none := by
  unfold update_draw osd_lock_acquire
  rw [if_pos hlive, if_pos hblock, if_neg hheld]

theorem update_draw_try_free (env : update_env) (w : World) (window : win_window_info)
    (hlive : window.m_hwnd ≠ 0 ∧ window.m_target ≠ 0 ∧ window.m_renderer ≠ 0)
    (hblock : ¬ (env.throttled = true ∨
      250 < u32 ((env.time_check : Int) - (w.last_update_time : Int))))
    (hfree : window.m_render_lock.holder = none) :
    update_draw env w window =
      update_got_lock env (w.emit (Effect.osd_lock_try window.addr w.main_threadid true))
        { window with m_render_lock := ⟨some w.main_threadid⟩ } := by
  unfold update_draw osd_lock_try
  rw [if_pos hlive, if_neg hblock]
  simp [hfree]

theorem update_draw_try_held (env : update_env) (w : World) (window : win_window_info)
    (hlive : window.m_hwnd ≠ 0 ∧ window.m_target ≠ 0 ∧ window.m_renderer ≠ 0)
    (hblock : ¬ (env.throttled = true ∨
      250 < u32 ((env.time_check : Int) - (w.last_update_time : Int))))
    (hheld : window.m_render_lock.holder ≠ none) :
    update_draw env w window =
      some (w.emit (Effect.osd_lock_try window.addr w.main_threadid false), window) := by
  unfold update_draw osd_lock_try
  rw [if_pos hlive, if_neg hblock]
  simp [hheld]

theorem update_got_lock_dual (env : update_env) (w : World) (window : win_window_info)
    (hmt : w.multithreading_enabled = true) :
    update_got_lock env w window =
      some (PostMessage
          { w with last_update_time := env.time_post
                   trace := w.trace ++ [Effect.osd_lock_release window.addr w.main_threadid,
                                        Effect.get_primitives window.m_renderer] }
          window.m_hwnd WM_USER_REDRAW 0 env.primlist,
        { window with m_render_lock := ⟨none⟩ }) := by
  unfold update_got_lock osd_lock_release World.emit
  simp [hmt]

theorem window_proc_redraw_free (env : proc_env) (w : World) (window : win_window_info)
    (lparam : Nat) (hfree : window.m_render_lock.holder = none) :
    window_proc_redraw env w window lparam =
      some ({ w with trace := w.trace ++
                [Effect.GetDC window.m_hwnd,
                 Effect.osd_lock_acquire window.addr w.window_threadid]
                ++ (if window.m_hwnd ≠ 0 ∧ env.iconic = false then
                      (if lparam = 0 then [Effect.FillRect env.dc]
                       else [Effect.renderer_draw window.m_renderer env.dc FALSE lparam])
                    else [])
                ++ [Effect.osd_lock_release window.addr w.window_threadid,
                    Effect.ReleaseDC window.m_hwnd env.dc] },
            { update_minmax_state env window with
                m_primlist := lparam, m_render_lock := ⟨none⟩ }) := by
  obtain ⟨ha, hh, _, hr, hl, _, _⟩ := update_minmax_state_same env window
  unfold window_proc_redraw
  generalize update_minmax_state env window = win1 at ha hh hr hl ⊢
  have hfree1 : ({ win1 with m_primlist := lparam } : win_window_info).m_render_lock.holder
      = none := by
    show win1.m_render_lock.holder = none
    rw [hl]; exact hfree
  dsimp only
  rw [draw_video_contents_free _ _ _ _ _ hfree1]
  simp [World.emit, ha, hh, hr]

theorem update_got_lock_single (env : update_env) (w : World) (window : win_window_info)
    (hst : w.multithreading_enabled = false) :
    update_got_lock env w window =
      some ({ w with last_update_time := env.time_post
                     trace := w.trace ++
                       [Effect.osd_lock_release window.addr w.main_threadid,
                        Effect.get_primitives window.m_renderer,
                        Effect.SendMessage window.m_hwnd WM_USER_REDRAW 0 env.primlist,
                        Effect.GetDC window.m_hwnd,
                        Effect.osd_lock_acquire window.addr w.window_threadid]
                       ++ (if window.m_hwnd ≠ 0 ∧ env.redraw.iconic = false then
                            (if env.primlist = 0 then [Effect.FillRect env.redraw.dc]
                             else [Effect.renderer_draw window.m_renderer env.redraw.dc FALSE
                                     env.primlist])
                           else [])
                       ++ [Effect.osd_lock_release window.addr w.window_threadid,
                           Effect.ReleaseDC window.m_hwnd env.redraw.dc] },
            { update_minmax_state env.redraw
                { window with m_render_lock := ⟨none⟩ } with
                m_primlist := env.primlist, m_render_lock := ⟨none⟩ }) := by
  unfold update_got_lock
  simp only [World.emit, hst, osd_lock_release]
  rw [window_proc_redraw_free _ _ _ _ rfl]
  simp

theorem update_got_lock_trace (env : update_env) (w : World) (window : win_window_info) :
    ∃ w' win' rest, update_got_lock env w window = some (w', win') ∧
      w'.trace = w.trace ++ rest ∧ win'.m_render_lock = ⟨none⟩ := by
  cases hm : w.multithreading_enabled
  · rw [update_got_lock_single env w window hm]
    exact ⟨_, _, _, rfl, by rw [List.append_assoc, List.append_assoc], rfl⟩
  · rw [update_got_lock_dual env w window hm]
    unfold PostMessage World.emit
    split_ifs
    · exact ⟨_, _, _, rfl, List.append_assoc _ _ _, rfl⟩
    · exact ⟨_, _, _, rfl, List.append_assoc _ _ _, rfl⟩

theorem update_lock_unchanged (env : update_env) (w : World) (window : win_window_info)
    (res : World × win_window_info) (h : window.update env w = some res) :
    res.2.m_render_lock = window.m_render_lock := by
  obtain ⟨hs, _⟩ := update_target_changed_same env w window
  unfold win_window_info.update at h
  dsimp only at h
  generalize update_target_changed env w window = r at hs h
  obtain ⟨w1, win1⟩ := r
  obtain ⟨_, hh, ht, hr, hl, _, _⟩ := hs
  simp only at hh ht hr hl h
  by_cases hlive : win1.m_hwnd ≠ 0 ∧ win1.m_target ≠ 0 ∧ win1.m_renderer ≠ 0
  · by_cases hfree : win1.m_render_lock.holder = none
    · have hnone : window.m_render_lock = ⟨none⟩ := by
        rw [← hl]; cases hk : win1.m_render_lock; simp [hk] at hfree; simp [hfree]
      by_cases hblock : env.throttled = true ∨
          250 < u32 ((env.time_check : Int) - (w1.last_update_time : Int))
      · rw [update_draw_block_free env w1 win1 hlive hblock hfree] at h
        obtain ⟨w', win', rest, he, _, hlock⟩ := update_got_lock_trace env
          (w1.emit (Effect.osd_lock_acquire win1.addr w1.main_threadid))
          { win1 with m_render_lock := ⟨some w1.main_threadid⟩ }
        rw [he] at h
        cases h
        rw [hlock, hnone]
      · rw [update_draw_try_free env w1 win1 hlive hblock hfree] at h
        obtain ⟨w', win', rest, he, _, hlock⟩ := update_got_lock_trace env
          (w1.emit (Effect.osd_lock_try win1.addr w1.main_threadid true))
          { win1 with m_render_lock := ⟨some w1.main_threadid⟩ }
        rw [he] at h
        cases h
        rw [hlock, hnone]
    · by_cases hblock : env.throttled = true ∨
          250 < u32 ((env.time_check : Int) - (w1.last_update_time : Int))
      · rw [update_draw_block_held env w1 win1 hlive hblock hfree] at h
        cases h
      · rw [update_draw_try_held env w1 win1 hlive hblock hfree] at h
        cases h
        exact hl
  · rw [update_draw_not_live env w1 win1 hlive] at h
    cases h
    exact hl

theorem update_got_lock_keeps (env : update_env) (w : World) (window : win_window_info) :
    ∃ w' win', update_got_lock env w window = some (w', win') ∧
      win'.m_init_state = window.m_init_state ∧ w'.win_window_list = w.win_window_list := by
  cases hm : w.multithreading_enabled
  · rw [update_got_lock_single env w window hm]
    refine ⟨_, _, rfl, ?_, rfl⟩
    exact (update_minmax_state_same env.redraw _).2.2.2.2.2.2
  · rw [update_got_lock_dual env w window hm]
    unfold PostMessage World.emit
    split_ifs
    · exact ⟨_, _, rfl, rfl, rfl⟩
    · exact ⟨_, _, rfl, rfl, rfl⟩

theorem update_init_state (env : update_env) (w : World) (window : win_window_info)
    (res : World × win_window_info) (h : window.update env w = some res) :
    res.2.m_init_state = window.m_init_state ∧ res.1.win_window_list = w.win_window_list := by
  obtain ⟨hs, l, hw, _⟩ := update_target_changed_same env w window
  unfold win_window_info.update at h
  dsimp only at h
  generalize update_target_changed env w window = r at hs hw h
  obtain ⟨w1, win1⟩ := r
  have hi : win1.m_init_state = window.m_init_state := hs.2.2.2.2.2.2
  have hlist : w1.win_window_list = w.win_window_list := by
    simp only at hw; rw [hw]
  simp only at h
  by_cases hlive : win1.m_hwnd ≠ 0 ∧ win1.m_target ≠ 0 ∧ win1.m_renderer ≠ 0
  · by_cases hblock : env.throttled = true ∨
        250 < u32 ((env.time_check : Int) - (w1.last_update_time : Int))
    · by_cases hfree : win1.m_render_lock.holder = none
      · rw [update_draw_block_free env w1 win1 hlive hblock hfree] at h
        obtain ⟨w', win', he, h1, h2⟩ := update_got_lock_keeps env
          (w1.emit (Effect.osd_lock_acquire win1.addr w1.main_threadid))
          { win1 with m_render_lock := ⟨some w1.main_threadid⟩ }
        rw [he] at h
        cases h
        exact ⟨h1.trans hi, h2.trans hlist⟩
      · rw [update_draw_block_held env w1 win1 hlive hblock hfree] at h
        cases h
    · by_cases hfree : win1.m_render_lock.holder = none
      · rw [update_draw_try_free env w1 win1 hlive hblock hfree] at h
        obtain ⟨w', win', he, h1, h2⟩ := update_got_lock_keeps env
          (w1.emit (Effect.osd_lock_try win1.addr w1.main_threadid true))
          { win1 with m_render_lock := ⟨some w1.main_threadid⟩ }
        rw [he] at h
        cases h
        exact ⟨h1.trans hi, h2.trans hlist⟩
      · rw [update_draw_try_held env w1 win1 hlive hblock hfree] at h
        cases h
        exact ⟨hi, hlist⟩
  · rw [update_draw_not_live env w1 win1 hlive] at h
    cases h
    exact ⟨hi, hlist⟩

theorem draw_video_contents_init_state ( iconic : Bool) (w : World) (window : win_window_info)
    (dc : Nat) (update : Int) (res : World × win_window_info)
    (h : draw_video_contents iconic w window dc update = some res) :
    res.2.m_init_state = window.m_init_state ∧ res.1.win_window_list = w.win_window_list := by
  by_cases hfree : window.m_render_lock.holder = none
  · rw [draw_video_contents_free iconic w window dc update hfree] at h
    cases h
    exact ⟨rfl, rfl⟩
  · rw [draw_video_contents_held iconic w window dc update hfree] at h
    cases h

end UpdateLemmas

section CreateLemmas

theorem emit_win_window_list (w : World) (e : Effect) :
    (w.emit e).win_window_list = w.win_window_list := rfl

theorem complete_create_keeps (env : create_env) (w : World) (window : win_window_info) :
    (complete_create env w window).1.win_window_list = w.win_window_list ∧
    (complete_create env w window).2.1.addr = window.addr ∧
    (complete_create env w window).2.1.m_init_state = window.m_init_state := by
  unfold complete_create
  dsimp only
  split_ifs <;> simp [emit_win_window_list]

theorem find_store (l : List win_window_info) (window : win_window_info) (a : Nat) :
    (l.map (fun old => if old.addr = window.addr then window else old)).find?
        (fun x => x.addr == a)
      = if a = window.addr then (l.find? (fun x => x.addr == a)).map (fun _ => window)
        else l.find? (fun x => x.addr == a) := by
  induction l with
  | nil => simp
  | cons x rest ih =>
    rw [List.map_cons, List.find?_cons, List.find?_cons, ih]
    by_cases hx : x.addr = window.addr
    · rw [if_pos hx]
      by_cases ha : a = window.addr
      · have h1 : (window.addr == a) = true := by simp [ha]
        have h2 : (x.addr == a) = true := by simp [ha, hx]
        simp only [if_pos ha, h1, h2, Option.map_some']
      · have h1 : (window.addr == a) = false := by simpa using fun h => ha h.symm
        have h2 : (x.addr == a) = false := by simpa [hx] using fun h => ha h.symm
        simp only [if_neg ha, h1, h2]
    · rw [if_neg hx]
      by_cases hxa : x.addr = a
      · have h2 : (x.addr == a) = true := by simp [hxa]
        have ha : ¬ a = window.addr := fun h => hx (hxa.trans h)
        simp only [if_neg ha, h2]
      · have h2 : (x.addr == a) = false := by simpa using hxa
        simp only [h2]

theorem store_init_state (w : World) (window : win_window_info) (a : Nat) :
    (w.store window).init_state a
      = if a = window.addr then (w.init_state a).map (fun _ => window.m_init_state)
        else w.init_state a := by
  unfold World.init_state World.window World.store
  simp only [find_store]
  split_ifs
  · cases List.find? (fun x => x.addr == a) w.win_window_list <;> rfl
  · rfl

theorem find_append_fresh (l : List win_window_info) (window : win_window_info)
    (hfresh : ∀ x ∈ l, x.addr ≠ window.addr) :
    (l ++ [window]).find? (fun x => x.addr == window.addr) = some window := by
  induction l with
  | nil => simp
  | cons x rest ih =>
    have hx : (x.addr == window.addr) = false := by
      simpa using hfresh x (List.mem_cons_self _ _)
    rw [List.cons_append, List.find?_cons, hx]
    exact ih (fun y hy => hfresh y (List.mem_cons_of_mem _ hy))

theorem filter_input_cases_keeps (input : Int → Int → Int → Int → Bool) (w : World)
    (message : MSG) (r : World × Bool) (h : filter_input_cases input w message = some r) :
    r.1.win_window_list = w.win_window_list ∧ r.1.window_queue = w.window_queue := by
  unfold filter_input_cases filter_mouse_button at h
  split_ifs at h <;> cases h <;> exact ⟨rfl, rfl⟩

theorem thread_entry_message_other (env : create_env) (input : Int → Int → Int → Int → Bool)
    (w : World) (message : MSG) (h : message.message ≠ WM_USER_FINISH_CREATE_WINDOW) :
    (thread_entry_message env input w message).win_window_list = w.win_window_list := by
  unfold thread_entry_message thread_entry_filter
  by_cases hown : message.hwnd = 0 ∨ is_mame_window w.win_window_list message.hwnd = true
  · rw [if_pos hown]
    cases hc : filter_input_cases input w message with
    | some r =>
      have := (filter_input_cases_keeps input w message r hc).1
      dsimp only
      split_ifs <;> simp [emit_win_window_list, this]
    | none =>
      dsimp only
      rw [if_neg h]
      split_ifs <;> simp [emit_win_window_list, World.emit]
  · rw [if_neg hown]
    simp [emit_win_window_list]

theorem thread_entry_loop_other (env : create_env) (input : Int → Int → Int → Int → Bool)
    (after : List MSG) (hafter : ∀ m ∈ after, m.message ≠ WM_USER_FINISH_CREATE_WINDOW) :
    ∀ w : World, (thread_entry_loop env input after w).win_window_list = w.win_window_list := by
  induction after with
  | nil => intro w; rfl
  | cons m rest ih =>
    intro w
    unfold thread_entry_loop
    split_ifs
    · rfl
    · rw [ih (fun x hx => hafter x (List.mem_cons_of_mem _ hx)),
        thread_entry_message_other env input w m (hafter m (List.mem_cons_self _ _))]

theorem thread_entry_loop_append (env : create_env) (input : Int → Int → Int → Int → Bool)
    (before rest : List MSG) (hbefore : ∀ m ∈ before, m.message ≠ WM_QUIT) :
    ∀ w : World, thread_entry_loop env input (before ++ rest) w
      = thread_entry_loop env input rest (thread_entry_loop env input before w) := by
  induction before with
  | nil => intro w; rfl
  | cons m tail ih =>
    intro w
    have hm : ¬ (m.message = WM_QUIT) := hbefore m (List.mem_cons_self _ _)
    have h1 : ∀ (l : List MSG) (v : World), thread_entry_loop env input (m :: l) v
        = thread_entry_loop env input l (thread_entry_message env input v m) := by
      intro l v
      rw [thread_entry_loop, if_neg hm]
    rw [List.cons_append, h1, h1]
    exact ih (fun x hx => hbefore x (List.mem_cons_of_mem _ hx)) _

theorem thread_entry_message_finish (env : create_env) (input : Int → Int → Int → Int → Bool)
    (w : World) (window : win_window_info) (hwin : w.window window.addr = some window) :
    thread_entry_message env input w ⟨0, WM_USER_FINISH_CREATE_WINDOW, 0, window.addr⟩
      = (complete_create env w window).1.store
          { (complete_create env w window).2.1 with
              m_init_state := if (complete_create env w window).2.2 ≠ 0 then -1 else 1 } := by
  unfold thread_entry_message thread_entry_filter
  have hc : filter_input_cases input w ⟨0, WM_USER_FINISH_CREATE_WINDOW, 0, window.addr⟩
      = none := by
    unfold filter_input_cases
    simp [WM_USER_FINISH_CREATE_WINDOW, WM_USER, WM_SYSKEYUP, WM_SYSKEYDOWN, WM_LBUTTONDOWN,
      WM_RBUTTONDOWN, WM_MBUTTONDOWN, WM_XBUTTONDOWN, WM_LBUTTONUP, WM_RBUTTONUP,
      WM_MBUTTONUP, WM_XBUTTONUP]
  have h1 : ¬ (WM_USER_FINISH_CREATE_WINDOW = WM_USER_SELF_TERMINATE) := by decide
  simp only [true_or, if_true, hc, h1, if_false, hwin]
  rfl

theorem complete_create_result (env : create_env) (w v : World) (window : win_window_info) :
    (complete_create env w window).2.2 = (complete_create env v window).2.2 := by
  unfold complete_create
  dsimp only
  split_ifs <;> rfl

theorem pause_from_main_thread_registry (w : World) (p : Int) :
    (winwindow_ui_pause_from_main_thread w p).win_window_list = w.win_window_list := by
  unfold winwindow_ui_pause_from_main_thread machine_pause machine_resume machine_paused
  dsimp only
  split_ifs <;> rfl

theorem create_start_single (cfg : window_create_env) (env : create_env) (w : World)
    (hfresh : ∀ x ∈ w.win_window_list, x.addr ≠ cfg.addr)
    (hst : w.multithreading_enabled = false) :
    (winwindow_video_window_create_start cfg env w).init_state cfg.addr
      = some (if (complete_create env w (created_window cfg w.win_window_list)).2.2 ≠ 0
              then -1 else 1) := by
  have hca : (created_window cfg w.win_window_list).addr = cfg.addr := rfl
  have hfind := find_append_fresh w.win_window_list (created_window cfg w.win_window_list)
    (by rw [hca]; exact hfresh)
  rw [hca] at hfind
  unfold winwindow_video_window_create_start
  simp only [World.emit, hst, Bool.false_eq_true, if_false]
  rw [store_init_state]
  simp only [(complete_create_keeps env _ _).2.1, hca, if_true]
  unfold World.init_state World.window
  rw [(complete_create_keeps env _ _).1]
  simp only [hfind, Option.map_some']
  rw [complete_create_result env _ w]

theorem create_start_dual (cfg : window_create_env) (env : create_env) (w : World)
    (hmt : w.multithreading_enabled = true) (hthreads : w.window_threadid ≠ w.main_threadid) :
    winwindow_video_window_create_start cfg env w =
      { w with
        win_window_list := w.win_window_list ++ [created_window cfg w.win_window_list]
        window_queue := w.window_queue ++ [⟨0, WM_USER_FINISH_CREATE_WINDOW, 0, cfg.addr⟩]
        trace := w.trace ++
          [Effect.osd_lock_alloc cfg.addr, Effect.target_alloc cfg.target,
           Effect.set_starting_view cfg.target,
           Effect.WaitForSingleObject_window_thread_ready_event,
           Effect.PostThreadMessage w.window_threadid WM_USER_FINISH_CREATE_WINDOW 0 cfg.addr] } := by
  unfold winwindow_video_window_create_start PostThreadMessage
  simp [World.emit, hmt, hthreads, created_window, win_window_info.new]

end CreateLemmas

section FrameLemmas

theorem draws_append (a b : List Effect) : draws (a ++ b) = draws a ++ draws b := by
  unfold draws
  rw [List.filter_append]

theorem is_draw_is_frame (e : Effect) (h : e.is_draw = true) : e.is_frame = true := by
  cases e <;> first | rfl | cases h

theorem draws_quiet (l : List Effect)
    (h : l.all (fun e => !e.is_frame && !e.is_lock) = true) : draws l = [] := by
  unfold draws
  rw [List.filter_eq_nil_iff]
  intro e he hd
  have := List.all_eq_true.mp h e he
  rw [is_draw_is_frame e hd] at this
  cases this

theorem same_draws_refl (w : World) : same_draws w w := ⟨rfl, rfl, rfl, rfl⟩

theorem same_draws_trans {a b c : World} (h1 : same_draws a b) (h2 : same_draws b c) :
    same_draws a c :=
  ⟨h2.1.trans h1.1, h2.2.1.trans h1.2.1, h2.2.2.1.trans h1.2.2.1, h2.2.2.2.trans h1.2.2.2⟩

theorem same_draws_of_quiet {w w' : World} (h : quiet_extension w w') : same_draws w w' := by
  obtain ⟨l, rfl, hl⟩ := h
  refine ⟨rfl, rfl, rfl, ?_⟩
  show draws (w.trace ++ l) = draws w.trace
  rw [draws_append, draws_quiet l hl, List.append_nil]

theorem same_core_refl (window : win_window_info) : same_core window window :=
  ⟨rfl, rfl, rfl, rfl⟩

theorem same_core_trans {a b c : win_window_info} (h1 : same_core a b) (h2 : same_core b c) :
    same_core a c :=
  ⟨h2.1.trans h1.1, h2.2.1.trans h1.2.1, h2.2.2.1.trans h1.2.2.1, h2.2.2.2.trans h1.2.2.2⟩

theorem same_core_of_surface {a b : win_window_info} (h : same_surface a b) : same_core a b :=
  ⟨h.1, h.2.1, h.2.2.1, h.2.2.2.1⟩

theorem redraw_draws_core (penv : proc_env) {a b : win_window_info} (h : same_core a b)
    (p : Nat) : redraw_draws penv b p = redraw_draws penv a p := by
  unfold redraw_draws
  rw [h.2.1, h.2.2.2]

theorem requested_draws_core (penv : proc_env) {a b : win_window_info} (h : same_core a b)
    (envs : List update_env) : requested_draws penv b envs = requested_draws penv a envs := by
  unfold requested_draws
  rw [h.2.1, h.2.2.1, h.2.2.2]
  simp only [redraw_draws_core penv h]

theorem requested_draws_append (penv : proc_env) (window : win_window_info)
    (a b : List update_env) :
    requested_draws penv window (a ++ b)
      = requested_draws penv window a ++ requested_draws penv window b := by
  unfold requested_draws
  split_ifs
  · rw [List.flatMap_append]
  · rfl

theorem draws_snoc (l : List Effect) (e : Effect) (h : e.is_draw = false) :
    draws (l ++ [e]) = draws l := by
  unfold draws
  rw [List.filter_append, List.filter_cons, h]
  simp

theorem lock_eq_none (lock : osd_lock) (h : lock.holder = none) : lock = ⟨none⟩ := by
  cases lock
  simp only at h
  rw [h]

theorem update_got_lock_dual_props (env : update_env) (w : World) (window : win_window_info)
    (hmt : w.multithreading_enabled = true) (hthreads : w.window_threadid ≠ w.main_threadid) :
    ∃ w', update_got_lock env w window = some (w', { window with m_render_lock := ⟨none⟩ }) ∧
      same_draws w w' ∧
      w'.window_queue = w.window_queue ++ [⟨window.m_hwnd, WM_USER_REDRAW, 0, env.primlist⟩] := by
  rw [update_got_lock_dual env w window hmt]
  unfold PostMessage World.emit
  simp only [if_neg hthreads]
  refine ⟨_, rfl, ⟨rfl, rfl, rfl, ?_⟩, rfl⟩
  show draws (w.trace ++ [_, _] ++ [_]) = draws w.trace
  rw [draws_append, draws_append]
  simp [draws, Effect.is_draw]

theorem update_dual_idle (env : update_env) (w : World) (window : win_window_info)
    (hmt : w.multithreading_enabled = true) (hthreads : w.window_threadid ≠ w.main_threadid)
    (hfree : window.m_render_lock.holder = none) :
    ∃ w' win', window.update env w = some (w', win') ∧ same_draws w w' ∧
      same_surface window win' ∧
      w'.window_queue = w.window_queue ++
        (if window.m_hwnd ≠ 0 ∧ window.m_target ≠ 0 ∧ window.m_renderer ≠ 0
         then [⟨window.m_hwnd, WM_USER_REDRAW, 0, env.primlist⟩] else []) := by
  obtain ⟨hs, hq⟩ := update_target_changed_same env w window
  have hsd := same_draws_of_quiet hq
  have hqueue : (update_target_changed env w window).1.window_queue = w.window_queue := by
    obtain ⟨l, hw, _⟩ := hq
    rw [hw]
  unfold win_window_info.update
  dsimp only
  generalize update_target_changed env w window = r at hs hsd hqueue
  obtain ⟨w1, win1⟩ := r
  obtain ⟨hmt1, hmain1, hwt1, _⟩ := id hsd
  simp only at hmt1 hmain1 hwt1 hqueue
  have hlock1 : win1.m_render_lock = ⟨none⟩ := by
    rw [hs.2.2.2.2.1]; exact lock_eq_none _ hfree
  have hfree1 : win1.m_render_lock.holder = none := by rw [hlock1]
  have hnone : same_surface window { win1 with m_render_lock := ⟨none⟩ } := by
    obtain ⟨a1, a2, a3, a4, a5, a6, a7⟩ := hs
    exact ⟨a1, a2, a3, a4, by rw [← a5]; exact hlock1.symm, a6, a7⟩
  by_cases hlive : window.m_hwnd ≠ 0 ∧ window.m_target ≠ 0 ∧ window.m_renderer ≠ 0
  · have hlive1 : win1.m_hwnd ≠ 0 ∧ win1.m_target ≠ 0 ∧ win1.m_renderer ≠ 0 := by
      rw [hs.2.1, hs.2.2.1, hs.2.2.2.1]; exact hlive
    rw [if_pos hlive]
    by_cases hblock : env.throttled = true ∨
        250 < u32 ((env.time_check : Int) - (w1.last_update_time : Int))
    · rw [update_draw_block_free env w1 win1 hlive1 hblock hfree1]
      obtain ⟨w', he, hd, hqu⟩ := update_got_lock_dual_props env
        (w1.emit (Effect.osd_lock_acquire win1.addr w1.main_threadid))
        { win1 with m_render_lock := ⟨some w1.main_threadid⟩ }
        (by rw [← hmt, ← hmt1]; rfl) (by rw [← hmain1, ← hwt1] at hthreads; exact hthreads)
      refine ⟨w', _, he, same_draws_trans hsd (same_draws_trans ?_ hd), hnone, ?_⟩
      · exact ⟨rfl, rfl, rfl, draws_snoc _ _ rfl⟩
      · rw [hqu, ← hqueue, ← hs.2.1]; rfl
    · rw [update_draw_try_free env w1 win1 hlive1 hblock hfree1]
      obtain ⟨w', he, hd, hqu⟩ := update_got_lock_dual_props env
        (w1.emit (Effect.osd_lock_try win1.addr w1.main_threadid true))
        { win1 with m_render_lock := ⟨some w1.main_threadid⟩ }
        (by rw [← hmt, ← hmt1]; rfl) (by rw [← hmain1, ← hwt1] at hthreads; exact hthreads)
      refine ⟨w', _, he, same_draws_trans hsd (same_draws_trans ?_ hd), hnone, ?_⟩
      · exact ⟨rfl, rfl, rfl, draws_snoc _ _ rfl⟩
      · rw [hqu, ← hqueue, ← hs.2.1]; rfl
  · rw [if_neg hlive, update_draw_not_live env w1 win1
      (by rw [hs.2.1, hs.2.2.1, hs.2.2.2.1]; exact hlive)]
    exact ⟨w1, win1, rfl, hsd, hs, by rw [hqueue, List.append_nil]⟩

theorem update_dual_drawing (env : update_env) (w : World) (window : win_window_info)
    (hheld : window.m_render_lock.holder ≠ none)
    (res : World × win_window_info) (h : window.update env w = some res) :
    same_draws w res.1 ∧ same_surface window res.2 ∧ res.1.window_queue = w.window_queue := by
  obtain ⟨hs, hq⟩ := update_target_changed_same env w window
  have hsd := same_draws_of_quiet hq
  have hqueue : (update_target_changed env w window).1.window_queue = w.window_queue := by
    obtain ⟨l, hw, _⟩ := hq
    rw [hw]
  unfold win_window_info.update at h
  dsimp only at h
  generalize update_target_changed env w window = r at hs hsd hqueue h
  obtain ⟨w1, win1⟩ := r
  simp only at hqueue h
  have hheld1 : win1.m_render_lock.holder ≠ none := by rw [hs.2.2.2.2.1]; exact hheld
  by_cases hlive : win1.m_hwnd ≠ 0 ∧ win1.m_target ≠ 0 ∧ win1.m_renderer ≠ 0
  · by_cases hblock : env.throttled = true ∨
        250 < u32 ((env.time_check : Int) - (w1.last_update_time : Int))
    · rw [update_draw_block_held env w1 win1 hlive hblock hheld1] at h
      cases h
    · rw [update_draw_try_held env w1 win1 hlive hblock hheld1] at h
      cases h
      exact ⟨same_draws_trans hsd ⟨rfl, rfl, rfl, draws_snoc _ _ rfl⟩, hs, hqueue⟩
  · rw [update_draw_not_live env w1 win1 hlive] at h
    cases h
    exact ⟨hsd, hs, hqueue⟩

theorem thread_entry_message_redraw (cenv : create_env)
    (input : Int → Int → Int → Int → Bool) (w : World) (message : MSG)
    (hm : message.message = WM_USER_REDRAW) :
    thread_entry_message cenv input w message
      = (w.emit (Effect.TranslateMessage message)).emit (Effect.DispatchMessage message) := by
  have hc : filter_input_cases input w message = none := by
    unfold filter_input_cases
    rw [hm]
    simp [WM_USER_REDRAW, WM_USER, WM_SYSKEYUP, WM_SYSKEYDOWN, WM_LBUTTONDOWN,
      WM_RBUTTONDOWN, WM_MBUTTONDOWN, WM_XBUTTONDOWN, WM_LBUTTONUP, WM_RBUTTONUP,
      WM_MBUTTONUP, WM_XBUTTONUP]
  have h1 : ¬ (message.message = WM_USER_SELF_TERMINATE) := by rw [hm]; decide
  have h2 : ¬ (message.message = WM_USER_FINISH_CREATE_WINDOW) := by rw [hm]; decide
  unfold thread_entry_message thread_entry_filter
  by_cases hown : message.hwnd = 0 ∨ is_mame_window w.win_window_list message.hwnd = true
  · simp only [if_pos hown, hc, if_neg h1, if_neg h2, if_true]
  · simp only [if_neg hown, if_true]

theorem window_proc_redraw_begin_free (env : proc_env) (w : World) (window : win_window_info)
    (lparam : Nat) (hfree : window.m_render_lock.holder = none) :
    window_proc_redraw_begin env w window lparam =
      some ((w.emit (Effect.GetDC window.m_hwnd)).emit
              (Effect.osd_lock_acquire window.addr w.window_threadid),
            { update_minmax_state env window with
                m_primlist := lparam, m_render_lock := ⟨some w.window_threadid⟩ }) := by
  obtain ⟨ha, hh, _, _, hl, _, _⟩ := update_minmax_state_same env window
  unfold window_proc_redraw_begin osd_lock_acquire
  dsimp only
  rw [if_pos (by rw [hl]; exact hfree), ha, hh]
  rfl

theorem frame_step_update_eq (cenv : create_env) (input : Int → Int → Int → Int → Bool)
    (penv : proc_env) (s : frame_system) (env : update_env) :
    frame_step cenv input penv s (frame_action.update env) =
      if s.drawing = true ∧ (update_target_changed env s.world s.window).1 ≠ s.world then none
      else
        match s.window.update env s.world with
        | none => none
        | some r => some { s with world := r.1, window := r.2 } := rfl

theorem frame_step_update_idle (cenv : create_env) (input : Int → Int → Int → Int → Bool)
    (penv : proc_env) (s s' : frame_system) (env : update_env) (hinv : frame_inv s)
    (hidle : s.drawing = false)
    (h : frame_step cenv input penv s (frame_action.update env) = some s') :
    frame_inv s' ∧ same_core s.window s'.window ∧ s'.drawing = false ∧
    draws s'.world.trace ++ pending_draws penv s' =
      draws s.world.trace ++ pending_draws penv s ++ requested_draws penv s.window [env] := by
  obtain ⟨hmt, hthreads, hlock, hqueue⟩ := hinv
  simp only [hidle, Bool.false_eq_true, if_false] at hlock
  obtain ⟨w', win', he, hd, hs, hq⟩ := update_dual_idle env s.world s.window hmt hthreads hlock
  rw [frame_step_update_eq, if_neg (by rw [hidle]; simp), he] at h
  simp only [Option.some.injEq] at h
  subst h
  have hcore := same_core_of_surface hs
  refine ⟨⟨hd.1.trans hmt, ?_, ?_, ?_⟩, hcore, hidle, ?_⟩
  · show w'.window_threadid ≠ w'.main_threadid
    rw [hd.2.1, hd.2.2.1]; exact hthreads
  · show win'.m_render_lock.holder = (if s.drawing = true then _ else none)
    simp only [hidle, Bool.false_eq_true, if_false]
    rw [hs.2.2.2.2.1]; exact hlock
  · intro m hm
    show m.message = WM_USER_REDRAW ∧ m.hwnd = win'.m_hwnd
    rw [hs.2.1]
    change m ∈ w'.window_queue at hm
    rw [hq, List.mem_append] at hm
    rcases hm with hm | hm
    · exact hqueue m hm
    · split_ifs at hm
      · rw [List.mem_singleton] at hm
        rw [hm]; exact ⟨rfl, rfl⟩
      · cases hm
  · unfold pending_draws requested_draws
    simp only [hidle, Bool.false_eq_true, if_false, List.nil_append, hd.2.2.2, hq,
      List.flatMap_append, redraw_draws_core penv hcore]
    split_ifs <;> simp

theorem frame_step_update_drawing (cenv : create_env) (input : Int → Int → Int → Int → Bool)
    (penv : proc_env) (s s' : frame_system) (env : update_env) (hinv : frame_inv s)
    (hdrawing : s.drawing = true)
    (h : frame_step cenv input penv s (frame_action.update env) = some s') :
    frame_inv s' ∧ same_core s.window s'.window ∧ s'.drawing = true ∧
    draws s'.world.trace ++ pending_draws penv s' =
      draws s.world.trace ++ pending_draws penv s := by
  obtain ⟨hmt, hthreads, hlock, hqueue⟩ := hinv
  simp only [hdrawing, if_true] at hlock
  rw [frame_step_update_eq] at h
  split_ifs at h
  cases hu : s.window.update env s.world with
  | none => rw [hu] at h; cases h
  | some res =>
    rw [hu] at h
    simp only [Option.some.injEq] at h
    subst h
    obtain ⟨hd, hs, hq⟩ := update_dual_drawing env s.world s.window
      (by rw [hlock]; simp) res hu
    have hcore := same_core_of_surface hs
    refine ⟨⟨hd.1.trans hmt, ?_, ?_, ?_⟩, hcore, hdrawing, ?_⟩
    · show res.1.window_threadid ≠ res.1.main_threadid
      rw [hd.2.1, hd.2.2.1]; exact hthreads
    · show res.2.m_render_lock.holder
        = (if s.drawing = true then some res.1.window_threadid else none)
      simp only [hdrawing, if_true]
      rw [hs.2.2.2.2.1, hd.2.2.1]; exact hlock
    · intro m hm
      show m.message = WM_USER_REDRAW ∧ m.hwnd = res.2.m_hwnd
      rw [hs.2.1]
      change m ∈ res.1.window_queue at hm
      rw [hq] at hm
      exact hqueue m hm
    · unfold pending_draws
      simp only [hdrawing, if_true, hd.2.2.2, hq, redraw_draws_core penv hcore,
        hs.2.2.2.2.2.1]

theorem frame_step_begin_eq (cenv : create_env) (input : Int → Int → Int → Int → Bool)
    (penv : proc_env) (s : frame_system) :
    frame_step cenv input penv s frame_action.redraw_begin =
      if s.drawing = true then none
      else
        match s.world.window_queue with
        | [] => none
        | message :: rest =>
          if message.message = WM_USER_REDRAW ∧ message.hwnd = s.window.m_hwnd then
            match window_proc_redraw_begin penv
                (thread_entry_message cenv input { s.world with window_queue := rest } message)
                s.window message.lParam with
            | none => none
            | some r => some { world := r.1, window := r.2, drawing := true }
          else none := rfl

theorem frame_step_end_eq (cenv : create_env) (input : Int → Int → Int → Int → Bool)
    (penv : proc_env) (s : frame_system) :
    frame_step cenv input penv s frame_action.redraw_end =
      if s.drawing = true then
        some { world := (window_proc_redraw_end penv s.world s.window).1,
               window := (window_proc_redraw_end penv s.world s.window).2, drawing := false }
      else none := rfl

theorem frame_step_begin (cenv : create_env) (input : Int → Int → Int → Int → Bool)
    (penv : proc_env) (s s' : frame_system) (hinv : frame_inv s)
    (h : frame_step cenv input penv s frame_action.redraw_begin = some s') :
    frame_inv s' ∧ same_core s.window s'.window ∧ s'.drawing = true ∧
    draws s'.world.trace ++ pending_draws penv s' =
      draws s.world.trace ++ pending_draws penv s := by
  obtain ⟨hmt, hthreads, hlock, hqueue⟩ := hinv
  rw [frame_step_begin_eq] at h
  by_cases hd : s.drawing = true
  · rw [if_pos hd] at h; cases h
  · rw [if_neg hd] at h
    have hidle : s.drawing = false := by simpa using hd
    simp only [hidle, Bool.false_eq_true, if_false] at hlock
    cases hq : s.world.window_queue with
    | nil => rw [hq] at h; cases h
    | cons message rest =>
      rw [hq] at h
      simp only at h
      by_cases hm : message.message = WM_USER_REDRAW ∧ message.hwnd = s.window.m_hwnd
      · rw [if_pos hm, thread_entry_message_redraw cenv input _ message hm.1,
          window_proc_redraw_begin_free penv _ s.window message.lParam hlock] at h
        simp only [Option.some.injEq] at h
        obtain ⟨ha, hh, ht, hr, _, _, _⟩ := update_minmax_state_same penv s.window
        have key : ∀ (X : World) (Y : win_window_info),
            X.multithreading_enabled = true → X.window_threadid = s.world.window_threadid →
            X.main_threadid = s.world.main_threadid →
            Y.m_render_lock.holder = some s.world.window_threadid →
            Y.m_primlist = message.lParam → same_core s.window Y → X.window_queue = rest →
            draws X.trace = draws s.world.trace →
            frame_inv ⟨X, Y, true⟩ ∧ same_core s.window (frame_system.mk X Y true).window ∧
            (frame_system.mk X Y true).drawing = true ∧
            draws (frame_system.mk X Y true).world.trace ++ pending_draws penv ⟨X, Y, true⟩
              = draws s.world.trace ++ pending_draws penv s := by
          intro X Y k1 k2 k3 k4 k5 k6 k7 k8
          refine ⟨⟨k1, by rw [k2, k3]; exact hthreads, ?_, ?_⟩, k6, rfl, ?_⟩
          · show Y.m_render_lock.holder = (if true = true then some X.window_threadid else none)
            rw [if_pos rfl, k2]; exact k4
          · intro m hmem
            change m ∈ X.window_queue at hmem
            rw [k7] at hmem
            show m.message = WM_USER_REDRAW ∧ m.hwnd = Y.m_hwnd
            rw [k6.2.1]
            exact hqueue m (by rw [hq]; exact List.mem_cons_of_mem _ hmem)
          · unfold pending_draws
            simp only [hidle, Bool.false_eq_true, if_false, if_true, List.nil_append, hq,
              List.flatMap_cons, redraw_draws_core penv k6, k5, k7, k8]
        subst h
        refine key _ _ hmt rfl rfl rfl rfl ⟨ha, hh, ht, hr⟩ rfl ?_
        simp only [World.emit]
        rw [draws_append, draws_append, draws_append, draws_append]
        simp [draws, Effect.is_draw]
      · rw [if_neg hm] at h; cases h

theorem draw_video_contents_locked_draws (penv : proc_env) (w : World)
    (window : win_window_info) :
    draws (draw_video_contents_locked penv.iconic w window penv.dc FALSE).trace
      = draws w.trace ++ redraw_draws penv window window.m_primlist := by
  unfold draw_video_contents_locked redraw_draws World.emit
  by_cases h1 : window.m_hwnd ≠ 0 ∧ penv.iconic = false
  · by_cases h2 : window.m_primlist = 0
    · simp only [if_pos h1, if_pos h2, List.append_nil]
      exact draws_snoc _ _ rfl
    · simp only [if_pos h1, if_neg h2]
      rw [draws_append]
      rfl
  · simp only [if_neg h1, List.append_nil]

theorem frame_step_end (cenv : create_env) (input : Int → Int → Int → Int → Bool)
    (penv : proc_env) (s s' : frame_system) (hinv : frame_inv s)
    (h : frame_step cenv input penv s frame_action.redraw_end = some s') :
    frame_inv s' ∧ same_core s.window s'.window ∧ s'.drawing = false ∧
    draws s'.world.trace ++ pending_draws penv s' =
      draws s.world.trace ++ pending_draws penv s := by
  obtain ⟨hmt, hthreads, hlock, hqueue⟩ := hinv
  rw [frame_step_end_eq] at h
  by_cases hd : s.drawing = true
  · rw [if_pos hd] at h
    simp only [Option.some.injEq] at h
    subst h
    have hcore : same_core s.window (window_proc_redraw_end penv s.world s.window).2 :=
      ⟨rfl, rfl, rfl, rfl⟩
    have hw : (draw_video_contents_locked penv.iconic s.world s.window penv.dc FALSE)
        = { s.world with trace :=
              (draw_video_contents_locked penv.iconic s.world s.window penv.dc FALSE).trace } := by
      unfold draw_video_contents_locked
      split_ifs <;> rfl
    refine ⟨⟨?_, ?_, rfl, ?_⟩, hcore, rfl, ?_⟩
    · show (window_proc_redraw_end penv s.world s.window).1.multithreading_enabled = true
      unfold window_proc_redraw_end
      rw [hw]; exact hmt
    · show (window_proc_redraw_end penv s.world s.window).1.window_threadid
        ≠ (window_proc_redraw_end penv s.world s.window).1.main_threadid
      unfold window_proc_redraw_end
      rw [hw]; exact hthreads
    · intro m hmem
      have hqe : (window_proc_redraw_end penv s.world s.window).1.window_queue
          = s.world.window_queue := by
        unfold window_proc_redraw_end
        rw [hw]; rfl
      change m ∈ (window_proc_redraw_end penv s.world s.window).1.window_queue at hmem
      rw [hqe] at hmem
      exact hqueue m hmem
    · have hqe : (window_proc_redraw_end penv s.world s.window).1.window_queue
          = s.world.window_queue := by
        unfold window_proc_redraw_end
        rw [hw]; rfl
      have htr : draws (window_proc_redraw_end penv s.world s.window).1.trace
          = draws s.world.trace ++ redraw_draws penv s.window s.window.m_primlist := by
        unfold window_proc_redraw_end
        simp only [World.emit]
        rw [draws_append, draws_append, draw_video_contents_locked_draws penv s.world s.window]
        simp [draws, Effect.is_draw]
      unfold pending_draws
      simp only [hd, if_true, Bool.false_eq_true, if_false, List.nil_append, hqe, htr,
        redraw_draws_core penv hcore, List.append_assoc]
  · rw [if_neg hd] at h; cases h

theorem update_got_lock_single_props (env : update_env) (w : World)
    (window : win_window_info) (hst : w.multithreading_enabled = false) :
    ∃ w' win', update_got_lock env w window = some (w', win') ∧
      w'.multithreading_enabled = false ∧ same_core window win' ∧
      win'.m_render_lock.holder = none ∧
      draws w'.trace = draws w.trace ++ redraw_draws env.redraw window env.primlist := by
  rw [update_got_lock_single env w window hst]
  obtain ⟨ha, hh, ht, hr, _, _, _⟩ := update_minmax_state_same env.redraw
    { window with m_render_lock := ⟨none⟩ }
  refine ⟨_, _, rfl, hst, ⟨ha, hh, ht, hr⟩, rfl, ?_⟩
  show draws (w.trace ++ _ ++ _ ++ _) = _
  rw [draws_append, draws_append, draws_append]
  unfold redraw_draws
  by_cases h1 : window.m_hwnd ≠ 0 ∧ env.redraw.iconic = false
  · by_cases h2 : env.primlist = 0
    · simp [h1, h2, draws, Effect.is_draw]
    · simp [h1, h2, draws, Effect.is_draw]
  · simp [h1, draws, Effect.is_draw]

theorem update_single_free (env : update_env) (w : World) (window : win_window_info)
    (hst : w.multithreading_enabled = false) (hfree : window.m_render_lock.holder = none) :
    ∃ w' win', window.update env w = some (w', win') ∧
      w'.multithreading_enabled = false ∧ same_core window win' ∧
      win'.m_render_lock.holder = none ∧
      draws w'.trace = draws w.trace ++ requested_draws env.redraw window [env] := by
  obtain ⟨hs, hq⟩ := update_target_changed_same env w window
  have hsd := same_draws_of_quiet hq
  unfold win_window_info.update
  dsimp only
  generalize update_target_changed env w window = r at hs hsd
  obtain ⟨w1, win1⟩ := r
  obtain ⟨hmt1, _, _, hdr1⟩ := id hsd
  simp only at hmt1 hdr1
  have hcore := same_core_of_surface hs
  have hfree1 : win1.m_render_lock.holder = none := by rw [hs.2.2.2.2.1]; exact hfree
  unfold requested_draws
  by_cases hlive : window.m_hwnd ≠ 0 ∧ window.m_target ≠ 0 ∧ window.m_renderer ≠ 0
  · have hlive1 : win1.m_hwnd ≠ 0 ∧ win1.m_target ≠ 0 ∧ win1.m_renderer ≠ 0 := by
      rw [hs.2.1, hs.2.2.1, hs.2.2.2.1]; exact hlive
    rw [if_pos hlive]
    simp only [List.flatMap_cons, List.flatMap_nil, List.append_nil]
    by_cases hblock : env.throttled = true ∨
        250 < u32 ((env.time_check : Int) - (w1.last_update_time : Int))
    · rw [update_draw_block_free env w1 win1 hlive1 hblock hfree1]
      obtain ⟨w', win', he, h1, h2, h3, h4⟩ := update_got_lock_single_props env
        (w1.emit (Effect.osd_lock_acquire win1.addr w1.main_threadid))
        { win1 with m_render_lock := ⟨some w1.main_threadid⟩ } (by rw [← hst, ← hmt1]; rfl)
      have hc2 : same_core window { win1 with m_render_lock := ⟨some w1.main_threadid⟩ } :=
        hcore
      refine ⟨w', win', he, h1, same_core_trans hc2 h2, h3, ?_⟩
      rw [h4, redraw_draws_core env.redraw hc2, ← hdr1]
      congr 1
      exact draws_snoc _ _ rfl
    · rw [update_draw_try_free env w1 win1 hlive1 hblock hfree1]
      obtain ⟨w', win', he, h1, h2, h3, h4⟩ := update_got_lock_single_props env
        (w1.emit (Effect.osd_lock_try win1.addr w1.main_threadid true))
        { win1 with m_render_lock := ⟨some w1.main_threadid⟩ } (by rw [← hst, ← hmt1]; rfl)
      have hc2 : same_core window { win1 with m_render_lock := ⟨some w1.main_threadid⟩ } :=
        hcore
      refine ⟨w', win', he, h1, same_core_trans hc2 h2, h3, ?_⟩
      rw [h4, redraw_draws_core env.redraw hc2, ← hdr1]
      congr 1
      exact draws_snoc _ _ rfl
  · rw [if_neg hlive, update_draw_not_live env w1 win1
      (by rw [hs.2.1, hs.2.2.1, hs.2.2.2.1]; exact hlive)]
    exact ⟨w1, win1, rfl, hmt1.trans hst, hcore, hfree1, by rw [hdr1, List.append_nil]⟩

theorem update_run_draws (penv : proc_env) (envs : List update_env) :
    ∀ (w : World) (window : win_window_info), w.multithreading_enabled = false →
      window.m_render_lock.holder = none → (∀ e ∈ envs, e.redraw = penv) →
      ∃ r, update_run envs (w, window) = some r ∧
        draws r.1.trace = draws w.trace ++ requested_draws penv window envs := by
  induction envs with
  | nil =>
    intro w window _ _ _
    refine ⟨(w, window), rfl, ?_⟩
    unfold requested_draws
    split_ifs <;> simp
  | cons env rest ih =>
    intro w window hst hfree henv
    obtain ⟨w', win', he, h1, h2, h3, h4⟩ := update_single_free env w window hst hfree
    obtain ⟨r, hr, hd⟩ := ih w' win' h1 h3
      (fun e hmem => henv e (List.mem_cons_of_mem _ hmem))
    refine ⟨r, ?_, ?_⟩
    · unfold update_run
      simp only [he]
      exact hr
    · rw [hd, h4, henv env (List.mem_cons_self _ _), requested_draws_core penv h2,
        List.append_assoc, ← requested_draws_append]
      rfl

theorem frame_run_draws (cenv : create_env) (input : Int → Int → Int → Int → Bool)
    (penv : proc_env) (sch : List frame_action) :
    ∀ (s s' : frame_system), frame_inv s → frame_run cenv input penv sch s = some s' →
      frame_inv s' ∧ same_core s.window s'.window ∧
      draws s'.world.trace ++ pending_draws penv s' =
        draws s.world.trace ++ pending_draws penv s
          ++ requested_draws penv s.window (updates_outside_draw sch s.drawing) := by
  induction sch with
  | nil =>
    intro s s' hinv h
    unfold frame_run at h
    simp only [Option.some.injEq] at h
    subst h
    refine ⟨hinv, same_core_refl _, ?_⟩
    unfold requested_draws updates_outside_draw
    split_ifs <;> simp
  | cons a rest ih =>
    intro s s' hinv h
    unfold frame_run at h
    cases hstep : frame_step cenv input penv s a with
    | none => rw [hstep] at h; cases h
    | some s1 =>
      rw [hstep] at h
      simp only at h
      have main : frame_inv s1 ∧ same_core s.window s1.window ∧
          draws s1.world.trace ++ pending_draws penv s1 =
            draws s.world.trace ++ pending_draws penv s ++
              requested_draws penv s.window
                (updates_outside_draw (a :: rest) s.drawing
                  |>.take ((updates_outside_draw (a :: rest) s.drawing).length
                    - (updates_outside_draw rest s1.drawing).length)) ∧
          updates_outside_draw (a :: rest) s.drawing =
            (updates_outside_draw (a :: rest) s.drawing
                  |>.take ((updates_outside_draw (a :: rest) s.drawing).length
                    - (updates_outside_draw rest s1.drawing).length))
              ++ updates_outside_draw rest s1.drawing := by
        cases a with
        | update env =>
          cases hd : s.drawing with
          | false =>
            obtain ⟨k1, k2, k3, k4⟩ := frame_step_update_idle cenv input penv s s1 env hinv hd hstep
            refine ⟨k1, k2, ?_, ?_⟩
            · rw [k4]
              simp [updates_outside_draw, k3]
            · simp [updates_outside_draw, k3]
          | true =>
            obtain ⟨k1, k2, k3, k4⟩ :=
              frame_step_update_drawing cenv input penv s s1 env hinv hd hstep
            refine ⟨k1, k2, ?_, ?_⟩
            · rw [k4]
              simp [updates_outside_draw, k3, requested_draws]
            · simp [updates_outside_draw, k3]
        | redraw_begin =>
          obtain ⟨k1, k2, k3, k4⟩ := frame_step_begin cenv input penv s s1 hinv hstep
          refine ⟨k1, k2, ?_, ?_⟩
          · rw [k4]
            simp [updates_outside_draw, k3, requested_draws]
          · simp [updates_outside_draw, k3]
        | redraw_end =>
          obtain ⟨k1, k2, k3, k4⟩ := frame_step_end cenv input penv s s1 hinv hstep
          refine ⟨k1, k2, ?_, ?_⟩
          · rw [k4]
            simp [updates_outside_draw, k3, requested_draws]
          · simp [updates_outside_draw, k3]
      obtain ⟨m1, m2, m3, m4⟩ := main
      obtain ⟨i1, i2, i3⟩ := ih s1 s' m1 h
      refine ⟨i1, same_core_trans m2 i2, ?_⟩
      rw [i3, m3, requested_draws_core penv m2]
      conv_rhs => rw [m4, requested_draws_append]
      simp only [List.append_assoc]

end FrameLemmas

section FilterLemmas

theorem filter_input_cases_button (input : Int → Int → Int → Int → Bool) (w : World)
    (message : MSG) (button down : Int)
    (h : spec_mouse_button message.message = some (button, down)) :
    filter_input_cases input w message = some (filter_mouse_button input w button down message) := by
  unfold spec_mouse_button at h
  unfold filter_input_cases
  split_ifs at h <;>
    simp only [Option.some.injEq, Prod.mk.injEq] at h <;>
    obtain ⟨rfl, rfl⟩ := h <;>
    simp_all [WM_SYSKEYUP, WM_SYSKEYDOWN, WM_LBUTTONDOWN, WM_LBUTTONUP, WM_RBUTTONDOWN,
      WM_RBUTTONUP, WM_MBUTTONDOWN, WM_MBUTTONUP, WM_XBUTTONDOWN, WM_XBUTTONUP]

theorem filter_input_cases_none (input : Int → Int → Int → Int → Bool) (w : World)
    (message : MSG)
    (hkey : message.message ≠ WM_SYSKEYUP ∧ message.message ≠ WM_SYSKEYDOWN)
    (h : spec_mouse_button message.message = none) :
    filter_input_cases input w message = none := by
  unfold spec_mouse_button at h
  unfold filter_input_cases
  split_ifs at h
  rw [if_neg (by rintro (h1 | h1) <;> simp_all), if_neg (by assumption), if_neg (by assumption),
    if_neg (by assumption), if_neg (by assumption), if_neg (by assumption),
    if_neg (by assumption), if_neg (by assumption), if_neg (by assumption)]

end FilterLemmas

section SignalLemmas

theorem pause_step_signal (w : World) (p : Int) (h : signal_inv w) :
    signal_inv (winwindow_ui_pause_from_main_thread w p) := by
  obtain ⟨h1, h2⟩ := h
  by_cases hp : p ≠ 0
  · by_cases hz : w.ui_temp_pause = 0
    · rw [pause_first w p hp hz]
      cases hm : w.machine_paused
      · exact ⟨fun _ => le_refl _, fun _ => rfl⟩
      · exact ⟨fun _ => le_refl _, fun _ => rfl⟩
    · rw [pause_nested w p hp hz]
      refine ⟨fun he => ?_, fun hd => ?_⟩
      · have := h1 he
        show 1 ≤ w.ui_temp_pause + 1
        omega
      · have hd' : 1 ≤ w.ui_temp_pause + 1 := hd
        exact h2 (by omega)
  · have hp0 : p = 0 := by simpa using hp
    subst hp0
    by_cases hz : w.ui_temp_pause = 1
    · rw [resume_last w hz]
      cases hm : w.ui_temp_was_paused
      · exact ⟨fun he => (by cases he), fun hd => absurd (show (1 : Int) ≤ 0 from hd) (by decide)⟩
      · exact ⟨fun he => (by cases he), fun hd => absurd (show (1 : Int) ≤ 0 from hd) (by decide)⟩
    · rw [resume_nested w hz]
      refine ⟨fun he => ?_, fun hd => ?_⟩
      · have := h1 he
        show 1 ≤ w.ui_temp_pause - 1
        omega
      · have hd' : 1 ≤ w.ui_temp_pause - 1 := hd
        exact h2 (by omega)

theorem pause_calls_signal (calls : List Int) :
    ∀ w : World, signal_inv w → signal_inv (pause_calls w calls) := by
  induction calls with
  | nil => intro w h; exact h
  | cons p rest ih =>
    intro w h
    exact ih _ (pause_step_signal w p h)

theorem pause_calls_depth_count (calls : List Int) :
    ∀ w : World, (pause_calls w calls).ui_temp_pause
      = w.ui_temp_pause + (calls.countP (fun p => decide (p ≠ 0)) : Int)
          - (calls.countP (fun p => decide (p = 0)) : Int) := by
  induction calls with
  | nil => intro w; simp [pause_calls]
  | cons p rest ih =>
    intro w
    have hstep : pause_calls w (p :: rest)
        = pause_calls (winwindow_ui_pause_from_main_thread w p) rest := rfl
    rw [hstep, ih, pause_step_depth]
    by_cases hp : p ≠ 0
    · rw [if_pos hp, List.countP_cons_of_pos _ _ (by simpa using hp),
        List.countP_cons_of_neg _ _ (by simpa using hp)]
      push_cast; ring
    · have hp0 : p = 0 := by simpa using hp
      rw [if_neg hp, List.countP_cons_of_neg _ _ (by simp [hp0]),
        List.countP_cons_of_pos _ _ (by simp [hp0])]
      push_cast; ring

end SignalLemmas

section EventLemmas

theorem tick_difference (time_last time_check : Nat) (h : time_last ≤ time_check) :
    u32 ((GetTickCount time_check : Int) - (GetTickCount time_last : Int))
      = (time_check - time_last) % 2 ^ 32 := by
  unfold u32 GetTickCount
  push_cast
  omega

theorem pause_from_main_thread_check (w : World) (p : Int) :
    (winwindow_ui_pause_from_main_thread w p).last_event_check = w.last_event_check := by
  unfold winwindow_ui_pause_from_main_thread machine_pause machine_resume machine_paused
  dsimp only
  split_ifs <;> rfl

theorem process_events_filter_keeps (input : Int → Int → Int → Int → Bool)
    ( nodispatch : Bool) (w : World) (message : MSG) :
    (process_events_filter input nodispatch w message).1.win_window_list = w.win_window_list ∧
    (process_events_filter input nodispatch w message).1.last_event_check
      = w.last_event_check ∧
    (process_events_filter input nodispatch w message).1.ui_temp_pause = w.ui_temp_pause := by
  unfold process_events_filter
  split_ifs
  · cases hc : filter_input_cases input w message with
    | none => exact ⟨rfl, rfl, rfl⟩
    | some r =>
      unfold filter_input_cases filter_mouse_button at hc
      split_ifs at hc <;> cases hc <;> exact ⟨rfl, rfl, rfl⟩
  · exact ⟨rfl, rfl, rfl⟩

theorem dispatch_message_check (exec : Nat → Nat → World → World)
    (hexec : ∀ f p v, (exec f p v).last_event_check = v.last_event_check)
    (w : World) (message : MSG) :
    (winwindow_dispatch_message exec w message).last_event_check = w.last_event_check := by
  unfold winwindow_dispatch_message
  split_ifs
  · rfl
  · exact pause_from_main_thread_check _ _
  · rw [hexec]; rfl
  · rfl

theorem process_events_message_check (exec : Nat → Nat → World → World)
    (hexec : ∀ f p v, (exec f p v).last_event_check = v.last_event_check)
    (input : Int → Int → Int → Int → Bool) ( nodispatch : Bool) (w : World) (message : MSG) :
    (process_events_message exec input nodispatch w message).last_event_check
      = w.last_event_check := by
  unfold process_events_message
  dsimp only
  split_ifs
  · rw [dispatch_message_check exec hexec]
    exact (process_events_filter_keeps input nodispatch w message).2.1
  · exact (process_events_filter_keeps input nodispatch w message).2.1

theorem process_events_drain_check (exec : Nat → Nat → World → World)
    (hexec : ∀ f p v, (exec f p v).last_event_check = v.last_event_check)
    (input : Int → Int → Int → Int → Bool) ( nodispatch : Bool) (messages : List MSG) :
    ∀ w : World, (process_events_drain exec input nodispatch w messages).last_event_check
      = w.last_event_check := by
  induction messages with
  | nil => intro w; rfl
  | cons m rest ih =>
    intro w
    have h : process_events_drain exec input nodispatch w (m :: rest)
        = process_events_drain exec input nodispatch
            (process_events_message exec input nodispatch w m) rest := rfl
    rw [h, ih, process_events_message_check exec hexec]

theorem process_events_loop_cons (exec : Nat → Nat → World → World)
    (input : Int → Int → Int → Int → Bool) ( nodispatch : Bool) (messages : List MSG)
    (rest : List (List MSG)) (w : World) :
    process_events_loop exec input nodispatch (messages :: rest) w =
      if 0 < (process_events_drain exec input nodispatch
          (if 0 < w.ui_temp_pause then w.emit Effect.WaitMessage else w) messages).ui_temp_pause
      then process_events_loop exec input nodispatch rest
        (process_events_drain exec input nodispatch
          (if 0 < w.ui_temp_pause then w.emit Effect.WaitMessage else w) messages)
      else some (process_events_drain exec input nodispatch
          (if 0 < w.ui_temp_pause then w.emit Effect.WaitMessage else w) messages) := by
  rw [process_events_loop]

theorem process_events_loop_check (exec : Nat → Nat → World → World)
    (hexec : ∀ f p v, (exec f p v).last_event_check = v.last_event_check)
    (input : Int → Int → Int → Int → Bool) ( nodispatch : Bool) (drains : List (List MSG)) :
    ∀ w w' : World, process_events_loop exec input nodispatch drains w = some w' →
      w'.last_event_check = w.last_event_check := by
  induction drains with
  | nil =>
    intro w w' h
    unfold process_events_loop at h
    split_ifs at h
    cases h
    rfl
  | cons messages rest ih =>
    intro w w' h
    rw [process_events_loop_cons] at h
    have hw : (if 0 < w.ui_temp_pause then w.emit Effect.WaitMessage else w).last_event_check
        = w.last_event_check := by
      split_ifs <;> rfl
    have hd := process_events_drain_check exec hexec input nodispatch messages
      (if 0 < w.ui_temp_pause then w.emit Effect.WaitMessage else w)
    rw [hw] at hd
    generalize process_events_drain exec input nodispatch
      (if 0 < w.ui_temp_pause then w.emit Effect.WaitMessage else w) messages = w2 at h hd
    by_cases hp : 0 < w2.ui_temp_pause
    · rw [if_pos hp] at h
      rw [ih _ _ h, hd]
    · rw [if_neg hp] at h
      cases h
      exact hd

end EventLemmas

section PollLemmas

theorem dispatch_message_registry (exec : Nat → Nat → World → World)
    (hexec : ∀ f p v, (exec f p v).win_window_list = v.win_window_list)
    (w : World) (message : MSG) :
    (winwindow_dispatch_message exec w message).win_window_list = w.win_window_list := by
  unfold winwindow_dispatch_message
  split_ifs
  · rfl
  · exact pause_from_main_thread_registry _ _
  · rw [hexec]; rfl
  · rfl

theorem process_events_message_registry (exec : Nat → Nat → World → World)
    (hexec : ∀ f p v, (exec f p v).win_window_list = v.win_window_list)
    (input : Int → Int → Int → Int → Bool) ( nodispatch : Bool) (w : World) (message : MSG) :
    (process_events_message exec input nodispatch w message).win_window_list
      = w.win_window_list := by
  unfold process_events_message
  dsimp only
  split_ifs
  · rw [dispatch_message_registry exec hexec]
    exact (process_events_filter_keeps input nodispatch w message).1
  · exact (process_events_filter_keeps input nodispatch w message).1

theorem process_events_drain_registry (exec : Nat → Nat → World → World)
    (hexec : ∀ f p v, (exec f p v).win_window_list = v.win_window_list)
    (input : Int → Int → Int → Int → Bool) ( nodispatch : Bool) (messages : List MSG) :
    ∀ w : World, (process_events_drain exec input nodispatch w messages).win_window_list
      = w.win_window_list := by
  induction messages with
  | nil => intro w; rfl
  | cons m rest ih =>
    intro w
    have h : process_events_drain exec input nodispatch w (m :: rest)
        = process_events_drain exec input nodispatch
            (process_events_message exec input nodispatch w m) rest := rfl
    rw [h, ih, process_events_message_registry exec hexec]

theorem process_events_loop_registry (exec : Nat → Nat → World → World)
    (hexec : ∀ f p v, (exec f p v).win_window_list = v.win_window_list)
    (input : Int → Int → Int → Int → Bool) ( nodispatch : Bool) (drains : List (List MSG)) :
    ∀ w w' : World, process_events_loop exec input nodispatch drains w = some w' →
      w'.win_window_list = w.win_window_list := by
  induction drains with
  | nil =>
    intro w w' h
    unfold process_events_loop at h
    split_ifs at h
    cases h
    rfl
  | cons messages rest ih =>
    intro w w' h
    rw [process_events_loop_cons] at h
    have hw : (if 0 < w.ui_temp_pause then w.emit Effect.WaitMessage else w).win_window_list
        = w.win_window_list := by
      split_ifs <;> rfl
    have hd := process_events_drain_registry exec hexec input nodispatch messages
      (if 0 < w.ui_temp_pause then w.emit Effect.WaitMessage else w)
    rw [hw] at hd
    generalize process_events_drain exec input nodispatch
      (if 0 < w.ui_temp_pause then w.emit Effect.WaitMessage else w) messages = w2 at h hd
    by_cases hp : 0 < w2.ui_temp_pause
    · rw [if_pos hp] at h
      rw [ih _ _ h, hd]
    · rw [if_neg hp] at h
      cases h
      exact hd

theorem process_events_registry (exec : Nat → Nat → World → World)
    (hexec : ∀ f p v, (exec f p v).win_window_list = v.win_window_list)
    (input : Int → Int → Int → Int → Bool) ( ingame : Int) ( nodispatch : Bool) (time : Nat)
    (drains : List (List MSG)) (w w' : World)
    (h : winwindow_process_events exec input ingame nodispatch time drains w = some w') :
    w'.win_window_list = w.win_window_list := by
  unfold winwindow_process_events at h
  dsimp only at h
  cases hl : process_events_loop exec input nodispatch drains
      { w with last_event_check := GetTickCount time } with
  | none => rw [hl] at h; cases h
  | some v =>
    rw [hl] at h
    cases h
    exact process_events_loop_registry exec hexec input nodispatch drains
      { w with last_event_check := GetTickCount time } v hl

theorem create_poll_cons (env : create_env) (exec : Nat → Nat → World → World)
    (input : Int → Int → Int → Int → Bool) (addr : Nat) (r : poll_round)
    (rest : List poll_round) (w : World) :
    create_poll env exec input addr (r :: rest) w =
      if (thread_entry_loop env input r.window_thread w).init_state addr = some 0 then
        match winwindow_process_events exec input 0 true r.time r.drains
            (thread_entry_loop env input r.window_thread w) with
        | none => poll_result.blocked
        | some v1 => create_poll env exec input addr rest v1
      else poll_result.done (thread_entry_loop env input r.window_thread w) := by
  rw [create_poll]

theorem create_poll_append (env : create_env) (exec : Nat → Nat → World → World)
    (input : Int → Int → Int → Int → Bool) (addr : Nat) (idle rest : List poll_round) :
    ∀ w v : World, create_poll env exec input addr idle w = poll_result.pending v →
      create_poll env exec input addr (idle ++ rest) w
        = create_poll env exec input addr rest v := by
  induction idle with
  | nil =>
    intro w v h
    unfold create_poll at h
    split_ifs at h
    cases h
    rfl
  | cons r tail ih =>
    intro w v h
    rw [create_poll_cons] at h
    rw [List.cons_append, create_poll_cons]
    by_cases hp : (thread_entry_loop env input r.window_thread w).init_state addr = some 0
    · rw [if_pos hp] at h ⊢
      cases hpass : winwindow_process_events exec input 0 true r.time r.drains
          (thread_entry_loop env input r.window_thread w) with
      | none => rw [hpass] at h; cases h
      | some v1 =>
        rw [hpass] at h
        exact ih v1 v h
    · rw [if_neg hp] at h
      cases h

theorem create_poll_pending_registry (env : create_env) (exec : Nat → Nat → World → World)
    (hexec : ∀ f p v, (exec f p v).win_window_list = v.win_window_list)
    (input : Int → Int → Int → Int → Bool) (addr : Nat) (idle : List poll_round)
    (hidle : ∀ q ∈ idle, ∀ m ∈ q.window_thread, m.message ≠ WM_USER_FINISH_CREATE_WINDOW) :
    ∀ w v : World, create_poll env exec input addr idle w = poll_result.pending v →
      v.win_window_list = w.win_window_list := by
  induction idle with
  | nil =>
    intro w v h
    unfold create_poll at h
    split_ifs at h
    cases h
    rfl
  | cons r tail ih =>
    intro w v h
    rw [create_poll_cons] at h
    by_cases hp : (thread_entry_loop env input r.window_thread w).init_state addr = some 0
    · rw [if_pos hp] at h
      cases hpass : winwindow_process_events exec input 0 true r.time r.drains
          (thread_entry_loop env input r.window_thread w) with
      | none => rw [hpass] at h; cases h
      | some v1 =>
        rw [hpass] at h
        rw [ih (fun q hq => hidle q (List.mem_cons_of_mem _ hq)) v1 v h,
          process_events_registry exec hexec input 0 true r.time r.drains _ _ hpass,
          thread_entry_loop_other env input r.window_thread
            (hidle r (List.mem_cons_self _ _))]
    · rw [if_neg hp] at h
      cases h

theorem thread_entry_loop_handshake (env : create_env) (input : Int → Int → Int → Int → Bool)
    (v : World) (window : win_window_info) (before after : List MSG)
    (hwin : v.window window.addr = some window)
    (hbefore : ∀ m ∈ before,
      m.message ≠ WM_USER_FINISH_CREATE_WINDOW ∧ m.message ≠ WM_QUIT)
    (hafter : ∀ m ∈ after, m.message ≠ WM_USER_FINISH_CREATE_WINDOW) :
    (thread_entry_loop env input
        (before ++ ⟨0, WM_USER_FINISH_CREATE_WINDOW, 0, window.addr⟩ :: after)
        v).init_state window.addr
      = some (if (complete_create env v window).2.2 ≠ 0 then -1 else 1) := by
  have hq : ¬ (WM_USER_FINISH_CREATE_WINDOW = WM_QUIT) := by decide
  rw [thread_entry_loop_append env input before _ (fun m hm => (hbefore m hm).2)]
  generalize hu : thread_entry_loop env input before v = u
  have hul : u.win_window_list = v.win_window_list := by
    rw [← hu, thread_entry_loop_other env input before (fun m hm => (hbefore m hm).1)]
  have huwin : u.window window.addr = some window := by
    unfold World.window at hwin ⊢
    rw [hul]; exact hwin
  unfold thread_entry_loop
  rw [if_neg hq, World.init_state, World.window,
    thread_entry_loop_other env input after hafter]
  rw [thread_entry_message_finish env input u window huwin]
  have h := store_init_state (complete_create env u window).1
    { (complete_create env u window).2.1 with
        m_init_state := if (complete_create env u window).2.2 ≠ 0 then -1 else 1 } window.addr
  unfold World.init_state World.window at h
  rw [h]
  simp only [(complete_create_keeps env _ _).2.1, if_true]
  rw [(complete_create_keeps env _ _).1]
  unfold World.window at huwin
  rw [huwin, complete_create_result env u v]
  rfl

end PollLemmas

section RegistryLemmas

theorem linked_nil_iff (m : Nat → Nat) (p : Nat) : linked m p [] = true ↔ p = 0 := by
  simp [linked]

theorem linked_cons_iff (m : Nat → Nat) (p a : Nat) (rest : List Nat) :
    linked m p (a :: rest) = true ↔ p = a ∧ a ≠ 0 ∧ linked m (m a) rest = true := by
  simp [linked]

theorem linked_congr (m m' : Nat → Nat) (xs : List Nat) :
    ∀ p : Nat, (∀ a ∈ xs, m' a = m a) → linked m p xs = true → linked m' p xs = true := by
  induction xs with
  | nil => intro p _ h; rw [linked_nil_iff] at h ⊢; exact h
  | cons a rest ih =>
    intro p hm h
    rw [linked_cons_iff] at h ⊢
    refine ⟨h.1, h.2.1, ?_⟩
    rw [hm a (List.mem_cons_self _ _)]
    exact ih _ (fun x hx => hm x (List.mem_cons_of_mem _ hx)) h.2.2

theorem linked_unique (m : Nat → Nat) (xs : List Nat) :
    ∀ (p : Nat) (ys : List Nat), linked m p xs = true → linked m p ys = true → xs = ys := by
  induction xs with
  | nil =>
    intro p ys hx hy
    rw [linked_nil_iff] at hx
    cases ys with
    | nil => rfl
    | cons b rest =>
      rw [linked_cons_iff] at hy
      exact absurd (hy.1.symm.trans hx) hy.2.1
  | cons a rest ih =>
    intro p ys hx hy
    rw [linked_cons_iff] at hx
    cases ys with
    | nil =>
      rw [linked_nil_iff] at hy
      exact absurd (hx.1.symm.trans hy) hx.2.1
    | cons b rest' =>
      rw [linked_cons_iff] at hy
      have hab : a = b := hx.1.symm.trans hy.1
      subst hab
      rw [ih _ _ hx.2.2 hy.2.2]

theorem linked_suffix (m : Nat → Nat) (ys : List Nat) (a : Nat) (zs : List Nat) :
    ∀ p : Nat, linked m p (ys ++ a :: zs) = true → linked m (m a) zs = true := by
  induction ys with
  | nil =>
    intro p h
    rw [List.nil_append, linked_cons_iff] at h
    exact h.2.2
  | cons b rest ih =>
    intro p h
    rw [List.cons_append, linked_cons_iff] at h
    exact ih _ h.2.2

theorem linked_nodup (m : Nat → Nat) (xs : List Nat) :
    ∀ p : Nat, linked m p xs = true → xs.Nodup := by
  induction xs with
  | nil => intro p _; exact List.nodup_nil
  | cons a rest ih =>
    intro p h
    rw [linked_cons_iff] at h
    refine List.nodup_cons.mpr ⟨?_, ih _ h.2.2⟩
    intro hmem
    obtain ⟨ys, zs, hsplit⟩ := List.append_of_mem hmem
    have h1 := h.2.2
    rw [hsplit] at h1
    have h2 := linked_suffix m ys a zs _ h1
    have h3 := linked_unique m _ _ _ h.2.2 h2
    have hlen := congrArg List.length h3
    rw [hsplit, List.length_append, List.length_cons] at hlen
    omega

theorem linked_not_mem_zero (m : Nat → Nat) (xs : List Nat) :
    ∀ p : Nat, linked m p xs = true → 0 ∉ xs := by
  induction xs with
  | nil => intro p _ h; cases h
  | cons a rest ih =>
    intro p h
    rw [linked_cons_iff] at h
    intro hmem
    rcases List.mem_cons.mp hmem with h0 | h0
    · exact h.2.1 h0.symm
    · exact ih _ h.2.2 h0

theorem tail_link_append (xs : List Nat) (a : Nat) :
    tail_link (xs ++ [a]) = window_link.next a := by
  unfold tail_link
  rw [List.getLast?_append, List.getLast?_singleton]
  rfl

theorem linked_append (m : Nat → Nat) (a : Nat) (ha : a ≠ 0) (xs : List Nat) :
    ∀ (p last : Nat), xs.getLast? = some last → a ∉ xs → linked m p xs = true →
      linked (fun x => if x = last then a else if x = a then 0 else m x) p (xs ++ [a])
        = true := by
  induction xs with
  | nil => intro p last hl; cases hl
  | cons b rest ih =>
    intro p last hl hmem h
    have hnd := linked_nodup m _ _ h
    rw [linked_cons_iff] at h
    have hba : b ≠ a := fun e => hmem (e ▸ List.mem_cons_self _ _)
    have harest : a ∉ rest := fun e => hmem (List.mem_cons_of_mem _ e)
    rw [List.cons_append, linked_cons_iff]
    refine ⟨h.1, h.2.1, ?_⟩
    cases rest with
    | nil =>
      have hlb : last = b := by simpa using hl.symm
      subst hlb
      simp only [if_true, List.nil_append]
      rw [linked_cons_iff]
      refine ⟨rfl, ha, ?_⟩
      rw [linked_nil_iff, if_neg (fun e => hba e.symm), if_pos rfl]
    | cons c rest' =>
      have hl' : (c :: rest').getLast? = some last := by
        rw [← hl, List.getLast?_cons_cons]
      have hlast_mem : last ∈ c :: rest' := List.mem_of_getLast?_eq_some hl'
      have hbl : b ≠ last := fun e => (List.nodup_cons.mp hnd).1 (e ▸ hlast_mem)
      rw [if_neg hbl, if_neg hba]
      exact ih _ last hl' harest h.2.2

theorem window_init_list_registry (l : window_links) (h : l.win_window_list = 0) :
    (window_init_list l).registry [] ∧
    (window_init_list l).last_window_ptr = tail_link [] := by
  refine ⟨?_, rfl⟩
  unfold window_links.registry window_init_list
  rw [linked_nil_iff]
  exact h

theorem video_window_create_list_registry (l : window_links) (xs : List Nat) (window : Nat)
    (hreg : l.registry xs) (htail : l.last_window_ptr = tail_link xs)
    (hnew : window ≠ 0) (hfresh : window ∉ xs) :
    (video_window_create_list l window).registry (xs ++ [window]) ∧
    (video_window_create_list l window).last_window_ptr = tail_link (xs ++ [window]) := by
  refine ⟨?_, by rw [tail_link_append]; rfl⟩
  unfold window_links.registry at hreg ⊢
  unfold video_window_create_list
  dsimp only
  rw [htail]
  cases hl : xs.getLast? with
  | none =>
    have hx : xs = [] := List.getLast?_eq_none_iff.mp hl
    subst hx
    rw [linked_nil_iff] at hreg
    unfold tail_link
    simp only [List.getLast?_nil, window_links.set, List.nil_append]
    rw [linked_cons_iff]
    refine ⟨rfl, hnew, ?_⟩
    rw [linked_nil_iff, if_pos rfl]
  | some last =>
    unfold tail_link
    simp only [hl, window_links.set]
    have h := linked_append l.m_next window hnew xs _ last hl hfresh hreg
    exact h

end RegistryLemmas

section RegistryWorldLemmas

theorem store_append_fresh (l : List win_window_info) (x y : win_window_info)
    (hxy : x.addr = y.addr) (hfresh : ∀ z ∈ l, z.addr ≠ y.addr) :
    (l ++ [x]).map (fun old => if old.addr = y.addr then y else old) = l ++ [y] := by
  rw [List.map_append]
  congr 1
  · induction l with
    | nil => rfl
    | cons z rest ih =>
      rw [List.map_cons, if_neg (hfresh z (List.mem_cons_self _ _)),
        ih (fun u hu => hfresh u (List.mem_cons_of_mem _ hu))]
  · rw [List.map_singleton, if_pos hxy]

theorem create_start_single_eq (cfg : window_create_env) (env : create_env) (w : World)
    (hst : w.multithreading_enabled = false) :
    winwindow_video_window_create_start cfg env w =
      (complete_create env
          ((({ w with win_window_list :=
                w.win_window_list ++ [created_window cfg w.win_window_list] }.emit
              (Effect.osd_lock_alloc (created_window cfg w.win_window_list).addr)).emit
              (Effect.target_alloc (created_window cfg w.win_window_list).m_target)).emit
              (Effect.set_starting_view (created_window cfg w.win_window_list).m_target))
          (created_window cfg w.win_window_list)).1.store
        { (complete_create env
            ((({ w with win_window_list :=
                  w.win_window_list ++ [created_window cfg w.win_window_list] }.emit
                (Effect.osd_lock_alloc (created_window cfg w.win_window_list).addr)).emit
                (Effect.target_alloc (created_window cfg w.win_window_list).m_target)).emit
                (Effect.set_starting_view (created_window cfg w.win_window_list).m_target))
            (created_window cfg w.win_window_list)).2.1 with
          m_init_state :=
            if (complete_create env
              ((({ w with win_window_list :=
                    w.win_window_list ++ [created_window cfg w.win_window_list] }.emit
                  (Effect.osd_lock_alloc (created_window cfg w.win_window_list).addr)).emit
                  (Effect.target_alloc (created_window cfg w.win_window_list).m_target)).emit
                  (Effect.set_starting_view (created_window cfg w.win_window_list).m_target))
              (created_window cfg w.win_window_list)).2.2 ≠ 0 then -1 else 1 } := by
  have hc : ¬ (((({ w with win_window_list :=
                w.win_window_list ++ [created_window cfg w.win_window_list] }.emit
              (Effect.osd_lock_alloc (created_window cfg w.win_window_list).addr)).emit
              (Effect.target_alloc (created_window cfg w.win_window_list).m_target)).emit
              (Effect.set_starting_view (created_window cfg w.win_window_list).m_target)
            ).multithreading_enabled = true) := by
    show ¬ (w.multithreading_enabled = true)
    rw [hst]; decide
  unfold winwindow_video_window_create_start
  dsimp only
  rw [if_neg hc]

theorem create_start_registry (cfg : window_create_env) (env : create_env) (w : World)
    (hfresh : ∀ x ∈ w.win_window_list, x.addr ≠ cfg.addr) :
    ∃ window : win_window_info, window.addr = cfg.addr ∧
      (winwindow_video_window_create_start cfg env w).win_window_list
        = w.win_window_list ++ [window] := by
  have hca : (created_window cfg w.win_window_list).addr = cfg.addr := rfl
  by_cases hmt : w.multithreading_enabled = true
  · refine ⟨created_window cfg w.win_window_list, hca, ?_⟩
    unfold winwindow_video_window_create_start PostThreadMessage
    simp only [World.emit, hmt, if_true]
    split_ifs <;> rfl
  · rw [create_start_single_eq cfg env w (by simpa using hmt)]
    have hk := complete_create_keeps env
      ((({ w with win_window_list :=
            w.win_window_list ++ [created_window cfg w.win_window_list] }.emit
          (Effect.osd_lock_alloc (created_window cfg w.win_window_list).addr)).emit
          (Effect.target_alloc (created_window cfg w.win_window_list).m_target)).emit
          (Effect.set_starting_view (created_window cfg w.win_window_list).m_target))
      (created_window cfg w.win_window_list)
    generalize complete_create env _ (created_window cfg w.win_window_list) = r at hk ⊢
    have hra : ({ r.2.1 with m_init_state := if r.2.2 ≠ 0 then -1 else 1 } :
        win_window_info).addr = cfg.addr := hk.2.1.trans hca
    refine ⟨{ r.2.1 with m_init_state := if r.2.2 ≠ 0 then -1 else 1 }, hra, ?_⟩
    unfold World.store
    dsimp only
    rw [hk.1]
    exact store_append_fresh _ _ _ (hca.trans hra.symm)
      (fun z hz => by rw [hra]; exact hfresh z hz)

end RegistryWorldLemmas

section UnlinkLemmas

theorem window_links_get_set (l : window_links) (q : window_link) (v : Nat) :
    (l.set q v).get q = v := by
  cases q with
  | head => rfl
  | next c => simp [window_links.set, window_links.get]

theorem window_links_set_next (l : window_links) (q : window_link) (v x : Nat)
    (h : window_link.next x ≠ q) : (l.set q v).m_next x = l.m_next x := by
  cases q with
  | head => rfl
  | next c =>
    have hx : x ≠ c := fun e => h (by rw [e])
    simp [window_links.set, hx]

theorem window_links_set_head (l : window_links) (q : window_link) (v : Nat)
    (h : q ≠ window_link.head) : (l.set q v).win_window_list = l.win_window_list := by
  cases q with
  | head => exact absurd rfl h
  | next c => rfl

theorem window_links_set_last (l : window_links) (q : window_link) (v : Nat) :
    (l.set q v).last_window_ptr = l.last_window_ptr := by
  cases q <;> rfl

theorem video_window_destroy_loop_spec (l : window_links) (a : Nat) (ys : List Nat) :
    ∀ (fuel : Nat) (prevptr : window_link),
      linked l.m_next (l.get prevptr) ys = true → ys.length < fuel →
      (∀ c, prevptr = window_link.next c → c ∉ ys) →
      ∃ l', video_window_destroy_loop l a fuel prevptr = some l' ∧
        l'.last_window_ptr = l.last_window_ptr ∧
        (a ∉ ys → l' = l) ∧
        linked l'.m_next (l'.get prevptr) (ys.erase a) = true ∧
        (∀ x, window_link.next x ≠ prevptr → x ∉ ys → l'.m_next x = l.m_next x) ∧
        (prevptr ≠ window_link.head → l'.win_window_list = l.win_window_list) := by
  induction ys with
  | nil =>
    intro fuel prevptr hl hfuel _
    cases fuel with
    | zero => cases hfuel
    | succ f =>
      rw [linked_nil_iff] at hl
      refine ⟨l, ?_, rfl, fun _ => rfl, ?_, fun _ _ _ => rfl, fun _ => rfl⟩
      · rw [video_window_destroy_loop, if_pos hl]
      · rw [List.erase_nil, linked_nil_iff]; exact hl
  | cons b rest ih =>
    intro fuel prevptr hl hfuel hside
    have hnd := linked_nodup _ _ _ hl
    rw [linked_cons_iff] at hl
    obtain ⟨hget, hb0, hrest⟩ := hl
    cases fuel with
    | zero => cases hfuel
    | succ f =>
      have hne : ¬ (l.get prevptr = 0) := by rw [hget]; exact hb0
      by_cases hba : b = a
      · subst hba
        refine ⟨l.set prevptr (l.m_next b), ?_, window_links_set_last _ _ _,
          fun h => absurd (List.mem_cons_self _ _) h, ?_,
          fun x hx _ => window_links_set_next _ _ _ _ hx,
          fun h => window_links_set_head _ _ _ h⟩
        · rw [video_window_destroy_loop, if_neg hne, if_pos hget]
        · rw [List.erase_cons_head, window_links_get_set]
          refine linked_congr l.m_next _ rest _ (fun x hx => ?_) hrest
          refine window_links_set_next _ _ _ _ (fun e => ?_)
          exact hside x e.symm (List.mem_cons_of_mem _ hx)
      · have hga : ¬ (l.get prevptr = a) := by rw [hget]; exact hba
        have hbrest : b ∉ rest := (List.nodup_cons.mp hnd).1
        obtain ⟨l', hrun, hlast, hsame, hlinked, hkeep, hhead⟩ :=
          ih f (window_link.next b) hrest (by simpa using hfuel)
            (fun c hc => by
              have hcb : b = c := by injection hc
              rw [← hcb]; exact hbrest)
        have hget' : l'.get prevptr = b := by
          cases prevptr with
          | head =>
            show l'.win_window_list = b
            rw [hhead (by intro e; cases e)]
            exact hget
          | next c =>
            have hc := hside c rfl
            show l'.m_next c = b
            rw [hkeep c (fun e => hc (by injection e with e'; rw [e']; exact List.mem_cons_self _ _))
              (fun e => hc (List.mem_cons_of_mem _ e))]
            exact hget
        refine ⟨l', ?_, hlast, fun h => hsame (fun e => h (List.mem_cons_of_mem _ e)), ?_,
          fun x hx hmem => ?_, fun _ => hhead (by intro e; cases e)⟩
        · rw [video_window_destroy_loop, if_neg hne, if_neg hga, hget]
          exact hrun
        · have he : (b :: rest).erase a = b :: rest.erase a := by
            rw [List.erase_cons_tail]
            simpa using hba
          rw [he, linked_cons_iff]
          exact ⟨hget', hb0, hlinked⟩
        · refine hkeep x (fun e => hmem ?_) (fun e => hmem (List.mem_cons_of_mem _ e))
          injection e with e'
          rw [e']; exact List.mem_cons_self _ _

theorem video_window_destroy_list_registry (l : window_links) (xs : List Nat) (a fuel : Nat)
    (hreg : l.registry xs) (hfuel : xs.length < fuel) :
    ∃ l', video_window_destroy_list fuel l a = some l' ∧ l'.registry (xs.erase a) ∧
      l'.last_window_ptr = l.last_window_ptr ∧ (a ∉ xs → l' = l) := by
  obtain ⟨l', hrun, hlast, hsame, hlinked, _, _⟩ :=
    video_window_destroy_loop_spec l a xs fuel window_link.head hreg hfuel
      (fun c hc => by cases hc)
  exact ⟨l', hrun, hlinked, hlast, hsame⟩

theorem window_exit_list_registry (xs : List Nat) :
    ∀ (l : window_links) (fuel : Nat), l.registry xs → xs.length < fuel →
      ∃ l', window_exit_list fuel l = some (l', xs) ∧ l'.registry [] ∧
        l'.last_window_ptr = l.last_window_ptr := by
  induction xs with
  | nil =>
    intro l fuel hreg hfuel
    cases fuel with
    | zero => cases hfuel
    | succ f =>
      have h0 : l.win_window_list = 0 := (linked_nil_iff _ _).mp hreg
      exact ⟨l, by rw [window_exit_list, if_pos h0], hreg, rfl⟩
  | cons b rest ih =>
    intro l fuel hreg hfuel
    have hnd := linked_nodup _ _ _ hreg
    have hl := (linked_cons_iff _ _ _ _).mp hreg
    cases fuel with
    | zero => cases hfuel
    | succ f =>
      have hne : ¬ (l.win_window_list = 0) := by rw [hl.1]; exact hl.2.1
      have hreg1 : ({ l with win_window_list := l.m_next l.win_window_list } :
          window_links).registry rest := by
        show linked l.m_next (l.m_next l.win_window_list) rest = true
        rw [hl.1]; exact hl.2.2
      obtain ⟨l2, hrun, _, hlast2, hsame⟩ := video_window_destroy_list_registry
        { l with win_window_list := l.m_next l.win_window_list } rest l.win_window_list
        (f + 1) hreg1 (by simp at hfuel; omega)
      have hl2 : l2 = { l with win_window_list := l.m_next l.win_window_list } :=
        hsame (by rw [hl.1]; exact (List.nodup_cons.mp hnd).1)
      subst hl2
      obtain ⟨l', hrun', hreg', hlast'⟩ := ih _ f hreg1 (by simpa using hfuel)
      refine ⟨l', ?_, hreg', hlast'⟩
      rw [window_exit_list, if_neg hne]
      dsimp only
      rw [hrun]
      dsimp only
      rw [hrun', hl.1]

end UnlinkLemmas
section DestroyLemmas

theorem window_proc_self_terminate_eq (env denv : proc_env) (w : World)
    (window : win_window_info) :
    (window_proc_self_terminate env denv w window).1 =
      { w with trace := w.trace ++
          [Effect.DestroyWindow window.m_hwnd, Effect.renderer_destroy window.m_renderer,
           Effect.global_free window.m_renderer,
           Effect.DefWindowProc window.m_hwnd WM_DESTROY 0 0] } ∧
    (window_proc_self_terminate env denv w window).2.m_hwnd = 0 ∧
    (window_proc_self_terminate env denv w window).2.m_renderer = 0 ∧
    (window_proc_self_terminate env denv w window).2.m_target = window.m_target ∧
    (window_proc_self_terminate env denv w window).2.addr = window.addr := by
  unfold window_proc_self_terminate window_proc_destroy
  obtain ⟨h1a, h1h, h1t, h1r, _⟩ := update_minmax_state_same env window
  obtain ⟨h2a, h2h, h2t, h2r, _⟩ :=
    update_minmax_state_same denv (update_minmax_state env window)
  refine ⟨?_, rfl, rfl, ?_, ?_⟩
  · simp only [World.emit, h2h, h2r, h1h, h1r, List.append_assoc, List.cons_append,
      List.nil_append]
  · exact h2t.trans h1t
  · exact h2a.trans h1a

theorem winwindow_video_window_destroy_eq (env denv : proc_env) (w : World)
    (window : win_window_info) :
    winwindow_video_window_destroy env denv w window =
      { w with
        win_window_list := w.win_window_list.eraseP (fun x => x.addr == window.addr)
        trace := w.trace ++ destroy_calls window } := by
  unfold winwindow_video_window_destroy destroy_calls
  by_cases hh : window.m_hwnd ≠ 0
  · obtain ⟨hw, _, _, ht, ha⟩ := window_proc_self_terminate_eq env denv
      ({ w with win_window_list :=
          w.win_window_list.eraseP (fun x => x.addr == window.addr) }.emit
        (Effect.SendMessage window.m_hwnd WM_USER_SELF_TERMINATE 0 0)) window
    simp only [if_pos hh]
    rw [hw, ht, ha]
    simp only [World.emit, List.append_assoc, List.cons_append, List.nil_append]
  · simp only [if_neg hh]
    simp only [World.emit, List.append_assoc, List.cons_append, List.nil_append]

theorem eraseP_fresh (ws : List win_window_info) (a : Nat)
    (h : a ∉ ws.map (fun x => x.addr)) :
    ws.eraseP (fun x => x.addr == a) = ws := by
  induction ws with
  | nil => rfl
  | cons x rest ih =>
    have hx : (x.addr == a) = false := by
      have : x.addr ≠ a := fun e => h (by rw [← e]; exact List.mem_map.mpr ⟨x, List.mem_cons_self _ _, rfl⟩)
      simpa using this
    rw [List.eraseP_cons, hx, cond_false]
    rw [ih (fun e => h (by
      rw [List.map_cons]; exact List.mem_cons_of_mem _ e))]

theorem eraseP_addrs (ws : List win_window_info) (a : Nat) :
    (ws.eraseP (fun x => x.addr == a)).map (fun x => x.addr)
      = (ws.map (fun x => x.addr)).erase a := by
  induction ws with
  | nil => rfl
  | cons x rest ih =>
    by_cases hx : x.addr = a
    · have hb : (x.addr == a) = true := by simpa using hx
      rw [List.eraseP_cons, hb, cond_true, List.map_cons, hx, List.erase_cons_head]
    · have hb : (x.addr == a) = false := by simpa using hx
      rw [List.eraseP_cons, hb, cond_false, List.map_cons, List.map_cons,
        List.erase_cons_tail (by simpa using hx), ih]

theorem window_exit_loop_spec (env denv : proc_env) (ws : List win_window_info) :
    ∀ (w : World) (fuel : Nat), w.win_window_list = ws →
      (ws.map (fun x => x.addr)).Nodup → ws.length < fuel →
      window_exit_loop env denv fuel w =
        some { w with win_window_list := [], trace := w.trace ++ exit_calls ws } := by
  induction ws with
  | nil =>
    intro w fuel hw _ hfuel
    cases fuel with
    | zero => cases hfuel
    | succ f =>
      rw [window_exit_loop, hw]
      simp only [exit_calls, List.append_nil]
      rw [← hw]
  | cons temp rest ih =>
    intro w fuel hw hnd hfuel
    cases fuel with
    | zero => cases hfuel
    | succ f =>
      rw [List.map_cons, List.nodup_cons] at hnd
      rw [window_exit_loop, hw]
      dsimp only
      rw [winwindow_video_window_destroy_eq]
      dsimp only
      rw [eraseP_fresh rest temp.addr hnd.1]
      rw [ih _ f rfl hnd.2 (by simpa using hfuel)]
      simp only [exit_calls, List.append_assoc]

end DestroyLemmas
section ExitLemmas

theorem PostThreadMessage_keeps (w : World) (threadid message wParam lParam : Nat) :
    (PostThreadMessage w threadid message wParam lParam).multithreading_enabled
      = w.multithreading_enabled ∧
    (PostThreadMessage w threadid message wParam lParam).win_window_list
      = w.win_window_list ∧
    (PostThreadMessage w threadid message wParam lParam).trace
      = w.trace ++ [Effect.PostThreadMessage threadid message wParam lParam] ∧
    (threadid = w.window_threadid → threadid ≠ w.main_threadid →
      (PostThreadMessage w threadid message wParam lParam).window_queue
        = w.window_queue ++ [⟨0, message, wParam, lParam⟩]) := by
  unfold PostThreadMessage
  dsimp only
  refine ⟨?_, ?_, ?_, ?_⟩
  · split_ifs <;> rfl
  · split_ifs <;> rfl
  · split_ifs <;> rfl
  · intro h1 h2
    rw [if_neg h2, if_pos h1]
    rfl

theorem window_exit_tail (w1 : World) :
    ∃ w' : World,
      (let w2 := w1.emit Effect.draw_exit
       let w3 := if w2.multithreading_enabled then
           (PostThreadMessage w2 w2.window_threadid WM_USER_SELF_TERMINATE 0 0).emit
             Effect.WaitForSingleObject_window_thread
         else w2
       let w4 := w3.emit Effect.CloseHandle_ui_pause_event
       let w5 := if w4.multithreading_enabled then
           w4.emit Effect.CloseHandle_window_thread_ready_event
         else w4
       w5.emit (Effect.ShowCursor true)) = w' ∧
      w'.win_window_list = w1.win_window_list ∧
      w'.trace = w1.trace ++ [Effect.draw_exit] ++
        (if w1.multithreading_enabled = true then
          [Effect.PostThreadMessage w1.window_threadid WM_USER_SELF_TERMINATE 0 0,
           Effect.WaitForSingleObject_window_thread]
         else []) ++
        [Effect.CloseHandle_ui_pause_event] ++
        (if w1.multithreading_enabled = true then [Effect.CloseHandle_window_thread_ready_event]
         else []) ++
        [Effect.ShowCursor true] ∧
      (w1.multithreading_enabled = true → w1.window_threadid ≠ w1.main_threadid →
        w'.window_queue = w1.window_queue ++ [⟨0, WM_USER_SELF_TERMINATE, 0, 0⟩]) := by
  refine ⟨_, rfl, ?_⟩
  dsimp only
  have hp := PostThreadMessage_keeps (w1.emit Effect.draw_exit) w1.window_threadid
    WM_USER_SELF_TERMINATE 0 0
  have hw2t : (w1.emit Effect.draw_exit).window_threadid = w1.window_threadid := rfl
  rw [hw2t]
  generalize PostThreadMessage (w1.emit Effect.draw_exit) w1.window_threadid
    WM_USER_SELF_TERMINATE 0 0 = P at hp ⊢
  obtain ⟨hp1, hp2, hp3, hp4⟩ := hp
  by_cases hmt : w1.multithreading_enabled = true
  · have hc2 : (w1.emit Effect.draw_exit).multithreading_enabled = true := hmt
    have hc4 : ((P.emit Effect.WaitForSingleObject_window_thread).emit
        Effect.CloseHandle_ui_pause_event).multithreading_enabled = true := hp1.trans hmt
    rw [if_pos hc2, if_pos hc4, if_pos hmt, if_pos hmt]
    refine ⟨hp2, ?_, ?_⟩
    · simp only [World.emit, hp3, List.append_assoc, List.cons_append, List.nil_append]
    · intro _ hthreads
      exact hp4 rfl hthreads
  · have hc2 : ¬ ((w1.emit Effect.draw_exit).multithreading_enabled = true) := hmt
    have hc4 : ¬ (((w1.emit Effect.draw_exit).emit
        Effect.CloseHandle_ui_pause_event).multithreading_enabled = true) := hmt
    rw [if_neg hc2, if_neg hc4, if_neg hmt, if_neg hmt]
    refine ⟨rfl, ?_, fun h => absurd h hmt⟩
    simp only [World.emit, List.append_assoc, List.cons_append, List.nil_append]

end ExitLemmas

section PassLemmas

theorem process_events_loop_returns_unpaused (exec : Nat → Nat → World → World)
    (input : Int → Int → Int → Int → Bool) ( nodispatch : Bool) (drains : List (List MSG)) :
    ∀ w w' : World, process_events_loop exec input nodispatch drains w = some w' →
      w'.ui_temp_pause ≤ 0 := by
  induction drains with
  | nil =>
    intro w w' h
    unfold process_events_loop at h
    split_ifs at h with hp
    cases h
    exact not_lt.mp hp
  | cons messages rest ih =>
    intro w w' h
    rw [process_events_loop_cons] at h
    generalize process_events_drain exec input nodispatch
      (if 0 < w.ui_temp_pause then w.emit Effect.WaitMessage else w) messages = w2 at h
    by_cases hp : 0 < w2.ui_temp_pause
    · rw [if_pos hp] at h
      exact ih _ _ h
    · rw [if_neg hp] at h
      cases h
      exact not_lt.mp hp

end PassLemmas

section ClickLemmas

theorem window_proc_lbuttondown_double_click (env : proc_env) (time double_click_time : Nat)
    (w : World) (window : win_window_info) (lparam : Nat) :
    (window_proc_lbuttondown env time double_click_time w window lparam).1.trace
      = w.trace ++ [Effect.ui_input_push_mouse_down_event window.m_target
          (GET_X_LPARAM lparam) (GET_Y_LPARAM lparam)] ++
        (if ((GetTickCount time : Int) - (window.m_lastclicktime : Int)) % 2 ^ 32
              < (double_click_time : Int) ∧
            |GET_X_LPARAM lparam - window.m_lastclickx| ≤ 4 ∧
            |GET_Y_LPARAM lparam - window.m_lastclicky| ≤ 4
         then [Effect.ui_input_push_mouse_double_click_event window.m_target
          (GET_X_LPARAM lparam) (GET_Y_LPARAM lparam)] else []) ∧
    (window_proc_lbuttondown env time double_click_time w window lparam).2.m_lastclicktime
      = (if ((GetTickCount time : Int) - (window.m_lastclicktime : Int)) % 2 ^ 32
              < (double_click_time : Int) ∧
            |GET_X_LPARAM lparam - window.m_lastclickx| ≤ 4 ∧
            |GET_Y_LPARAM lparam - window.m_lastclicky| ≤ 4
         then 0 else GetTickCount time) := by
  have hm : (update_minmax_state env window).m_lastclicktime = window.m_lastclicktime ∧
      (update_minmax_state env window).m_lastclickx = window.m_lastclickx ∧
      (update_minmax_state env window).m_lastclicky = window.m_lastclicky ∧
      (update_minmax_state env window).m_target = window.m_target := by
    unfold update_minmax_state
    split_ifs <;> exact ⟨rfl, rfl, rfl, rfl⟩
  obtain ⟨h1, h2, h3, h4⟩ := hm
  unfold window_proc_lbuttondown
  dsimp only
  rw [h1, h2, h3, h4]
  have hiff : (u32 ((GetTickCount time : Int) - (window.m_lastclicktime : Int))
        < double_click_time ∧
      GET_X_LPARAM lparam ≥ window.m_lastclickx - 4 ∧
      GET_X_LPARAM lparam ≤ window.m_lastclickx + 4 ∧
      GET_Y_LPARAM lparam ≥ window.m_lastclicky - 4 ∧
      GET_Y_LPARAM lparam ≤ window.m_lastclicky + 4) ↔
      (((GetTickCount time : Int) - (window.m_lastclicktime : Int)) % 2 ^ 32
          < (double_click_time : Int) ∧
        |GET_X_LPARAM lparam - window.m_lastclickx| ≤ 4 ∧
        |GET_Y_LPARAM lparam - window.m_lastclicky| ≤ 4) := by
    unfold u32
    rw [abs_le, abs_le]
    constructor
    · rintro ⟨a, b, c, d, e⟩
      refine ⟨by omega, ⟨by omega, by omega⟩, ⟨by omega, by omega⟩⟩
    · rintro ⟨a, ⟨b, c⟩, ⟨d, e⟩⟩
      refine ⟨by omega, by omega, by omega, by omega, by omega⟩
  by_cases hc : ((GetTickCount time : Int) - (window.m_lastclicktime : Int)) % 2 ^ 32
          < (double_click_time : Int) ∧
        |GET_X_LPARAM lparam - window.m_lastclickx| ≤ 4 ∧
        |GET_Y_LPARAM lparam - window.m_lastclicky| ≤ 4
  · rw [if_pos (hiff.mpr hc), if_pos hc, if_pos hc]
    exact ⟨by simp [World.emit], rfl⟩
  · rw [if_neg (fun h => hc (hiff.mp h)), if_neg hc, if_neg hc]
    exact ⟨by simp [World.emit], rfl⟩

end ClickLemmas

section TailLemmas

theorem getLast?_erase_of_ne (a : Nat) (xs : List Nat) :
    xs.getLast? ≠ some a → (xs.erase a).getLast? = xs.getLast? := by
  induction xs with
  | nil => intro _; rfl
  | cons b rest ih =>
    intro h
    by_cases hba : b = a
    · subst hba
      rw [List.erase_cons_head]
      cases rest with
      | nil => exact absurd rfl h
      | cons c rest' => rw [List.getLast?_cons_cons]
    · rw [List.erase_cons_tail (by simpa using hba)]
      cases rest with
      | nil => rfl
      | cons c rest' =>
        rw [List.getLast?_cons_cons] at h ⊢
        have hih := ih h
        cases he : (c :: rest').erase a with
        | nil =>
          rw [he] at hih
          have hc : (c :: rest').getLast? = none := hih.symm
          simp at hc
        | cons d rest'' =>
          rw [List.getLast?_cons_cons, ← he]
          exact hih

theorem tail_link_erase_of_ne (a : Nat) (xs : List Nat) (h : xs.getLast? ≠ some a) :
    tail_link (xs.erase a) = tail_link xs := by
  unfold tail_link
  rw [getLast?_erase_of_ne a xs h]

theorem tail_link_erase_last (a : Nat) (xs : List Nat) (hnd : xs.Nodup) :
    tail_link (xs.erase a) ≠ window_link.next a := by
  unfold tail_link
  cases hl : (xs.erase a).getLast? with
  | none => intro e; cases e
  | some b =>
    intro e
    have hba : b = a := by injection e
    have hmem : b ∈ xs.erase a := List.mem_of_getLast?_eq_some hl
    rw [hba] at hmem
    exact (hnd.mem_erase_iff.mp hmem).1 rfl

theorem tail_link_ne_head (xs : List Nat) (h : xs ≠ []) : tail_link xs ≠ window_link.head := by
  unfold tail_link
  cases hl : xs.getLast? with
  | none => exact absurd (List.getLast?_eq_none_iff.mp hl) h
  | some b => intro e; cases e

end TailLemmas

section FullscreenLemmas

theorem set_fullscreen_configure_lifetime (env : fullscreen_env) (hwnd : Nat)
    (fullscreen : Int) :
    (set_fullscreen_configure env hwnd fullscreen).filter Effect.is_renderer_lifetime = [] := by
  unfold set_fullscreen_configure
  split_ifs <;> rfl

theorem set_fullscreen_same (env : fullscreen_env) (w : World) (window : win_window_info)
    (fullscreen : Int) (h : window.m_fullscreen = fullscreen) :
    set_fullscreen env w window fullscreen = fullscreen_result.returned w window := by
  unfold set_fullscreen
  rw [if_pos h]

theorem set_fullscreen_null (env : fullscreen_env) (w : World) (window : win_window_info)
    (fullscreen : Int) (h : window.m_fullscreen ≠ fullscreen) (hr : window.m_renderer = 0) :
    set_fullscreen env w window fullscreen =
      fullscreen_result.null_renderer w { window with m_fullscreen := fullscreen } := by
  unfold set_fullscreen
  rw [if_neg h]
  dsimp only
  rw [if_pos hr]

theorem set_fullscreen_hidden (env : fullscreen_env) (w : World) (window : win_window_info)
    (fullscreen : Int) (h : window.m_fullscreen ≠ fullscreen) (hr : window.m_renderer ≠ 0)
    (hs : ¬ (fullscreen = 0 ∨ window.m_fullscreen_safe ≠ 0)) :
    set_fullscreen env w window fullscreen =
      fullscreen_result.returned
        { w with trace := w.trace ++
            ([Effect.renderer_destroy window.m_renderer, Effect.global_free window.m_renderer,
              Effect.ShowWindow window.m_hwnd false] ++
             set_fullscreen_configure env window.m_hwnd fullscreen ++
             [Effect.adjust_window_position_after_major_change window.m_hwnd,
              Effect.adjust_window_position_after_major_change window.m_hwnd]) }
        { window with m_fullscreen := fullscreen, m_renderer := 0 } := by
  unfold set_fullscreen
  rw [if_neg h]
  dsimp only
  rw [if_neg hr, if_neg hs]
  simp only [World.emit, List.append_assoc, List.cons_append, List.nil_append]

theorem set_fullscreen_shown (env : fullscreen_env) (w : World) (window : win_window_info)
    (fullscreen : Int) (h : window.m_fullscreen ≠ fullscreen) (hr : window.m_renderer ≠ 0)
    (hs : fullscreen = 0 ∨ window.m_fullscreen_safe ≠ 0) :
    set_fullscreen env w window fullscreen =
      if env.renderer_create_failed = true then
        fullscreen_result.exit 1
          { w with trace := w.trace ++
              ([Effect.renderer_destroy window.m_renderer,
                Effect.global_free window.m_renderer,
                Effect.ShowWindow window.m_hwnd false] ++
               set_fullscreen_configure env window.m_hwnd fullscreen ++
               [Effect.adjust_window_position_after_major_change window.m_hwnd] ++
               (if env.video_mode_none = true then []
                else [Effect.ShowWindow window.m_hwnd true]) ++
               [Effect.draw_create window.addr, Effect.renderer_create env.renderer]) }
          { window with m_fullscreen := fullscreen, m_renderer := env.renderer }
      else
        fullscreen_result.returned
          { w with trace := w.trace ++
              ([Effect.renderer_destroy window.m_renderer,
                Effect.global_free window.m_renderer,
                Effect.ShowWindow window.m_hwnd false] ++
               set_fullscreen_configure env window.m_hwnd fullscreen ++
               [Effect.adjust_window_position_after_major_change window.m_hwnd] ++
               (if env.video_mode_none = true then []
                else [Effect.ShowWindow window.m_hwnd true]) ++
               [Effect.draw_create window.addr, Effect.renderer_create env.renderer] ++
               [Effect.adjust_window_position_after_major_change window.m_hwnd]) }
          { window with m_fullscreen := fullscreen, m_renderer := env.renderer } := by
  unfold set_fullscreen
  rw [if_neg h]
  dsimp only
  rw [if_neg hr, if_pos hs]
  cases hv : env.video_mode_none <;> cases hf : env.renderer_create_failed <;>
    simp [World.emit, List.append_assoc]

end FullscreenLemmas

section SafeLemmas

theorem first_on_monitor_nil : first_on_monitor [] := by
  intro pre p post h
  cases pre <;> cases h

theorem first_on_monitor_append (v : List (Nat × Int)) (p : Nat × Int)
    (hv : first_on_monitor v) (hp : p.2 ≠ 0 ↔ ∀ q ∈ v, q.1 ≠ p.1) :
    first_on_monitor (v ++ [p]) := by
  intro pre x post h
  rcases List.eq_nil_or_concat post with hpost | ⟨post', y, hpost⟩
  · subst hpost
    have := List.append_inj' h rfl
    obtain ⟨h1, h2⟩ := this
    have hx : p = x := by simpa using h2
    subst h1 hx
    exact hp
  · subst hpost
    have h' : v ++ [p] = (pre ++ x :: post') ++ [y] := by
      rw [h]; simp
    have := List.append_inj' h' rfl
    exact hv pre x post' this.1

theorem complete_create_view (env : create_env) (w : World) (window : win_window_info) :
    (complete_create env w window).2.1.m_monitor = window.m_monitor ∧
    (complete_create env w window).2.1.m_fullscreen_safe = window.m_fullscreen_safe := by
  unfold complete_create
  dsimp only
  split_ifs <;> exact ⟨rfl, rfl⟩

theorem created_window_flag (cfg : window_create_env) (ws : List win_window_info) :
    (created_window cfg ws).m_monitor = cfg.monitor ∧
    ((created_window cfg ws).m_fullscreen_safe ≠ 0 ↔
      ∀ q ∈ safe_view ws, q.1 ≠ cfg.monitor) := by
  refine ⟨rfl, ?_⟩
  show (if ws.any (fun win => win.m_monitor == cfg.monitor) then FALSE else TRUE) ≠ 0 ↔ _
  unfold safe_view
  by_cases h : ws.any (fun win => win.m_monitor == cfg.monitor) = true
  · rw [if_pos h]
    constructor
    · intro e; exact absurd rfl e
    · intro hall
      exfalso
      obtain ⟨x, hx, hxm⟩ := List.any_eq_true.mp h
      exact hall (x.m_monitor, x.m_fullscreen_safe) (List.mem_map.mpr ⟨x, hx, rfl⟩)
        (by simpa using hxm)
  · rw [if_neg h]
    constructor
    · intro _ q hq
      obtain ⟨x, hx, hxq⟩ := List.mem_map.mp hq
      intro e
      apply h
      exact List.any_eq_true.mpr ⟨x, hx, by rw [← hxq] at e; simpa using e⟩
    · intro _; decide

theorem store_view (l : List win_window_info) (window : win_window_info)
    (h : ∀ x ∈ l, x.addr = window.addr →
      x.m_monitor = window.m_monitor ∧ x.m_fullscreen_safe = window.m_fullscreen_safe) :
    safe_view (l.map (fun old => if old.addr = window.addr then window else old))
        = safe_view l ∧
    (l.map (fun old => if old.addr = window.addr then window else old)).map
        (fun x => x.addr) = l.map (fun x => x.addr) := by
  unfold safe_view
  induction l with
  | nil => exact ⟨rfl, rfl⟩
  | cons x rest ih =>
    obtain ⟨ih1, ih2⟩ := ih (fun y hy => h y (List.mem_cons_of_mem _ hy))
    rw [List.map_cons, List.map_cons, List.map_cons, List.map_cons, List.map_cons, ih1, ih2]
    by_cases hx : x.addr = window.addr
    · obtain ⟨hm, hs⟩ := h x (List.mem_cons_self _ _) hx
      rw [if_pos hx, hm, hs, hx]
      exact ⟨rfl, rfl⟩
    · rw [if_neg hx]
      exact ⟨rfl, rfl⟩

theorem thread_entry_message_view (env : create_env) (input : Int → Int → Int → Int → Bool)
    (w : World) (message : MSG)
    (hnd : (w.win_window_list.map (fun x => x.addr)).Nodup) :
    safe_view (thread_entry_message env input w message).win_window_list
        = safe_view w.win_window_list ∧
    (thread_entry_message env input w message).win_window_list.map (fun x => x.addr)
        = w.win_window_list.map (fun x => x.addr) := by
  by_cases hm : message.message = WM_USER_FINISH_CREATE_WINDOW
  · by_cases hown : message.hwnd = 0 ∨ is_mame_window w.win_window_list message.hwnd = true
    · have hc : filter_input_cases input w message = none := by
        apply filter_input_cases_none
        · rw [hm]; decide
        · rw [hm]; decide
      have h1 : ¬ (message.message = WM_USER_SELF_TERMINATE) := by rw [hm]; decide
      unfold thread_entry_message thread_entry_filter
      simp only [if_pos hown, hc, if_neg h1, if_pos hm]
      cases hwin : w.window message.lParam with
      | none => exact ⟨rfl, rfl⟩
      | some window =>
        have hmem : window ∈ w.win_window_list := by
          unfold World.window at hwin
          exact List.mem_of_find?_eq_some hwin
        have hk := complete_create_keeps env w window
        have hv := complete_create_view env w window
        dsimp only
        rw [if_neg (by decide)]
        unfold World.store
        dsimp only
        generalize complete_create env w window = r at hk hv ⊢
        obtain ⟨hl, ha, _⟩ := hk
        obtain ⟨hvm, hvs⟩ := hv
        rw [hl]
        exact store_view w.win_window_list
          { r.2.1 with m_init_state := if r.2.2 ≠ 0 then -1 else 1 }
          (fun x hx hxa => by
            have hxw : x = window := List.inj_on_of_nodup_map hnd hx hmem (hxa.trans ha)
            subst hxw
            exact ⟨hvm.symm, hvs.symm⟩)
    · unfold thread_entry_message thread_entry_filter
      simp only [if_neg hown, if_true]
      exact ⟨rfl, rfl⟩
  · rw [thread_entry_message_other env input w message hm]
    exact ⟨rfl, rfl⟩

theorem thread_entry_loop_view (env : create_env) (input : Int → Int → Int → Int → Bool)
    (messages : List MSG) :
    ∀ w : World, (w.win_window_list.map (fun x => x.addr)).Nodup →
      safe_view (thread_entry_loop env input messages w).win_window_list
          = safe_view w.win_window_list ∧
      (thread_entry_loop env input messages w).win_window_list.map (fun x => x.addr)
          = w.win_window_list.map (fun x => x.addr) := by
  induction messages with
  | nil => intro w _; exact ⟨rfl, rfl⟩
  | cons m rest ih =>
    intro w hnd
    unfold thread_entry_loop
    split_ifs
    · exact ⟨rfl, rfl⟩
    · obtain ⟨h1, h2⟩ := thread_entry_message_view env input w m hnd
      obtain ⟨h3, h4⟩ := ih (thread_entry_message env input w m) (by rw [h2]; exact hnd)
      exact ⟨h3.trans h1, h4.trans h2⟩

theorem create_poll_view (env : create_env) (exec : Nat → Nat → World → World)
    (hexec : ∀ f p v, (exec f p v).win_window_list = v.win_window_list)
    (input : Int → Int → Int → Int → Bool) (addr : Nat) (polls : List poll_round) :
    ∀ w v : World, (w.win_window_list.map (fun x => x.addr)).Nodup →
      create_poll env exec input addr polls w = poll_result.done v →
      safe_view v.win_window_list = safe_view w.win_window_list ∧
      v.win_window_list.map (fun x => x.addr) = w.win_window_list.map (fun x => x.addr) := by
  induction polls with
  | nil =>
    intro w v _ h
    unfold create_poll at h
    split_ifs at h
    cases h
    exact ⟨rfl, rfl⟩
  | cons r rest ih =>
    intro w v hnd h
    rw [create_poll_cons] at h
    obtain ⟨h1, h2⟩ := thread_entry_loop_view env input r.window_thread w hnd
    by_cases hp : (thread_entry_loop env input r.window_thread w).init_state addr = some 0
    · rw [if_pos hp] at h
      cases hpass : winwindow_process_events exec input 0 true r.time r.drains
          (thread_entry_loop env input r.window_thread w) with
      | none => rw [hpass] at h; cases h
      | some v1 =>
        rw [hpass] at h
        have hreg := process_events_registry exec hexec input 0 true r.time r.drains _ _ hpass
        obtain ⟨h3, h4⟩ := ih v1 v (by rw [hreg, h2]; exact hnd) h
        rw [hreg] at h3 h4
        exact ⟨h3.trans h1, h4.trans h2⟩
    · rw [if_neg hp] at h
      cases h
      exact ⟨h1, h2⟩

end SafeLemmas
section SafeCreateLemmas

theorem create_start_registry_view (cfg : window_create_env) (env : create_env) (w : World)
    (hfresh : ∀ x ∈ w.win_window_list, x.addr ≠ cfg.addr) :
    ∃ window : win_window_info, window.addr = cfg.addr ∧
      window.m_monitor = cfg.monitor ∧
      window.m_fullscreen_safe = (created_window cfg w.win_window_list).m_fullscreen_safe ∧
      (winwindow_video_window_create_start cfg env w).win_window_list
        = w.win_window_list ++ [window] := by
  have hca : (created_window cfg w.win_window_list).addr = cfg.addr := rfl
  by_cases hmt : w.multithreading_enabled = true
  · refine ⟨created_window cfg w.win_window_list, hca, rfl, rfl, ?_⟩
    unfold winwindow_video_window_create_start PostThreadMessage
    simp only [World.emit, hmt, if_true]
    split_ifs <;> rfl
  · rw [create_start_single_eq cfg env w (by simpa using hmt)]
    have hk := complete_create_keeps env
      ((({ w with win_window_list :=
            w.win_window_list ++ [created_window cfg w.win_window_list] }.emit
          (Effect.osd_lock_alloc (created_window cfg w.win_window_list).addr)).emit
          (Effect.target_alloc (created_window cfg w.win_window_list).m_target)).emit
          (Effect.set_starting_view (created_window cfg w.win_window_list).m_target))
      (created_window cfg w.win_window_list)
    have hv := complete_create_view env
      ((({ w with win_window_list :=
            w.win_window_list ++ [created_window cfg w.win_window_list] }.emit
          (Effect.osd_lock_alloc (created_window cfg w.win_window_list).addr)).emit
          (Effect.target_alloc (created_window cfg w.win_window_list).m_target)).emit
          (Effect.set_starting_view (created_window cfg w.win_window_list).m_target))
      (created_window cfg w.win_window_list)
    generalize complete_create env _ (created_window cfg w.win_window_list) = r at hk hv ⊢
    have hra : ({ r.2.1 with m_init_state := if r.2.2 ≠ 0 then -1 else 1 } :
        win_window_info).addr = cfg.addr := hk.2.1.trans hca
    refine ⟨{ r.2.1 with m_init_state := if r.2.2 ≠ 0 then -1 else 1 }, hra, hv.1, hv.2, ?_⟩
    unfold World.store
    dsimp only
    rw [hk.1]
    exact store_append_fresh _ _ _ (hca.trans hra.symm)
      (fun z hz => by rw [hra]; exact hfresh z hz)

theorem create_start_view (cfg : window_create_env) (env : create_env) (w : World)
    (hfresh : ∀ x ∈ w.win_window_list, x.addr ≠ cfg.addr) :
    safe_view (winwindow_video_window_create_start cfg env w).win_window_list
      = safe_view w.win_window_list ++
        [(cfg.monitor, (created_window cfg w.win_window_list).m_fullscreen_safe)] ∧
    (winwindow_video_window_create_start cfg env w).win_window_list.map (fun x => x.addr)
      = w.win_window_list.map (fun x => x.addr) ++ [cfg.addr] := by
  obtain ⟨window, ha, hm, hs, hl⟩ := create_start_registry_view cfg env w hfresh
  rw [hl]
  unfold safe_view
  rw [List.map_append, List.map_append, List.map_singleton, List.map_singleton]
  rw [ha, hm, hs]
  exact ⟨rfl, rfl⟩

theorem create_view (cfg : window_create_env) (env : create_env)
    (exec : Nat → Nat → World → World)
    (hexec : ∀ f p v, (exec f p v).win_window_list = v.win_window_list)
    (input : Int → Int → Int → Int → Bool) (polls : List poll_round) (w w' : World)
    (hnd : (w.win_window_list.map (fun x => x.addr)).Nodup)
    (hfresh : ∀ x ∈ w.win_window_list, x.addr ≠ cfg.addr)
    (h : winwindow_video_window_create cfg env exec input polls w = some (Except.ok w')) :
    safe_view w'.win_window_list
      = safe_view w.win_window_list ++
        [(cfg.monitor, (created_window cfg w.win_window_list).m_fullscreen_safe)] ∧
    w'.win_window_list.map (fun x => x.addr)
      = w.win_window_list.map (fun x => x.addr) ++ [cfg.addr] := by
  obtain ⟨hs1, hs2⟩ := create_start_view cfg env w hfresh
  have hnd1 : ((winwindow_video_window_create_start cfg env w).win_window_list.map
      (fun x => x.addr)).Nodup := by
    rw [hs2]
    refine List.Nodup.append hnd (List.nodup_singleton _) ?_
    intro a ha hb
    rw [List.mem_singleton] at hb
    subst hb
    obtain ⟨x, hx, hxa⟩ := List.mem_map.mp ha
    exact hfresh x hx hxa
  unfold winwindow_video_window_create at h
  dsimp only at h
  have key : ∀ w2 : World,
      (if w.multithreading_enabled = true then
          create_poll env exec input cfg.addr polls
            (winwindow_video_window_create_start cfg env w)
        else poll_result.done (winwindow_video_window_create_start cfg env w))
        = poll_result.done w2 →
      safe_view w2.win_window_list
          = safe_view (winwindow_video_window_create_start cfg env w).win_window_list ∧
      w2.win_window_list.map (fun x => x.addr)
          = (winwindow_video_window_create_start cfg env w).win_window_list.map
              (fun x => x.addr) := by
    intro w2 hw2
    by_cases hmt : w.multithreading_enabled = true
    · rw [if_pos hmt] at hw2
      exact create_poll_view env exec hexec input cfg.addr polls _ w2 hnd1 hw2
    · rw [if_neg hmt] at hw2
      cases hw2
      exact ⟨rfl, rfl⟩
  generalize (if w.multithreading_enabled = true then
          create_poll env exec input cfg.addr polls
            (winwindow_video_window_create_start cfg env w)
        else poll_result.done (winwindow_video_window_create_start cfg env w)) = r at h key
  cases r with
  | done w2 =>
    dsimp only at h
    split_ifs at h
    · cases h
    · cases h
      obtain ⟨k1, k2⟩ := key _ rfl
      exact ⟨k1.trans hs1, k2.trans hs2⟩
  | pending v => cases h
  | blocked => cases h

theorem create_calls_first_on_monitor (exec : Nat → Nat → World → World)
    (hexec : ∀ f p v, (exec f p v).win_window_list = v.win_window_list)
    (input : Int → Int → Int → Int → Bool) (calls : List create_call) :
    ∀ w w' : World, (w.win_window_list.map (fun x => x.addr)).Nodup →
      first_on_monitor (safe_view w.win_window_list) →
      (calls.map (fun c => c.cfg.addr)).Nodup →
      (∀ c ∈ calls, ∀ x ∈ w.win_window_list, x.addr ≠ c.cfg.addr) →
      create_calls exec input calls w = some w' →
      first_on_monitor (safe_view w'.win_window_list) := by
  induction calls with
  | nil =>
    intro w w' _ hinv _ _ h
    cases h
    exact hinv
  | cons c rest ih =>
    intro w w' hnd hinv hcalls hfresh h
    rw [List.map_cons, List.nodup_cons] at hcalls
    rw [create_calls] at h
    cases hc : winwindow_video_window_create c.cfg c.env exec input c.polls w with
    | none => rw [hc] at h; cases h
    | some e =>
      cases e with
      | error msg => rw [hc] at h; cases h
      | ok w1 =>
        rw [hc] at h
        dsimp only at h
        have hf : ∀ x ∈ w.win_window_list, x.addr ≠ c.cfg.addr :=
          hfresh c (List.mem_cons_self _ _)
        obtain ⟨hv1, hv2⟩ := create_view c.cfg c.env exec hexec input c.polls w w1 hnd hf hc
        have hnd1 : (w1.win_window_list.map (fun x => x.addr)).Nodup := by
          rw [hv2]
          refine List.Nodup.append hnd (List.nodup_singleton _) ?_
          intro a ha hb
          rw [List.mem_singleton] at hb
          subst hb
          obtain ⟨x, hx, hxa⟩ := List.mem_map.mp ha
          exact hf x hx hxa
        have hinv1 : first_on_monitor (safe_view w1.win_window_list) := by
          rw [hv1]
          exact first_on_monitor_append _ _ hinv
            (created_window_flag c.cfg w.win_window_list).2
        refine ih w1 w' hnd1 hinv1 hcalls.2 ?_ h
        intro d hd x hx
        have hxa : x.addr ∈ w1.win_window_list.map (fun x => x.addr) :=
          List.mem_map.mpr ⟨x, hx, rfl⟩
        rw [hv2, List.mem_append, List.mem_singleton] at hxa
        rcases hxa with hxa | hxa
        · obtain ⟨y, hy, hya⟩ := List.mem_map.mp hxa
          rw [← hya]
          exact hfresh d (List.mem_cons_of_mem _ hd) y hy
        · rw [hxa]
          intro e
          exact hcalls.1 (List.mem_map.mpr ⟨d, hd, e.symm⟩)

end SafeCreateLemmas

/-! ## Claims -/

/-- C1: starting from depth 0 with the machine running, every finite sequence of
`winwindow_ui_pause_from_main_thread` calls makes exactly the machine calls of
`run_edges`: one `pause()` on the call that starts a maximal run of depth > 0,
one `resume()` on the call that ends it, and none on any other call, whatever
the nesting depth. In particular `n ≥ 1` pauses followed by `n` resumes make
the calls `[pause, resume]`, and true, false, true, false makes
`[pause, resume, pause, resume]`. -/
theorem ui_pause_one_pause_one_resume_per_run (w : World) (calls : List Int) (n : Nat)
    (hdepth : w.ui_temp_pause = 0) (hrun : w.machine_paused = false) (hn : 1 ≤ n) :
    (pause_calls w calls).trace = w.trace ++ run_edges 0 calls ∧
    (pause_calls w (List.replicate n TRUE ++ List.replicate n FALSE)).trace
      = w.trace ++ [Effect.machine_pause, Effect.machine_resume] ∧
    (pause_calls w [TRUE, FALSE, TRUE, FALSE]).trace
      = w.trace ++ [Effect.machine_pause, Effect.machine_resume,
                    Effect.machine_pause, Effect.machine_resume] := by
  have hinv : pause_inv w := ⟨fun _ => hrun, fun h => by omega⟩
  have key := fun cs => pause_calls_trace cs w hinv
  simp only [hdepth] at key
  refine ⟨key calls, ?_, ?_⟩
  · rw [key]
    obtain ⟨k, rfl⟩ : ∃ k, n = k + 1 := ⟨n - 1, by omega⟩
    have h1 : run_edges 0 (List.replicate (k + 1) TRUE ++ List.replicate (k + 1) FALSE)
        = [Effect.machine_pause] ++ run_edges 1 (List.replicate k TRUE ++ List.replicate (k + 1) FALSE) := by
      rw [List.replicate_succ, List.cons_append, run_edges]
      simp [TRUE]
    rw [h1, run_edges_pauses k _ 1 (by norm_num)]
    have h2 : (1 : Int) + k = (k : Int) + 1 := by ring
    rw [h2, run_edges_resumes]
    rfl
  · rw [key]
    simp [run_edges, TRUE, FALSE]

/-- Witness of C1: two nested pauses and their two resumes, from the initial state. -/
theorem ui_pause_one_pause_one_resume_per_run_witness :
    (pause_calls (World.init false) [TRUE, TRUE, FALSE, FALSE]).trace
        = (World.init false).trace ++ run_edges 0 [TRUE, TRUE, FALSE, FALSE] ∧
    (pause_calls (World.init false) (List.replicate 2 TRUE ++ List.replicate 2 FALSE)).trace
      = (World.init false).trace ++ [Effect.machine_pause, Effect.machine_resume] ∧
    (pause_calls (World.init false) [TRUE, FALSE, TRUE, FALSE]).trace
      = (World.init false).trace ++ [Effect.machine_pause, Effect.machine_resume,
                    Effect.machine_pause, Effect.machine_resume] :=
  ui_pause_one_pause_one_resume_per_run (World.init false) [TRUE, TRUE, FALSE, FALSE] 2
    rfl rfl (by decide)

/-- C2: if the machine is already paused when the depth is 0, then over every
balanced nested sequence of `winwindow_ui_pause_from_main_thread` calls (no
resume without an earlier matching pause, depth back at 0 at the end) neither
`machine.pause()` nor `machine.resume()` is called, the machine is still paused
after the final matching resume, and the depth is 0 again. -/
theorem ui_pause_keeps_external_pause (w : World) (calls : List Int)
    (hdepth : w.ui_temp_pause = 0) (hpaused : w.machine_paused = true)
    (hbal : balanced_from 0 calls = true) :
    (pause_calls w calls).trace = w.trace ∧
    (pause_calls w calls).machine_paused = true ∧
    (pause_calls w calls).ui_temp_pause = 0 := by
  have hinv : pause_inv_ext w := ⟨hpaused, fun h => by omega⟩
  obtain ⟨h1, h2⟩ := pause_calls_ext calls w hinv
  exact ⟨h1, h2, pause_calls_balanced_depth calls 0 w (by simp [hdepth]) hbal⟩

/-- Witness of C2: pause, pause, resume, pause, resume, resume on a machine that
was paused beforehand. -/
theorem ui_pause_keeps_external_pause_witness :
    (pause_calls { World.init true with machine_paused := true }
        [TRUE, TRUE, FALSE, TRUE, FALSE, FALSE]).trace
      = ({ World.init true with machine_paused := true } : World).trace ∧
    (pause_calls { World.init true with machine_paused := true }
        [TRUE, TRUE, FALSE, TRUE, FALSE, FALSE]).machine_paused = true ∧
    (pause_calls { World.init true with machine_paused := true }
        [TRUE, TRUE, FALSE, TRUE, FALSE, FALSE]).ui_temp_pause = 0 :=
  ui_pause_keeps_external_pause { World.init true with machine_paused := true }
    [TRUE, TRUE, FALSE, TRUE, FALSE, FALSE] rfl rfl (by decide)


/-- C8: `winwindow_ui_pause_from_window_thread(p)`, for a C `int` `p`, has the effect
of `winwindow_ui_pause_from_main_thread(p)`. In single-thread mode it is that call.
In dual-thread mode it leaves depth, `ui_temp_was_paused`, the pause signal and the
machine alone and posts exactly one `WM_USER_UI_TEMP_PAUSE` message carrying `p` to
the main thread (then waits on the signal when `p` is non-zero); that message is
dispatched by the main loop whatever `nodispatch` is, and its dispatch by
`winwindow_dispatch_message` is `winwindow_ui_pause_from_main_thread(p)`. -/
theorem ui_pause_from_window_thread_same_effect (exec : Nat → Nat → World → World)
    (input : Int → Int → Int → Int → Bool) ( nodispatch : Bool) (w v : World) (p : Int)
    (hlo : -2 ^ 31 ≤ p) (hhi : p < 2 ^ 31) :
    winwindow_ui_pause_from_window_thread w p =
      (if w.multithreading_enabled then
        { w with
          main_queue := w.main_queue ++ [⟨0, WM_USER_UI_TEMP_PAUSE, int_to_WPARAM p, 0⟩]
          trace := w.trace ++
            [Effect.PostThreadMessage w.main_threadid WM_USER_UI_TEMP_PAUSE (int_to_WPARAM p) 0]
            ++ (if p ≠ 0 then [Effect.WaitForSingleObject_ui_pause_event] else []) }
      else winwindow_ui_pause_from_main_thread w p) ∧
    winwindow_dispatch_message exec v ⟨0, WM_USER_UI_TEMP_PAUSE, int_to_WPARAM p, 0⟩
      = winwindow_ui_pause_from_main_thread v p ∧
    process_events_message exec input nodispatch v ⟨0, WM_USER_UI_TEMP_PAUSE, int_to_WPARAM p, 0⟩
      = winwindow_ui_pause_from_main_thread v p := by
  have hd : winwindow_dispatch_message exec v ⟨0, WM_USER_UI_TEMP_PAUSE, int_to_WPARAM p, 0⟩
      = winwindow_ui_pause_from_main_thread v p := by
    unfold winwindow_dispatch_message
    have h1 : ¬ (WM_USER_UI_TEMP_PAUSE = WM_QUIT) := by decide
    simp only [h1, if_false, if_true, to_int32_int_to_WPARAM p hlo hhi]
  refine ⟨?_, hd, ?_⟩
  · unfold winwindow_ui_pause_from_window_thread PostThreadMessage World.emit
    cases hm : w.multithreading_enabled
    · simp
    · by_cases hp : p ≠ 0
      · simp [hp]
      · have hp0 : p = 0 := by simpa using hp
        simp [hp0]
  · unfold process_events_message process_events_filter
    have hc : filter_input_cases input v ⟨0, WM_USER_UI_TEMP_PAUSE, int_to_WPARAM p, 0⟩ = none := by
      unfold filter_input_cases
      simp [WM_USER_UI_TEMP_PAUSE, WM_USER, WM_SYSKEYUP, WM_SYSKEYDOWN, WM_LBUTTONDOWN,
        WM_RBUTTONDOWN, WM_MBUTTONDOWN, WM_XBUTTONDOWN, WM_LBUTTONUP, WM_RBUTTONUP,
        WM_MBUTTONUP, WM_XBUTTONUP]
    simp only [true_or, if_true, hc]
    exact hd

/-- Witness of C8: a pause request (`TRUE`) in dual-thread mode. -/
theorem ui_pause_from_window_thread_same_effect_witness :
    winwindow_ui_pause_from_window_thread (World.init true) TRUE =
      (if (World.init true).multithreading_enabled then
        { World.init true with
          main_queue := (World.init true).main_queue
            ++ [⟨0, WM_USER_UI_TEMP_PAUSE, int_to_WPARAM TRUE, 0⟩]
          trace := (World.init true).trace ++
            [Effect.PostThreadMessage (World.init true).main_threadid WM_USER_UI_TEMP_PAUSE
              (int_to_WPARAM TRUE) 0]
            ++ (if TRUE ≠ 0 then [Effect.WaitForSingleObject_ui_pause_event] else []) }
      else winwindow_ui_pause_from_main_thread (World.init true) TRUE) ∧
    winwindow_dispatch_message (fun _ _ u => u) (World.init true)
        ⟨0, WM_USER_UI_TEMP_PAUSE, int_to_WPARAM TRUE, 0⟩
      = winwindow_ui_pause_from_main_thread (World.init true) TRUE ∧
    process_events_message (fun _ _ u => u) (fun _ _ _ _ => false) true (World.init true)
        ⟨0, WM_USER_UI_TEMP_PAUSE, int_to_WPARAM TRUE, 0⟩
      = winwindow_ui_pause_from_main_thread (World.init true) TRUE :=
  ui_pause_from_window_thread_same_effect (fun _ _ u => u) (fun _ _ _ _ => false) true
    (World.init true) (World.init true) TRUE (by decide) (by decide)

/-- C9: for every function pointer `fn` (interpreted by `exec`) and argument `arg`,
dispatching a `WM_USER_EXEC_FUNC` message with `winwindow_dispatch_message` is exactly
the one call `fn(arg)`, with no `TranslateMessage`/`DispatchMessage`;
`winwindow_ui_exec_on_main_thread(fn, arg)` is exactly that one call in single-thread
mode, and in dual-thread mode it only posts one `WM_USER_EXEC_FUNC` message carrying
`fn` and `arg` to the main thread, without calling `fn`. -/
theorem exec_func_called_exactly_once (exec : Nat → Nat → World → World) (w : World)
    (hwnd fn arg : Nat) :
    winwindow_dispatch_message exec w ⟨hwnd, WM_USER_EXEC_FUNC, fn, arg⟩
      = exec fn arg { w with trace := w.trace ++ [Effect.call_func fn arg] } ∧
    winwindow_ui_exec_on_main_thread exec w fn arg =
      (if w.multithreading_enabled then
        { w with
          main_queue := w.main_queue ++ [⟨0, WM_USER_EXEC_FUNC, fn, arg⟩]
          trace := w.trace ++ [Effect.PostThreadMessage w.main_threadid WM_USER_EXEC_FUNC fn arg] }
      else exec fn arg { w with trace := w.trace ++ [Effect.call_func fn arg] }) := by
  constructor
  · unfold winwindow_dispatch_message World.emit
    have h1 : ¬ (WM_USER_EXEC_FUNC = WM_QUIT) := by decide
    have h2 : ¬ (WM_USER_EXEC_FUNC = WM_USER_UI_TEMP_PAUSE) := by decide
    simp only [h1, h2, if_false, if_true]
  · unfold winwindow_ui_exec_on_main_thread PostThreadMessage World.emit
    cases hm : w.multithreading_enabled <;> simp

/-- Counterexample to C10 as stated: a `WM_SYSKEYDOWN` addressed to a window that is
not in the registry (handle 99, empty registry) is not suppressed: with `nodispatch`
false the filter of `winwindow_process_events` keeps `dispatch` set and the message
reaches `TranslateMessage`/`DispatchMessage`, and the filter of `thread_entry`
forwards it as well. -/
theorem syskey_for_foreign_window_is_forwarded :
    (process_events_filter (fun _ _ _ _ => false) false (World.init true)
        ⟨99, WM_SYSKEYDOWN, 0, 0⟩).2 = true ∧
    (process_events_message (fun _ _ u => u) (fun _ _ _ _ => false) false (World.init true)
        ⟨99, WM_SYSKEYDOWN, 0, 0⟩).trace
      = [Effect.TranslateMessage ⟨99, WM_SYSKEYDOWN, 0, 0⟩,
         Effect.DispatchMessage ⟨99, WM_SYSKEYDOWN, 0, 0⟩] ∧
    (thread_entry_message ⟨false, false, 0, false, 0, false, 0⟩ (fun _ _ _ _ => false)
        (World.init true) ⟨99, WM_SYSKEYDOWN, 0, 0⟩).trace
      = [Effect.TranslateMessage ⟨99, WM_SYSKEYDOWN, 0, 0⟩,
         Effect.DispatchMessage ⟨99, WM_SYSKEYDOWN, 0, 0⟩] := by
  refine ⟨by decide, by decide, by decide⟩

/-- C10 (amended): a system-key event (`WM_SYSKEYDOWN` or `WM_SYSKEYUP`) addressed to
the global queue (null handle) or to a registered window is suppressed by both
filters whatever `nodispatch` is: no input call, no dispatch, the world is unchanged.
A system-key event for a window outside the registry is not examined: `thread_entry`
forwards it, and `winwindow_process_events` forwards it unless `nodispatch` is set. -/
theorem syskey_suppressed_for_own_targets (exec : Nat → Nat → World → World)
    (env : create_env) (input : Int → Int → Int → Int → Bool) ( nodispatch : Bool)
    (w : World) (message : MSG)
    (hkey : message.message = WM_SYSKEYDOWN ∨ message.message = WM_SYSKEYUP) :
    process_events_filter input nodispatch w message =
      (w, if message.hwnd = 0 ∨ is_mame_window w.win_window_list message.hwnd = true
          then false else !nodispatch) ∧
    process_events_message exec input nodispatch w message =
      (if (message.hwnd = 0 ∨ is_mame_window w.win_window_list message.hwnd = true)
            ∨ nodispatch = true
       then w else winwindow_dispatch_message exec w message) ∧
    thread_entry_filter env input w message =
      (w, if message.hwnd = 0 ∨ is_mame_window w.win_window_list message.hwnd = true
          then false else true) ∧
    thread_entry_message env input w message =
      (if message.hwnd = 0 ∨ is_mame_window w.win_window_list message.hwnd = true
       then w
       else (w.emit (Effect.TranslateMessage message)).emit (Effect.DispatchMessage message)) := by
  have hc := filter_input_cases_syskey input w message hkey
  by_cases hown : message.hwnd = 0 ∨ is_mame_window w.win_window_list message.hwnd = true
  · have h1 : process_events_filter input nodispatch w message = (w, false) := by
      unfold process_events_filter
      rw [if_pos hown, hc]
    have h2 : thread_entry_filter env input w message = (w, false) := by
      unfold thread_entry_filter
      rw [if_pos hown, hc]
    refine ⟨by rw [h1, if_pos hown], ?_, by rw [h2, if_pos hown], ?_⟩
    · unfold process_events_message
      rw [h1, if_pos (Or.inl hown)]; rfl
    · unfold thread_entry_message
      rw [h2, if_pos hown]; rfl
  · have h1 : process_events_filter input nodispatch w message = (w, !nodispatch) := by
      unfold process_events_filter
      rw [if_neg hown]
    have h2 : thread_entry_filter env input w message = (w, true) := by
      unfold thread_entry_filter
      rw [if_neg hown]
    refine ⟨by rw [h1, if_neg hown], ?_, by rw [h2, if_neg hown], ?_⟩
    · unfold process_events_message
      rw [h1]
      cases nodispatch <;> simp [hown]
    · unfold thread_entry_message
      rw [h2, if_neg hown]; rfl

/-- Witness of C10 (amended): `WM_SYSKEYUP` on the global queue, `nodispatch` false. -/
theorem syskey_suppressed_for_own_targets_witness :
    process_events_filter (fun _ _ _ _ => false) false (World.init true) ⟨0, WM_SYSKEYUP, 0, 0⟩
      = (World.init true, false) ∧
    process_events_message (fun _ _ u => u) (fun _ _ _ _ => false) false (World.init true)
      ⟨0, WM_SYSKEYUP, 0, 0⟩ = World.init true ∧
    thread_entry_filter ⟨false, false, 0, false, 0, false, 0⟩ (fun _ _ _ _ => false)
      (World.init true) ⟨0, WM_SYSKEYUP, 0, 0⟩ = (World.init true, false) ∧
    thread_entry_message ⟨false, false, 0, false, 0, false, 0⟩ (fun _ _ _ _ => false)
      (World.init true) ⟨0, WM_SYSKEYUP, 0, 0⟩ = World.init true :=
  syskey_suppressed_for_own_targets (fun _ _ u => u) ⟨false, false, 0, false, 0, false, 0⟩
    (fun _ _ _ _ => false) false (World.init true) ⟨0, WM_SYSKEYUP, 0, 0⟩ (Or.inr rfl)

/-- C7: for every window state, `draw_video_contents` waits while the window's render
lock is held (blocking acquire) and otherwise makes exactly these calls, in order:
one acquire of the lock, then, only when the window has a live, non-iconic surface,
either one `FillRect` of the client area (no primitive list, no renderer call) or one
`renderer->draw` with the given update flag (no fill), then one release of the lock;
the lock is available again when it returns. -/
theorem draw_video_contents_lock_discipline ( iconic : Bool) (w : World)
    (window : win_window_info) (dc : Nat) (update : Int) :
    draw_video_contents iconic w window dc update =
      if window.m_render_lock.holder = none then
        some ({ w with trace := w.trace
                  ++ [Effect.osd_lock_acquire window.addr w.window_threadid]
                  ++ (if window.m_hwnd ≠ 0 ∧ iconic = false then
                        (if window.m_primlist = 0 then [Effect.FillRect dc]
                         else [Effect.renderer_draw window.m_renderer dc update
                                 window.m_primlist])
                      else [])
                  ++ [Effect.osd_lock_release window.addr w.window_threadid] },
              { window with m_render_lock := ⟨none⟩ })
      else none := by
  by_cases hfree : window.m_render_lock.holder = none
  · rw [if_pos hfree]
    exact draw_video_contents_free iconic w window dc update hfree
  · rw [if_neg hfree]
    exact draw_video_contents_held iconic w window dc update hfree

/-- Counterexample to C3 as stated: on a window without a renderer (`m_renderer` null,
surface and target live) a throttled `update()` takes no lock at all, blocking or
not: it returns with the trace unchanged. -/
theorem update_without_renderer_takes_no_lock :
    win_window_info.update { sample_update_env with throttled := true } (World.init true)
        { sample_window with m_renderer := 0 }
      = some (World.init true, { sample_window with m_renderer := 0 }) := by
  decide

/-- C3 (amended): on a window with a live surface, target and renderer, `update()`,
after the calls of its target check (`l`, none of them a lock or frame call), takes the
blocking acquire if and only if the simulation is throttled or
`(now - last_update_time) mod 2^32 > 250`, and waits there while the lock is held;
in every other case it uses try-acquire and never waits, and when the try fails the
frame is skipped entirely: the only call added is the failed try, so `get_primitives`
is not called, no `WM_USER_REDRAW` is posted or sent and `last_update_time` is
unchanged. On any other window `update()` takes no lock and draws nothing. -/
theorem update_lock_mode (env : update_env) (w : World) (window : win_window_info) :
    ∃ l : List Effect, l.all (fun e => !e.is_frame && !e.is_lock) = true ∧
      (update_target_changed env w window).1 = { w with trace := w.trace ++ l } ∧
      same_surface window (update_target_changed env w window).2 ∧
      if window.m_hwnd ≠ 0 ∧ window.m_target ≠ 0 ∧ window.m_renderer ≠ 0 then
        if env.throttled = true ∨
            250 < u32 ((env.time_check : Int) - (w.last_update_time : Int)) then
          if window.m_render_lock.holder = none then
            ∃ w' win' rest, window.update env w = some (w', win') ∧
              w'.trace = w.trace ++ l
                ++ Effect.osd_lock_acquire window.addr w.main_threadid :: rest
          else window.update env w = none
        else
          if window.m_render_lock.holder = none then
            ∃ w' win' rest, window.update env w = some (w', win') ∧
              w'.trace = w.trace ++ l
                ++ Effect.osd_lock_try window.addr w.main_threadid true :: rest
          else
            window.update env w =
              some ({ w with trace := w.trace ++ l
                        ++ [Effect.osd_lock_try window.addr w.main_threadid false] },
                    (update_target_changed env w window).2)
      else
        window.update env w =
          some ({ w with trace := w.trace ++ l }, (update_target_changed env w window).2) := by
  obtain ⟨hs, l, hw, hl⟩ := update_target_changed_same env w window
  refine ⟨l, hl, hw, hs, ?_⟩
  unfold win_window_info.update
  dsimp only
  generalize update_target_changed env w window = r at hs hw
  obtain ⟨w1, win1⟩ := r
  obtain ⟨ha, hh, ht, hr, hlk, _, _⟩ := hs
  simp only at ha hh ht hr hlk hw
  have htime : w1.last_update_time = w.last_update_time := by rw [hw]
  have hmain : w1.main_threadid = w.main_threadid := by rw [hw]
  have htrace : w1.trace = w.trace ++ l := by rw [hw]
  by_cases hlive : window.m_hwnd ≠ 0 ∧ window.m_target ≠ 0 ∧ window.m_renderer ≠ 0
  · have hlive1 : win1.m_hwnd ≠ 0 ∧ win1.m_target ≠ 0 ∧ win1.m_renderer ≠ 0 := by
      rw [hh, ht, hr]; exact hlive
    rw [if_pos hlive]
    by_cases hblock : env.throttled = true ∨
        250 < u32 ((env.time_check : Int) - (w.last_update_time : Int))
    · have hblock1 : env.throttled = true ∨
          250 < u32 ((env.time_check : Int) - (w1.last_update_time : Int)) := by
        rw [htime]; exact hblock
      rw [if_pos hblock]
      by_cases hfree : window.m_render_lock.holder = none
      · rw [if_pos hfree,
          update_draw_block_free env w1 win1 hlive1 hblock1 (by rw [hlk]; exact hfree)]
        obtain ⟨w', win', rest, he, htr, _⟩ := update_got_lock_trace env
          (w1.emit (Effect.osd_lock_acquire win1.addr w1.main_threadid))
          { win1 with m_render_lock := ⟨some w1.main_threadid⟩ }
        refine ⟨w', win', rest, he, ?_⟩
        rw [htr, ha, hmain]
        simp [World.emit, htrace]
      · rw [if_neg hfree]
        exact update_draw_block_held env w1 win1 hlive1 hblock1 (by rw [hlk]; exact hfree)
    · have hblock1 : ¬ (env.throttled = true ∨
          250 < u32 ((env.time_check : Int) - (w1.last_update_time : Int))) := by
        rw [htime]; exact hblock
      rw [if_neg hblock]
      by_cases hfree : window.m_render_lock.holder = none
      · rw [if_pos hfree,
          update_draw_try_free env w1 win1 hlive1 hblock1 (by rw [hlk]; exact hfree)]
        obtain ⟨w', win', rest, he, htr, _⟩ := update_got_lock_trace env
          (w1.emit (Effect.osd_lock_try win1.addr w1.main_threadid true))
          { win1 with m_render_lock := ⟨some w1.main_threadid⟩ }
        refine ⟨w', win', rest, he, ?_⟩
        rw [htr, ha, hmain]
        simp [World.emit, htrace]
      · rw [if_neg hfree,
          update_draw_try_held env w1 win1 hlive1 hblock1 (by rw [hlk]; exact hfree), ha, hmain]
        subst hw
        rfl
  · rw [if_neg hlive, update_draw_not_live env w1 win1 (by rw [hh, ht, hr]; exact hlive), hw]

/-- C6: whenever `update()` runs on a window with a live surface, target and renderer
and the render lock is available, it returns, and after the calls of its target check
(`l`, none of them a lock or frame call) it makes exactly these calls: the acquire
(blocking or try, successful), the release, one `get_primitives`, and one
`WM_USER_REDRAW` carrying that primitive list to the window, by `PostMessage` in
dual-thread mode and by `SendMessage` in single-thread mode, where the window
procedure draws the frame before `update()` returns; `last_update_time` is the time
read after the fetch. On every path on which `update()` returns, the lock is in the
state it had on entry, so `update()` never returns holding it. -/
theorem update_draws_when_lock_obtained (env : update_env) (w : World)
    (window : win_window_info)
    (hlive : window.m_hwnd ≠ 0 ∧ window.m_target ≠ 0 ∧ window.m_renderer ≠ 0)
    (hfree : window.m_render_lock.holder = none) :
    (∃ l : List Effect, l.all (fun e => !e.is_frame && !e.is_lock) = true ∧
      window.update env w = some
        (if w.multithreading_enabled = true then
          (PostMessage
            { w with
              last_update_time := env.time_post
              trace := w.trace ++ l ++
                [if env.throttled = true ∨
                    250 < u32 ((env.time_check : Int) - (w.last_update_time : Int))
                 then Effect.osd_lock_acquire window.addr w.main_threadid
                 else Effect.osd_lock_try window.addr w.main_threadid true,
                 Effect.osd_lock_release window.addr w.main_threadid,
                 Effect.get_primitives window.m_renderer] }
            window.m_hwnd WM_USER_REDRAW 0 env.primlist,
           { (update_target_changed env w window).2 with m_render_lock := ⟨none⟩ })
        else
          ({ w with
              last_update_time := env.time_post
              trace := w.trace ++ l ++
                [if env.throttled = true ∨
                    250 < u32 ((env.time_check : Int) - (w.last_update_time : Int))
                 then Effect.osd_lock_acquire window.addr w.main_threadid
                 else Effect.osd_lock_try window.addr w.main_threadid true,
                 Effect.osd_lock_release window.addr w.main_threadid,
                 Effect.get_primitives window.m_renderer,
                 Effect.SendMessage window.m_hwnd WM_USER_REDRAW 0 env.primlist,
                 Effect.GetDC window.m_hwnd,
                 Effect.osd_lock_acquire window.addr w.window_threadid]
                ++ (if env.redraw.iconic = false then
                      (if env.primlist = 0 then [Effect.FillRect env.redraw.dc]
                       else [Effect.renderer_draw window.m_renderer env.redraw.dc FALSE
                               env.primlist])
                    else [])
                ++ [Effect.osd_lock_release window.addr w.window_threadid,
                    Effect.ReleaseDC window.m_hwnd env.redraw.dc] },
           { update_minmax_state env.redraw
               { (update_target_changed env w window).2 with m_render_lock := ⟨none⟩ } with
               m_primlist := env.primlist, m_render_lock := ⟨none⟩ }))) ∧
    (∀ window2 : win_window_info,
      match window2.update env w with
      | some res => res.2.m_render_lock = window2.m_render_lock
      | none => True) := by
  constructor
  · obtain ⟨hs, l, hw, hl⟩ := update_target_changed_same env w window
    refine ⟨l, hl, ?_⟩
    unfold win_window_info.update
    dsimp only
    generalize update_target_changed env w window = r at hs hw
    obtain ⟨w1, win1⟩ := r
    obtain ⟨ha, hh, ht, hr, hlk, _, _⟩ := hs
    simp only at ha hh ht hr hlk hw
    have htime : w1.last_update_time = w.last_update_time := by rw [hw]
    have hmt : w1.multithreading_enabled = w.multithreading_enabled := by rw [hw]
    have hlive1 : win1.m_hwnd ≠ 0 ∧ win1.m_target ≠ 0 ∧ win1.m_renderer ≠ 0 := by
      rw [hh, ht, hr]; exact hlive
    have hfree1 : win1.m_render_lock.holder = none := by rw [hlk]; exact hfree
    by_cases hblock : env.throttled = true ∨
        250 < u32 ((env.time_check : Int) - (w.last_update_time : Int))
    · have hblock1 : env.throttled = true ∨
          250 < u32 ((env.time_check : Int) - (w1.last_update_time : Int)) := by
        rw [htime]; exact hblock
      rw [update_draw_block_free env w1 win1 hlive1 hblock1 hfree1, if_pos hblock]
      cases hm : w.multithreading_enabled
      · rw [update_got_lock_single env _ _ (by simp [World.emit, hmt, hm])]
        subst hw
        simp [World.emit, ha, hh, hr, hlive.1, hm]
      · rw [update_got_lock_dual env _ _ (by simp [World.emit, hmt, hm])]
        subst hw
        simp [World.emit, ha, hh, hr, hm]
    · have hblock1 : ¬ (env.throttled = true ∨
          250 < u32 ((env.time_check : Int) - (w1.last_update_time : Int))) := by
        rw [htime]; exact hblock
      rw [update_draw_try_free env w1 win1 hlive1 hblock1 hfree1, if_neg hblock]
      cases hm : w.multithreading_enabled
      · rw [update_got_lock_single env _ _ (by simp [World.emit, hmt, hm])]
        subst hw
        simp [World.emit, ha, hh, hr, hlive.1, hm]
      · rw [update_got_lock_dual env _ _ (by simp [World.emit, hmt, hm])]
        subst hw
        simp [World.emit, ha, hh, hr, hm]
  · intro window2
    cases hres : window2.update env w with
    | none => trivial
    | some res => exact update_lock_unchanged env w window2 res hres

/-- Witness of C6: one `update()` of the sample window in single-thread mode, lock
available, not throttled, 100 ms after the last update: the frame is fetched, sent
and drawn by the renderer, and the lock is available afterwards. -/
theorem update_draws_when_lock_obtained_witness :
    (sample_window.m_hwnd ≠ 0 ∧ sample_window.m_target ≠ 0 ∧ sample_window.m_renderer ≠ 0) ∧
    sample_window.m_render_lock.holder = none ∧
    ∃ res, sample_window.update sample_update_env (World.init false) = some res ∧
      res.1.last_update_time = 101 ∧
      res.1.trace =
        [Effect.osd_lock_try 16 1 true, Effect.osd_lock_release 16 1,
         Effect.get_primitives 9, Effect.SendMessage 7 WM_USER_REDRAW 0 11,
         Effect.GetDC 7, Effect.osd_lock_acquire 16 1,
         Effect.renderer_draw 9 5 FALSE 11,
         Effect.osd_lock_release 16 1, Effect.ReleaseDC 7 5] ∧
      res.2.m_render_lock = ⟨none⟩ ∧ res.2.m_primlist = 11 := by
  refine ⟨by decide, by decide, ?_⟩
  obtain ⟨⟨l, _, h⟩, _⟩ := update_draws_when_lock_obtained sample_update_env (World.init false)
    sample_window (by decide) (by decide)
  refine ⟨_, h, ?_⟩
  have hd : sample_window.update sample_update_env (World.init false) = some
      ({ World.init false with
          last_update_time := 101
          trace := [Effect.osd_lock_try 16 1 true, Effect.osd_lock_release 16 1,
            Effect.get_primitives 9, Effect.SendMessage 7 WM_USER_REDRAW 0 11,
            Effect.GetDC 7, Effect.osd_lock_acquire 16 1,
            Effect.renderer_draw 9 5 FALSE 11,
            Effect.osd_lock_release 16 1, Effect.ReleaseDC 7 5] },
       { sample_window with m_primlist := 11 }) := by decide
  rw [hd] at h
  rw [← Option.some.inj h]
  exact ⟨rfl, rfl, rfl, rfl⟩

/-- C4: a window is constructed with `m_init_state` 0 (pending) and is still pending
when `winwindow_video_window_create` reaches the handshake. In single-thread mode the
in-place call assigns -1 if `complete_create` reports failure and 1 otherwise. In
dual-thread mode the window stays pending while one `WM_USER_FINISH_CREATE_WINDOW`
carrying its address is queued for the window thread; whatever the window thread's
loop handles before it, the loop assigns -1 or 1 in the same way when it handles that
message, and the value stays what it is over every later message of the loop that is
not a new creation request. No other embedded operation (the pump loop on any other
message, the pause counter, `update()`, `draw_video_contents`) writes `m_init_state`
or the registry. -/
theorem init_state_written_once_by_handshake (cfg : window_create_env) (env : create_env)
    (input : Int → Int → Int → Int → Bool) (w : World) (before after : List MSG)
    (hfresh : ∀ x ∈ w.win_window_list, x.addr ≠ cfg.addr)
    (hthreads : w.multithreading_enabled = true → w.window_threadid ≠ w.main_threadid)
    (hbefore : ∀ m ∈ before,
      m.message ≠ WM_USER_FINISH_CREATE_WINDOW ∧ m.message ≠ WM_QUIT)
    (hafter : ∀ m ∈ after, m.message ≠ WM_USER_FINISH_CREATE_WINDOW) :
    (win_window_info.new cfg.addr).m_init_state = 0 ∧
    (created_window cfg w.win_window_list).m_init_state = 0 ∧
    (if w.multithreading_enabled = true then
      (winwindow_video_window_create_start cfg env w).init_state cfg.addr = some 0 ∧
      (winwindow_video_window_create_start cfg env w).window_queue
        = w.window_queue ++ [⟨0, WM_USER_FINISH_CREATE_WINDOW, 0, cfg.addr⟩] ∧
      (thread_entry_loop env input before
          (winwindow_video_window_create_start cfg env w)).init_state cfg.addr = some 0 ∧
      (thread_entry_loop env input
          (before ++ ⟨0, WM_USER_FINISH_CREATE_WINDOW, 0, cfg.addr⟩ :: after)
          (winwindow_video_window_create_start cfg env w)).init_state cfg.addr
        = some (if (complete_create env w (created_window cfg w.win_window_list)).2.2 ≠ 0
                then -1 else 1)
     else
      (winwindow_video_window_create_start cfg env w).init_state cfg.addr
        = some (if (complete_create env w (created_window cfg w.win_window_list)).2.2 ≠ 0
                then -1 else 1)) ∧
    (∀ (v : World) (m : MSG), m.message ≠ WM_USER_FINISH_CREATE_WINDOW →
      (thread_entry_message env input v m).win_window_list = v.win_window_list) ∧
    (∀ (v : World) (p : Int),
      (winwindow_ui_pause_from_main_thread v p).win_window_list = v.win_window_list) ∧
    (∀ (uenv : update_env) (v : World) (window : win_window_info)
        (res : World × win_window_info), window.update uenv v = some res →
      res.2.m_init_state = window.m_init_state ∧ res.1.win_window_list = v.win_window_list) ∧
    (∀ ( iconic : Bool) (v : World) (window : win_window_info) (dc : Nat) (update : Int)
        (res : World × win_window_info),
      draw_video_contents iconic v window dc update = some res →
      res.2.m_init_state = window.m_init_state ∧ res.1.win_window_list = v.win_window_list) := by
  refine ⟨rfl, rfl, ?_, fun v m hm => thread_entry_message_other env input v m hm,
    pause_from_main_thread_registry, update_init_state, draw_video_contents_init_state⟩
  have hca : (created_window cfg w.win_window_list).addr = cfg.addr := rfl
  have hfind := find_append_fresh w.win_window_list (created_window cfg w.win_window_list)
    (by rw [hca]; exact hfresh)
  by_cases hmt : w.multithreading_enabled = true
  · rw [if_pos hmt]
    have hW := create_start_dual cfg env w hmt (hthreads hmt)
    have hWl : (winwindow_video_window_create_start cfg env w).win_window_list
        = w.win_window_list ++ [created_window cfg w.win_window_list] := by rw [hW]
    generalize hv : thread_entry_loop env input before
      (winwindow_video_window_create_start cfg env w) = v
    have hvl : v.win_window_list
        = w.win_window_list ++ [created_window cfg w.win_window_list] := by
      rw [← hv, thread_entry_loop_other env input before (fun m hm => (hbefore m hm).1), hWl]
    have hwin : v.window (created_window cfg w.win_window_list).addr
        = some (created_window cfg w.win_window_list) := by
      unfold World.window
      rw [hvl]; exact hfind
    refine ⟨?_, by rw [hW], ?_, ?_⟩
    · unfold World.init_state World.window
      rw [hWl, ← hca, hfind]
      rfl
    · unfold World.init_state
      rw [← hca, hwin]
      rfl
    · have hq : ¬ (WM_USER_FINISH_CREATE_WINDOW = WM_QUIT) := by decide
      rw [thread_entry_loop_append env input before _ (fun m hm => (hbefore m hm).2), hv]
      unfold thread_entry_loop
      rw [if_neg hq, World.init_state, World.window,
        thread_entry_loop_other env input after hafter]
      have hstep := thread_entry_message_finish env input v
        (created_window cfg w.win_window_list) hwin
      rw [hca] at hstep
      rw [hstep]
      have h := store_init_state (complete_create env v (created_window cfg w.win_window_list)).1
        { (complete_create env v (created_window cfg w.win_window_list)).2.1 with
            m_init_state :=
              if (complete_create env v (created_window cfg w.win_window_list)).2.2 ≠ 0
              then -1 else 1 } cfg.addr
      unfold World.init_state World.window at h
      rw [h]
      simp only [(complete_create_keeps env _ _).2.1, hca, if_true]
      rw [(complete_create_keeps env _ _).1, hvl]
      rw [hca] at hfind
      rw [hfind, complete_create_result env v w]
      rfl
  · rw [if_neg hmt]
    exact create_start_single cfg env w hfresh (by simpa using hmt)

/-- Witness of C4: the first window created in dual-thread mode; the window thread
handles a stray message, the creation request and then a redraw message, and the
window is ready. -/
theorem init_state_written_once_by_handshake_witness :
    (winwindow_video_window_create_start sample_create_config sample_create_env
        (World.init true)).init_state 16 = some 0 ∧
    (thread_entry_loop sample_create_env (fun _ _ _ _ => false)
        [⟨0, WM_SYSKEYUP, 0, 0⟩, ⟨0, WM_USER_FINISH_CREATE_WINDOW, 0, 16⟩,
         ⟨7, WM_USER_REDRAW, 0, 11⟩]
        (winwindow_video_window_create_start sample_create_config sample_create_env
          (World.init true))).init_state 16 = some 1 := by
  have h := (init_state_written_once_by_handshake sample_create_config sample_create_env
    (fun _ _ _ _ => false) (World.init true) [⟨0, WM_SYSKEYUP, 0, 0⟩]
    [⟨7, WM_USER_REDRAW, 0, 11⟩]
    (by intro x hx; cases hx) (by intro _; decide) (by decide) (by decide)).2.2.1
  rw [if_pos (by decide)] at h
  exact ⟨h.1, h.2.2.2.trans (by decide)⟩

/-- Counterexample to C5 as stated: two `update()` requests 9 ms apart, not throttled.
In dual-thread mode the second request runs while the window thread is drawing the
first frame, its try-acquire fails and the frame is skipped: the renderer draws once.
In single-thread mode the same two requests make the renderer draw twice. -/
theorem dual_thread_skips_a_frame :
    (frame_run sample_create_env (fun _ _ _ _ => false) sample_proc_env
        [frame_action.update sample_update_env, frame_action.redraw_begin,
         frame_action.update { sample_update_env with
           time_check := 110, time_post := 111, primlist := 12 },
         frame_action.redraw_end]
        ⟨World.init true, sample_window, false⟩).map
      (fun s => (draws s.world.trace, s.world.window_queue, s.drawing))
      = some ([Effect.renderer_draw 9 5 FALSE 11], [], false) ∧
    (update_run
        [sample_update_env,
         { sample_update_env with time_check := 110, time_post := 111, primlist := 12 }]
        ((World.init true).single_thread, sample_window)).map
      (fun r => draws r.1.trace)
      = some [Effect.renderer_draw 9 5 FALSE 11, Effect.renderer_draw 9 5 FALSE 12] := by
  constructor <;> decide

/-- C5 (amended): take any schedule of the dual-thread system that starts with an
idle window thread, an empty queue and a free render lock, and ends with the window
thread idle and its queue drained. The renderer `draw` invocations it produced (count,
order, update flag `FALSE`, primitive list) are those of one redraw per `update()`
request that ran while the window thread was not inside `draw_video_contents`, and
single-thread mode produces exactly this sequence for those requests, given the same
outside results of the window procedure. Requests that run while the window thread
draws are skipped in dual-thread mode, so the two modes agree on a whole request
sequence when no request is skipped. -/
theorem dual_thread_draws_updates_outside_draw (cenv : create_env)
    (input : Int → Int → Int → Int → Bool) (penv : proc_env) (sch : List frame_action)
    (w : World) (window : win_window_info) (s' : frame_system)
    (hmt : w.multithreading_enabled = true) (hthreads : w.window_threadid ≠ w.main_threadid)
    (hqueue : w.window_queue = []) (hfree : window.m_render_lock.holder = none)
    (henv : ∀ e ∈ updates_outside_draw sch false, e.redraw = penv)
    (hrun : frame_run cenv input penv sch ⟨w, window, false⟩ = some s')
    (hidle : s'.drawing = false) (hdrained : s'.world.window_queue = []) :
    draws s'.world.trace
      = draws w.trace ++ requested_draws penv window (updates_outside_draw sch false) ∧
    ∃ r, update_run (updates_outside_draw sch false) (w.single_thread, window) = some r ∧
      draws r.1.trace = draws s'.world.trace := by
  have hinv : frame_inv ⟨w, window, false⟩ := by
    refine ⟨hmt, hthreads, hfree, ?_⟩
    intro m hm
    change m ∈ w.window_queue at hm
    rw [hqueue] at hm
    cases hm
  obtain ⟨_, _, hd⟩ := frame_run_draws cenv input penv sch ⟨w, window, false⟩ s' hinv hrun
  have hp0 : pending_draws penv ⟨w, window, false⟩ = [] := by
    unfold pending_draws
    simp [hqueue]
  have hp1 : pending_draws penv s' = [] := by
    unfold pending_draws
    simp [hidle, hdrained]
  rw [hp0, hp1, List.append_nil, List.append_nil] at hd
  refine ⟨hd, ?_⟩
  obtain ⟨r, hr, hdr⟩ := update_run_draws penv (updates_outside_draw sch false)
    w.single_thread window rfl hfree henv
  exact ⟨r, hr, by rw [hdr, hd]; rfl⟩

/-- Witness of C5 (amended): two `update()` requests, each drawn by the window thread
before the next one runs; both modes make the renderer draw the two frames. -/
theorem dual_thread_draws_updates_outside_draw_witness :
    ∃ r, update_run
        [sample_update_env,
         { sample_update_env with time_check := 110, time_post := 111, primlist := 12 }]
        ((World.init true).single_thread, sample_window) = some r ∧
      (frame_run sample_create_env (fun _ _ _ _ => false) sample_proc_env
        [frame_action.update sample_update_env, frame_action.redraw_begin,
         frame_action.redraw_end,
         frame_action.update { sample_update_env with
           time_check := 110, time_post := 111, primlist := 12 },
         frame_action.redraw_begin, frame_action.redraw_end]
        ⟨World.init true, sample_window, false⟩).map (fun s => draws s.world.trace)
        = some (draws r.1.trace) ∧
      draws r.1.trace = [Effect.renderer_draw 9 5 FALSE 11, Effect.renderer_draw 9 5 FALSE 12] := by
  have hq : (frame_run sample_create_env (fun _ _ _ _ => false) sample_proc_env
        [frame_action.update sample_update_env, frame_action.redraw_begin,
         frame_action.redraw_end,
         frame_action.update { sample_update_env with
           time_check := 110, time_post := 111, primlist := 12 },
         frame_action.redraw_begin, frame_action.redraw_end]
        ⟨World.init true, sample_window, false⟩).map
          (fun s => (s.drawing, s.world.window_queue)) = some (false, []) := by decide
  cases h : frame_run sample_create_env (fun _ _ _ _ => false) sample_proc_env
        [frame_action.update sample_update_env, frame_action.redraw_begin,
         frame_action.redraw_end,
         frame_action.update { sample_update_env with
           time_check := 110, time_post := 111, primlist := 12 },
         frame_action.redraw_begin, frame_action.redraw_end]
        ⟨World.init true, sample_window, false⟩ with
  | none => rw [h] at hq; cases hq
  | some s' =>
    rw [h] at hq
    simp only [Option.map_some', Option.some.injEq, Prod.mk.injEq] at hq
    obtain ⟨hd, r, hr, hdr⟩ := dual_thread_draws_updates_outside_draw sample_create_env
      (fun _ _ _ _ => false) sample_proc_env _ (World.init true) sample_window s'
      (by decide) (by decide) rfl rfl
      (by
        intro e he
        simp only [updates_outside_draw, Bool.false_eq_true, if_false, List.append_nil,
          List.cons_append, List.nil_append, List.mem_cons, List.mem_singleton,
          List.not_mem_nil, or_false] at he
        rcases he with rfl | rfl <;> rfl)
      h hq.1 hq.2
    refine ⟨r, hr, by rw [Option.map_some', hdr], ?_⟩
    rw [hdr, hd]
    decide

/-- C11: a mouse-button message (left, right, middle or X button, down or up) addressed
to the global queue or to a registered window makes each of the two filters call
`wininput_handle_mouse_button` exactly once, with button index 0, 1, 2 or 3, the down
flag of the message and the coordinates unpacked from `lParam`; the message goes on to
dispatch exactly when that call reports the event as not consumed, whatever
`nodispatch` is. -/
theorem mouse_button_handled_once_then_forwarded (exec : Nat → Nat → World → World)
    (env : create_env) (input : Int → Int → Int → Int → Bool) ( nodispatch : Bool)
    (w : World) (message : MSG) (button down : Int)
    (hown : message.hwnd = 0 ∨ is_mame_window w.win_window_list message.hwnd = true)
    (hbtn : spec_mouse_button message.message = some (button, down)) :
    process_events_filter input nodispatch w message =
      (w.emit (Effect.wininput_handle_mouse_button button down
          (GET_X_LPARAM message.lParam) (GET_Y_LPARAM message.lParam)),
       !input button down (GET_X_LPARAM message.lParam) (GET_Y_LPARAM message.lParam)) ∧
    thread_entry_filter env input w message =
      (w.emit (Effect.wininput_handle_mouse_button button down
          (GET_X_LPARAM message.lParam) (GET_Y_LPARAM message.lParam)),
       !input button down (GET_X_LPARAM message.lParam) (GET_Y_LPARAM message.lParam)) ∧
    process_events_message exec input nodispatch w message =
      (if input button down (GET_X_LPARAM message.lParam) (GET_Y_LPARAM message.lParam) = true
       then w.emit (Effect.wininput_handle_mouse_button button down
          (GET_X_LPARAM message.lParam) (GET_Y_LPARAM message.lParam))
       else winwindow_dispatch_message exec
          (w.emit (Effect.wininput_handle_mouse_button button down
            (GET_X_LPARAM message.lParam) (GET_Y_LPARAM message.lParam))) message) ∧
    thread_entry_message env input w message =
      (if input button down (GET_X_LPARAM message.lParam) (GET_Y_LPARAM message.lParam) = true
       then w.emit (Effect.wininput_handle_mouse_button button down
          (GET_X_LPARAM message.lParam) (GET_Y_LPARAM message.lParam))
       else ((w.emit (Effect.wininput_handle_mouse_button button down
            (GET_X_LPARAM message.lParam) (GET_Y_LPARAM message.lParam))).emit
          (Effect.TranslateMessage message)).emit (Effect.DispatchMessage message)) ∧
    ((button = 0 ∨ button = 1 ∨ button = 2 ∨ button = 3) ∧ (down = TRUE ∨ down = FALSE)) := by
  have hc := filter_input_cases_button input w message button down hbtn
  have h1 : process_events_filter input nodispatch w message
      = filter_mouse_button input w button down message := by
    unfold process_events_filter
    rw [if_pos hown, hc]
  have h2 : thread_entry_filter env input w message
      = filter_mouse_button input w button down message := by
    unfold thread_entry_filter
    rw [if_pos hown, hc]
  refine ⟨by rw [h1]; rfl, by rw [h2]; rfl, ?_, ?_, ?_⟩
  · unfold process_events_message
    rw [h1]
    cases hi : input button down (GET_X_LPARAM message.lParam) (GET_Y_LPARAM message.lParam) <;>
      simp [filter_mouse_button, hi]
  · unfold thread_entry_message
    rw [h2]
    cases hi : input button down (GET_X_LPARAM message.lParam) (GET_Y_LPARAM message.lParam) <;>
      simp [filter_mouse_button, hi]
  · unfold spec_mouse_button at hbtn
    split_ifs at hbtn <;>
      simp only [Option.some.injEq, Prod.mk.injEq] at hbtn <;>
      obtain ⟨rfl, rfl⟩ := hbtn <;> simp

/-- Witness for C11: a right-button release at (3, 4) taken from the global queue, with
an input system that consumes nothing. -/
theorem mouse_button_handled_once_then_forwarded_witness :
    (process_events_filter (fun _ _ _ _ => false) true (World.init false)
        ⟨0, WM_RBUTTONUP, 0, 0x00040003⟩).1.trace
      = [Effect.wininput_handle_mouse_button 1 FALSE 3 4] ∧
    (process_events_message (fun _ _ v => v) (fun _ _ _ _ => false) true (World.init false)
        ⟨0, WM_RBUTTONUP, 0, 0x00040003⟩).trace
      = [Effect.wininput_handle_mouse_button 1 FALSE 3 4,
         Effect.TranslateMessage ⟨0, WM_RBUTTONUP, 0, 0x00040003⟩,
         Effect.DispatchMessage ⟨0, WM_RBUTTONUP, 0, 0x00040003⟩] := by
  obtain ⟨h1, _, h3, _, _⟩ := mouse_button_handled_once_then_forwarded (fun _ _ v => v)
    sample_create_env (fun _ _ _ _ => false) true (World.init false)
    ⟨0, WM_RBUTTONUP, 0, 0x00040003⟩ 1 FALSE (Or.inl rfl) (by decide)
  rw [h1, h3]
  constructor <;> decide

/-- C12 (counterexample): with `nodispatch` set, a paint message (neither a system key
nor a mouse button) for a window outside the registry is dropped by
`winwindow_process_events`: the world is unchanged, whereas dispatching it would have
recorded `TranslateMessage` and `DispatchMessage`. -/
theorem foreign_message_dropped_under_nodispatch :
    spec_mouse_button WM_PAINT = none ∧ WM_PAINT ≠ WM_SYSKEYUP ∧
    WM_PAINT ≠ WM_SYSKEYDOWN ∧
    is_mame_window (World.init false).win_window_list 99 = false ∧
    process_events_message (fun _ _ v => v) (fun _ _ _ _ => false) true (World.init false)
        ⟨99, WM_PAINT, 0, 0⟩ = World.init false ∧
    winwindow_dispatch_message (fun _ _ v => v) (World.init false) ⟨99, WM_PAINT, 0, 0⟩
      ≠ World.init false := by
  decide

/-- C12 (amended): a message dequeued by `winwindow_process_events` that is neither a
system-key event nor a mouse-button event reaches `winwindow_dispatch_message`, with the
world untouched by the filter, when it is addressed to the global queue or to a
registered window (whatever `nodispatch` is) or when `nodispatch` is clear; a message
for a window outside the registry is dropped when `nodispatch` is set. -/
theorem other_message_dispatched_unless_foreign_nodispatch (exec : Nat → Nat → World → World)
    (input : Int → Int → Int → Int → Bool) ( nodispatch : Bool) (w : World) (message : MSG)
    (hkey : message.message ≠ WM_SYSKEYUP ∧ message.message ≠ WM_SYSKEYDOWN)
    (hbtn : spec_mouse_button message.message = none) :
    process_events_message exec input nodispatch w message =
      (if (message.hwnd = 0 ∨ is_mame_window w.win_window_list message.hwnd = true)
            ∨ nodispatch = false
       then winwindow_dispatch_message exec w message else w) := by
  have hc := filter_input_cases_none input w message hkey hbtn
  unfold process_events_message process_events_filter
  by_cases hown : message.hwnd = 0 ∨ is_mame_window w.win_window_list message.hwnd = true
  · rw [if_pos hown, hc, if_pos (Or.inl hown)]
    simp
  · rw [if_neg hown]
    cases nodispatch <;> simp [hown]

/-- Witness for C12 (amended): a paint message for a registered window is dispatched
although `nodispatch` is set. -/
theorem other_message_dispatched_unless_foreign_nodispatch_witness :
    process_events_message (fun _ _ v => v) (fun _ _ _ _ => false) true
        { World.init false with win_window_list := [sample_window] } ⟨7, WM_PAINT, 0, 0⟩
      = winwindow_dispatch_message (fun _ _ v => v)
        { World.init false with win_window_list := [sample_window] } ⟨7, WM_PAINT, 0, 0⟩ := by
  rw [other_message_dispatched_unless_foreign_nodispatch (fun _ _ v => v)
    (fun _ _ _ _ => false) true _ ⟨7, WM_PAINT, 0, 0⟩ (by decide) (by decide)]
  decide

/-- C19 (counterexample): one call with `pause = FALSE` from the initial state leaves
the pause depth at -1. -/
theorem ui_pause_unmatched_resume_goes_negative :
    (pause_calls (World.init false) [FALSE]).ui_temp_pause = -1 := by
  decide

/-- C19 (amended): after any sequence of `winwindow_ui_pause_from_main_thread` calls from
the initial state the pause depth is the number of pause calls minus the number of
resume calls, so it is at least zero exactly when the sequence holds no more resumes
than pauses; nothing in the function keeps it from going negative. -/
theorem ui_pause_depth_counts_calls ( multithreading : Bool) (calls : List Int) :
    (pause_calls (World.init multithreading) calls).ui_temp_pause
      = (calls.countP (fun p => decide (p ≠ 0)) : Int)
          - (calls.countP (fun p => decide (p = 0)) : Int) ∧
    (0 ≤ (pause_calls (World.init multithreading) calls).ui_temp_pause ↔
      calls.countP (fun p => decide (p = 0)) ≤ calls.countP (fun p => decide (p ≠ 0))) := by
  have h := pause_calls_depth_count calls (World.init multithreading)
  have h0 : (World.init multithreading).ui_temp_pause = 0 := rfl
  rw [h0] at h
  refine ⟨by rw [h]; ring, ?_⟩
  rw [h]
  constructor <;> intro hh <;> omega

/-- C20: in every state reached from an initial state (depth 0, signal clear, the
machine running or paused) by `winwindow_ui_pause_from_main_thread` calls, a raised
`ui_pause_event` implies a pause depth of at least one and a paused machine. -/
theorem ui_pause_signal_implies_paused ( multithreading paused : Bool) (calls : List Int)
    (hsig : (pause_calls { World.init multithreading with machine_paused := paused }
        calls).ui_pause_event = true) :
    1 ≤ (pause_calls { World.init multithreading with machine_paused := paused }
        calls).ui_temp_pause ∧
    (pause_calls { World.init multithreading with machine_paused := paused }
        calls).machine_paused = true := by
  have hinit : signal_inv { World.init multithreading with machine_paused := paused } :=
    ⟨fun h => by simp [World.init] at h, fun h => by simp [World.init] at h⟩
  have h := pause_calls_signal calls _ hinit
  exact ⟨h.1 hsig, h.2 (h.1 hsig)⟩

/-- Witness for C20: after pause, pause, resume the signal is raised and the machine is
paused. -/
theorem ui_pause_signal_implies_paused_witness :
    (pause_calls { World.init true with machine_paused := false }
        [TRUE, TRUE, FALSE]).ui_pause_event = true ∧
    (pause_calls { World.init true with machine_paused := false }
        [TRUE, TRUE, FALSE]).machine_paused = true :=
  ⟨by decide, (ui_pause_signal_implies_paused true false [TRUE, TRUE, FALSE] (by decide)).2⟩

/-- C13: `winwindow_process_events_periodic` starts a pump pass exactly when the tick
difference (current tick minus `last_event_check`, modulo 2^32) is at least 125, and a
pump pass that returns leaves the tick it read in `last_event_check` (for callbacks
that do not touch that variable). Hence, with `last_event_check` recorded at time
`time_last`, a periodic call less than 125 ms later does nothing, also when the tick
counter wrapped in between, and a call from 125 ms up to 2^32 - 1 ms later pumps. -/
theorem process_events_periodic_spacing (exec : Nat → Nat → World → World)
    (hexec : ∀ f p v, (exec f p v).last_event_check = v.last_event_check)
    (input : Int → Int → Int → Int → Bool) (time_check time_pass : Nat)
    (drains : List (List MSG)) (w : World) :
    (winwindow_process_events_periodic exec input time_check time_pass drains w =
      if 125 ≤ ((GetTickCount time_check : Int) - (w.last_event_check : Int)) % 2 ^ 32
      then winwindow_process_events exec input TRUE false time_pass drains w
      else some w) ∧
    (∀ ( ingame : Int) ( nodispatch : Bool) (w' : World),
      winwindow_process_events exec input ingame nodispatch time_pass drains w = some w' →
        w'.last_event_check = GetTickCount time_pass) ∧
    (∀ time_last : Nat, w.last_event_check = GetTickCount time_last →
      time_last ≤ time_check →
        (time_check < time_last + 125 →
          winwindow_process_events_periodic exec input time_check time_pass drains w
            = some w) ∧
        (time_last + 125 ≤ time_check → time_check < time_last + 2 ^ 32 →
          winwindow_process_events_periodic exec input time_check time_pass drains w
            = winwindow_process_events exec input TRUE false time_pass drains w)) := by
  refine ⟨?_, ?_, ?_⟩
  · unfold winwindow_process_events_periodic u32
    dsimp only
    by_cases h : 125 ≤ ((GetTickCount time_check : Int) - (w.last_event_check : Int)) % 2 ^ 32
    · rw [if_pos h, if_neg (by omega)]
    · rw [if_neg h, if_pos (by omega)]
  · intro ingame nodispatch w' h
    unfold winwindow_process_events at h
    dsimp only at h
    cases hl : process_events_loop exec input nodispatch drains
        { w with last_event_check := GetTickCount time_pass } with
    | none => rw [hl] at h; cases h
    | some v =>
      rw [hl] at h
      cases h
      exact process_events_loop_check exec hexec input nodispatch drains _ _ hl
  · intro time_last hlast hmono
    have hd := tick_difference time_last time_check hmono
    unfold winwindow_process_events_periodic
    dsimp only
    rw [hlast, hd]
    constructor
    · intro hlt
      rw [if_pos (by omega)]
    · intro h1 h2
      rw [if_neg (by omega)]

/-- Witness for C13: the last pass was 10 ms before the tick counter wrapped; a periodic
call 130 ms after it (tick 120) pumps and records tick 121, a call 100 ms after it
(tick 90) does nothing. -/
theorem process_events_periodic_spacing_witness :
    (winwindow_process_events_periodic (fun _ _ v => v) (fun _ _ _ _ => false)
        (2 ^ 32 + 120) (2 ^ 32 + 121) [[]]
        { World.init false with last_event_check := GetTickCount (2 ^ 32 - 10) }).map
        (fun v => v.last_event_check) = some 121 ∧
    winwindow_process_events_periodic (fun _ _ v => v) (fun _ _ _ _ => false)
        (2 ^ 32 + 90) (2 ^ 32 + 91) [[]]
        { World.init false with last_event_check := GetTickCount (2 ^ 32 - 10) }
      = some { World.init false with last_event_check := GetTickCount (2 ^ 32 - 10) } := by
  have h1 := (process_events_periodic_spacing (fun _ _ v => v) (fun _ _ _ => rfl)
    (fun _ _ _ _ => false) (2 ^ 32 + 120) (2 ^ 32 + 121) [[]]
    { World.init false with last_event_check := GetTickCount (2 ^ 32 - 10) }).2.2
    (2 ^ 32 - 10) rfl (by decide)
  have h2 := (process_events_periodic_spacing (fun _ _ v => v) (fun _ _ _ => rfl)
    (fun _ _ _ _ => false) (2 ^ 32 + 90) (2 ^ 32 + 91) [[]]
    { World.init false with last_event_check := GetTickCount (2 ^ 32 - 10) }).2.2
    (2 ^ 32 - 10) rfl (by decide)
  refine ⟨?_, h2.1 (by decide)⟩
  rw [h1.2 (by decide) (by decide)]
  decide

/-- C14: `winwindow_video_window_create` raises the fatal error "Unable to complete
window creation" exactly when `complete_create` reported failure, that is when the
handshake left `m_init_state` at -1; otherwise it returns with the new window
registered and `m_init_state` 1. In single-thread mode this holds outright. In
dual-thread mode it holds for every schedule in which, after any number of polling
rounds that leave the window pending, the window thread handles the creation request
(callbacks run by the pump pass are assumed not to touch the registry). -/
theorem create_fatal_iff_complete_create_failed (cfg : window_create_env) (env : create_env)
    (exec : Nat → Nat → World → World) (input : Int → Int → Int → Int → Bool) (w : World)
    (hexec : ∀ f p v, (exec f p v).win_window_list = v.win_window_list)
    (hfresh : ∀ x ∈ w.win_window_list, x.addr ≠ cfg.addr) :
    (w.multithreading_enabled = false → ∀ polls : List poll_round,
      winwindow_video_window_create cfg env exec input polls w
        = (if (complete_create env w (created_window cfg w.win_window_list)).2.2 ≠ 0
           then some (Except.error "Unable to complete window creation\n")
           else some (Except.ok (winwindow_video_window_create_start cfg env w))) ∧
      (winwindow_video_window_create_start cfg env w).init_state cfg.addr
        = some (if (complete_create env w (created_window cfg w.win_window_list)).2.2 ≠ 0
                then -1 else 1)) ∧
    (w.multithreading_enabled = true → w.window_threadid ≠ w.main_threadid →
      ∀ (idle : List poll_round) (r : poll_round) (more : List poll_round) (v : World)
        (before after : List MSG),
        (∀ q ∈ idle, ∀ m ∈ q.window_thread, m.message ≠ WM_USER_FINISH_CREATE_WINDOW) →
        create_poll env exec input cfg.addr idle (winwindow_video_window_create_start cfg env w)
          = poll_result.pending v →
        r.window_thread = before ++ ⟨0, WM_USER_FINISH_CREATE_WINDOW, 0, cfg.addr⟩ :: after →
        (∀ m ∈ before, m.message ≠ WM_USER_FINISH_CREATE_WINDOW ∧ m.message ≠ WM_QUIT) →
        (∀ m ∈ after, m.message ≠ WM_USER_FINISH_CREATE_WINDOW) →
        winwindow_video_window_create cfg env exec input (idle ++ r :: more) w
          = (if (complete_create env w (created_window cfg w.win_window_list)).2.2 ≠ 0
             then some (Except.error "Unable to complete window creation\n")
             else some (Except.ok (thread_entry_loop env input r.window_thread v))) ∧
        (thread_entry_loop env input r.window_thread v).init_state cfg.addr
          = some (if (complete_create env w (created_window cfg w.win_window_list)).2.2 ≠ 0
                  then -1 else 1)) := by
  have hca : (created_window cfg w.win_window_list).addr = cfg.addr := rfl
  constructor
  · intro hst polls
    have hs := create_start_single cfg env w hfresh hst
    refine ⟨?_, hs⟩
    unfold winwindow_video_window_create
    simp only [hst, Bool.false_eq_true, if_false, hs]
    by_cases hf : (complete_create env w (created_window cfg w.win_window_list)).2.2 ≠ 0
    · rw [if_pos hf, if_pos hf, if_pos rfl]
    · rw [if_neg hf, if_neg hf, if_neg (by decide)]
  · intro hmt hthreads idle r more v before after hidle hpending hr hbefore hafter
    have hW := create_start_dual cfg env w hmt hthreads
    have hvl : v.win_window_list
        = w.win_window_list ++ [created_window cfg w.win_window_list] := by
      rw [create_poll_pending_registry env exec hexec input cfg.addr idle hidle _ v hpending, hW]
    have hwin : v.window (created_window cfg w.win_window_list).addr
        = some (created_window cfg w.win_window_list) := by
      unfold World.window
      rw [hvl]
      exact find_append_fresh w.win_window_list (created_window cfg w.win_window_list)
        (by rw [hca]; exact hfresh)
    have hs := thread_entry_loop_handshake env input v (created_window cfg w.win_window_list)
      before after hwin hbefore hafter
    rw [hca, ← hr, complete_create_result env v w] at hs
    refine ⟨?_, hs⟩
    unfold winwindow_video_window_create
    simp only [hmt, if_true]
    rw [create_poll_append env exec input cfg.addr idle (r :: more) _ v hpending,
      create_poll_cons, hs]
    by_cases hf : (complete_create env w (created_window cfg w.win_window_list)).2.2 ≠ 0
    · rw [if_pos hf, if_pos hf, if_neg (by decide)]
      simp only [hs, if_pos hf, if_true]
    · rw [if_neg hf, if_neg hf, if_neg (by decide)]
      simp only [hs, if_neg hf]
      rw [if_neg (by decide)]

/-- Witness for C14, dual-thread mode: the first window; one polling round passes with
the window pending, then the window thread handles the creation request and the call
returns with the window ready. Single-thread mode: the surface cannot be created and
the call raises the fatal error. -/
theorem create_fatal_iff_complete_create_failed_witness :
    (winwindow_video_window_create sample_create_config sample_create_env (fun _ _ v => v)
        (fun _ _ _ _ => false)
        [⟨[], 5, [[]]⟩, ⟨[⟨0, WM_USER_FINISH_CREATE_WINDOW, 0, 16⟩], 6, []⟩]
        (World.init true)).map (fun e => e.toOption.map (fun v => v.init_state 16))
      = some (some (some 1)) ∧
    (winwindow_video_window_create sample_create_config
        { sample_create_env with hwnd := 0 } (fun _ _ v => v) (fun _ _ _ _ => false) []
        (World.init false)).map (fun e => e.toOption.map (fun v => v.init_state 16))
      = some none := by
  have h := create_fatal_iff_complete_create_failed sample_create_config sample_create_env
    (fun _ _ v => v) (fun _ _ _ _ => false) (World.init true) (fun _ _ _ => rfl)
    (fun x hx => by cases hx)
  have h1 := h.2 rfl (by decide) [⟨[], 5, [[]]⟩]
    ⟨[⟨0, WM_USER_FINISH_CREATE_WINDOW, 0, 16⟩], 6, []⟩ []
    (({ winwindow_video_window_create_start sample_create_config sample_create_env
          (World.init true) with last_event_check := 5 }).emit
        Effect.winwindow_update_cursor_state)
    [] [] (fun q hq m hm => by
      simp only [List.mem_singleton] at hq
      subst hq
      cases hm)
    (by decide) rfl (fun m hm => by cases hm) (fun m hm => by cases hm)
  have h2 := (create_fatal_iff_complete_create_failed sample_create_config
    { sample_create_env with hwnd := 0 } (fun _ _ v => v) (fun _ _ _ _ => false)
    (World.init false) (fun _ _ _ => rfl) (fun x hx => by cases hx)).1 rfl []
  constructor
  · rw [show ([⟨[], 5, [[]]⟩, ⟨[⟨0, WM_USER_FINISH_CREATE_WINDOW, 0, 16⟩], 6, []⟩] :
        List poll_round)
      = [⟨[], 5, [[]]⟩] ++ [⟨[⟨0, WM_USER_FINISH_CREATE_WINDOW, 0, 16⟩], 6, []⟩] from rfl,
      h1.1, if_neg (by decide)]
    exact congrArg (fun o => some (some o)) (h1.2.trans (by decide))
  · rw [h2.1, if_pos (by decide)]
    rfl

/-- C15: `window_init` leaves `last_window_ptr` at the head pointer of the empty
registry, and whenever `last_window_ptr` designates the null link that ends the
registry, `winwindow_video_window_create` links the new object after the last window
and moves `last_window_ptr` to the new object's `m_next`. The registry afterwards is
the registry before followed by the new window; the windows already registered keep
their positions, in particular index 0 of a non-empty registry. In dual-thread mode
the window is in the registry, still pending, when the creation request is queued. -/
theorem create_appends_at_tail (cfg : window_create_env) (env : create_env) (w : World)
    (l : window_links)
    (hreg : l.registry (w.win_window_list.map (fun x => x.addr)))
    (htail : l.last_window_ptr = tail_link (w.win_window_list.map (fun x => x.addr)))
    (hnew : cfg.addr ≠ 0)
    (hfresh : ∀ x ∈ w.win_window_list, x.addr ≠ cfg.addr) :
    (∀ l0 : window_links, l0.win_window_list = 0 →
      (window_init_list l0).registry [] ∧
      (window_init_list l0).last_window_ptr = tail_link []) ∧
    (video_window_create_list l cfg.addr).registry
      (w.win_window_list.map (fun x => x.addr) ++ [cfg.addr]) ∧
    (video_window_create_list l cfg.addr).last_window_ptr
      = tail_link (w.win_window_list.map (fun x => x.addr) ++ [cfg.addr]) ∧
    (∃ window : win_window_info, window.addr = cfg.addr ∧
      (winwindow_video_window_create_start cfg env w).win_window_list
        = w.win_window_list ++ [window]) ∧
    (w.win_window_list ≠ [] →
      (winwindow_video_window_create_start cfg env w).win_window_list.head?
        = w.win_window_list.head?) ∧
    (∀ i : Nat, i < w.win_window_list.length →
      (winwindow_video_window_create_start cfg env w).win_window_list[i]?
        = w.win_window_list[i]?) ∧
    (w.multithreading_enabled = true → w.window_threadid ≠ w.main_threadid →
      (winwindow_video_window_create_start cfg env w).win_window_list
        = w.win_window_list ++ [created_window cfg w.win_window_list] ∧
      (winwindow_video_window_create_start cfg env w).window_queue
        = w.window_queue ++ [⟨0, WM_USER_FINISH_CREATE_WINDOW, 0, cfg.addr⟩]) := by
  have hmem : cfg.addr ∉ w.win_window_list.map (fun x => x.addr) := by
    intro h
    obtain ⟨x, hx, hxa⟩ := List.mem_map.mp h
    exact hfresh x hx hxa
  have hc := video_window_create_list_registry l _ cfg.addr hreg htail hnew hmem
  obtain ⟨window, hwa, hwl⟩ := create_start_registry cfg env w hfresh
  refine ⟨window_init_list_registry, hc.1, hc.2, ⟨window, hwa, hwl⟩, ?_, ?_, ?_⟩
  · intro hne
    rw [hwl]
    cases hw : w.win_window_list with
    | nil => exact absurd hw hne
    | cons x rest => rfl
  · intro i hi
    rw [hwl, List.getElem?_append_left hi]
  · intro hmt hthreads
    rw [create_start_dual cfg env w hmt hthreads]
    exact ⟨rfl, rfl⟩

/-- Witness for C15: after `window_init` and the creation of the window at address 16,
a second window at address 32 is linked behind it. -/
theorem create_appends_at_tail_witness :
    (video_window_create_list
        (video_window_create_list (window_init_list ⟨0, fun _ => 0, window_link.head⟩) 16)
        32).registry [16, 32] ∧
    ((winwindow_video_window_create_start { sample_create_config with addr := 32 }
        sample_create_env
        { World.init false with win_window_list := [sample_window] }).win_window_list.map
          (fun x => x.addr)) = [16, 32] := by
  have h := create_appends_at_tail { sample_create_config with addr := 32 } sample_create_env
    { World.init false with win_window_list := [sample_window] }
    (video_window_create_list (window_init_list ⟨0, fun _ => 0, window_link.head⟩) 16)
    (by unfold window_links.registry; decide) (by decide) (by decide)
    (fun x hx => by
      simp only [List.mem_singleton] at hx
      subst hx
      decide)
  refine ⟨h.2.1, ?_⟩
  obtain ⟨window, hwa, hwl⟩ := h.2.2.2.1
  rw [hwl]
  show [sample_window.addr] ++ [window.addr] = [16, 32]
  rw [hwa]
  rfl

/-- C16: `winwindow_video_window_destroy(w)` unlinks exactly the object `w` from the
registry chain (the other windows stay in their order; nothing changes when `w` is not
registered), then sends `WM_USER_SELF_TERMINATE` to `w` if and only if its surface
handle is live, which tears the surface down, and after that frees the render target,
the render lock and the object, each once. -/
theorem destroy_unlinks_then_terminates_then_frees (env denv : proc_env) (w : World)
    (window : win_window_info) (l : window_links)
    (hreg : l.registry (w.win_window_list.map (fun x => x.addr))) :
    (∃ l', video_window_destroy_list (w.win_window_list.length + 1) l window.addr = some l' ∧
      l'.registry ((w.win_window_list.map (fun x => x.addr)).erase window.addr) ∧
      (window.addr ∉ w.win_window_list.map (fun x => x.addr) → l' = l)) ∧
    (winwindow_video_window_destroy env denv w window).win_window_list.map (fun x => x.addr)
      = (w.win_window_list.map (fun x => x.addr)).erase window.addr ∧
    (∀ x ∈ w.win_window_list, x.addr ≠ window.addr →
      x ∈ (winwindow_video_window_destroy env denv w window).win_window_list) ∧
    (∀ x ∈ (winwindow_video_window_destroy env denv w window).win_window_list,
      x.addr ≠ window.addr) ∧
    (winwindow_video_window_destroy env denv w window).win_window_list.Sublist
      w.win_window_list ∧
    (window.addr ∉ w.win_window_list.map (fun x => x.addr) →
      (winwindow_video_window_destroy env denv w window).win_window_list
        = w.win_window_list) ∧
    (winwindow_video_window_destroy env denv w window).trace
      = w.trace ++
        (if window.m_hwnd ≠ 0 then
          [Effect.SendMessage window.m_hwnd WM_USER_SELF_TERMINATE 0 0,
           Effect.DestroyWindow window.m_hwnd,
           Effect.renderer_destroy window.m_renderer,
           Effect.global_free window.m_renderer,
           Effect.DefWindowProc window.m_hwnd WM_DESTROY 0 0]
         else []) ++
        [Effect.target_free window.m_target, Effect.osd_lock_free window.addr,
         Effect.global_free window.addr] := by
  have hnd : (w.win_window_list.map (fun x => x.addr)).Nodup := linked_nodup _ _ _ hreg
  obtain ⟨l', hrun, hreg', _, hsame⟩ := video_window_destroy_list_registry l _ window.addr
    (w.win_window_list.length + 1) hreg (by simp)
  have heq := winwindow_video_window_destroy_eq env denv w window
  have hlist : (winwindow_video_window_destroy env denv w window).win_window_list
      = w.win_window_list.eraseP (fun x => x.addr == window.addr) := by rw [heq]
  have haddrs := eraseP_addrs w.win_window_list window.addr
  refine ⟨⟨l', hrun, hreg', hsame⟩, by rw [hlist, haddrs], ?_, ?_, ?_, ?_, ?_⟩
  · intro x hx hne
    rw [hlist]
    exact (List.mem_eraseP_of_neg (by simpa using hne)).mpr hx
  · intro x hx
    rw [hlist] at hx
    have hm : x.addr ∈ (w.win_window_list.eraseP (fun x => x.addr == window.addr)).map
        (fun x => x.addr) := List.mem_map.mpr ⟨x, hx, rfl⟩
    rw [haddrs] at hm
    exact (hnd.mem_erase_iff.mp hm).1
  · rw [hlist]
    exact List.eraseP_sublist _
  · intro hmem
    rw [hlist, eraseP_fresh _ _ hmem]
  · rw [heq]
    unfold destroy_calls
    simp only [List.append_assoc]

/-- Witness for C16: the second of two registered windows, with a live surface, is
destroyed; the first stays and the calls come in the stated order. -/
theorem destroy_unlinks_then_terminates_then_frees_witness :
    (winwindow_video_window_destroy sample_proc_env sample_proc_env
        { World.init false with win_window_list :=
            [sample_window, { sample_window with addr := 32, m_hwnd := 17 }] }
        { sample_window with addr := 32, m_hwnd := 17 }).win_window_list.map (fun x => x.addr)
      = [16] ∧
    (winwindow_video_window_destroy sample_proc_env sample_proc_env
        { World.init false with win_window_list :=
            [sample_window, { sample_window with addr := 32, m_hwnd := 17 }] }
        { sample_window with addr := 32, m_hwnd := 17 }).trace
      = [Effect.SendMessage 17 WM_USER_SELF_TERMINATE 0 0, Effect.DestroyWindow 17,
         Effect.renderer_destroy 9, Effect.global_free 9,
         Effect.DefWindowProc 17 WM_DESTROY 0 0,
         Effect.target_free 8, Effect.osd_lock_free 32, Effect.global_free 32] := by
  have h := destroy_unlinks_then_terminates_then_frees sample_proc_env sample_proc_env
    { World.init false with win_window_list :=
        [sample_window, { sample_window with addr := 32, m_hwnd := 17 }] }
    { sample_window with addr := 32, m_hwnd := 17 }
    (video_window_create_list
      (video_window_create_list (window_init_list ⟨0, fun _ => 0, window_link.head⟩) 16) 32)
    (by unfold window_links.registry; decide)
  exact ⟨h.2.1.trans (by decide), h.2.2.2.2.2.2.trans (by decide)⟩

/-- C17: for a registry of any length, `window_exit` comes to an end: its loop takes
the windows off the head of the registry one by one and destroys each once, in registry
order, leaving the registry empty; then it calls the drawers' `exit` hook once, and in
dual-thread mode it posts the targetless `WM_USER_SELF_TERMINATE` to the window thread
after that. -/
theorem window_exit_destroys_every_window_in_order (env denv : proc_env) (w : World)
    (l : window_links) (fuel : Nat)
    (hreg : l.registry (w.win_window_list.map (fun x => x.addr)))
    (hfuel : w.win_window_list.length < fuel) :
    (∃ l', window_exit_list fuel l = some (l', w.win_window_list.map (fun x => x.addr)) ∧
      l'.registry []) ∧
    (∃ w', window_exit env denv fuel w = some w' ∧ w'.win_window_list = [] ∧
      w'.trace = w.trace ++ exit_calls w.win_window_list ++ [Effect.draw_exit] ++
        (if w.multithreading_enabled = true then
          [Effect.PostThreadMessage w.window_threadid WM_USER_SELF_TERMINATE 0 0,
           Effect.WaitForSingleObject_window_thread]
         else []) ++
        [Effect.CloseHandle_ui_pause_event] ++
        (if w.multithreading_enabled = true then [Effect.CloseHandle_window_thread_ready_event]
         else []) ++
        [Effect.ShowCursor true] ∧
      (w.multithreading_enabled = true → w.window_threadid ≠ w.main_threadid →
        w'.window_queue = w.window_queue ++ [⟨0, WM_USER_SELF_TERMINATE, 0, 0⟩])) := by
  have hnd : (w.win_window_list.map (fun x => x.addr)).Nodup := linked_nodup _ _ _ hreg
  obtain ⟨l', hrun, hreg', _⟩ := window_exit_list_registry _ l fuel hreg (by simpa using hfuel)
  refine ⟨⟨l', hrun, hreg'⟩, ?_⟩
  have hloop := window_exit_loop_spec env denv w.win_window_list w fuel rfl hnd hfuel
  obtain ⟨w', hw', hlist, htrace, hqueue⟩ := window_exit_tail
    { w with win_window_list := [], trace := w.trace ++ exit_calls w.win_window_list }
  refine ⟨w', ?_, hlist, htrace, hqueue⟩
  unfold window_exit
  rw [hloop]
  exact congrArg some hw'

/-- Witness for C17: two registered windows in dual-thread mode, the second without a
surface. -/
theorem window_exit_destroys_every_window_in_order_witness :
    (window_exit sample_proc_env sample_proc_env 3
        { World.init true with win_window_list :=
            [sample_window, { sample_window with addr := 32, m_hwnd := 0 }] }).map
        (fun v => (v.win_window_list, v.trace, v.window_queue))
      = some ([],
          [Effect.SendMessage 7 WM_USER_SELF_TERMINATE 0 0, Effect.DestroyWindow 7,
           Effect.renderer_destroy 9, Effect.global_free 9,
           Effect.DefWindowProc 7 WM_DESTROY 0 0,
           Effect.target_free 8, Effect.osd_lock_free 16, Effect.global_free 16,
           Effect.target_free 8, Effect.osd_lock_free 32, Effect.global_free 32,
           Effect.draw_exit,
           Effect.PostThreadMessage 2 WM_USER_SELF_TERMINATE 0 0,
           Effect.WaitForSingleObject_window_thread,
           Effect.CloseHandle_ui_pause_event, Effect.CloseHandle_window_thread_ready_event,
           Effect.ShowCursor true],
          [⟨0, WM_USER_SELF_TERMINATE, 0, 0⟩]) := by
  obtain ⟨_, w', hrun, hlist, htrace, hqueue⟩ :=
    window_exit_destroys_every_window_in_order sample_proc_env sample_proc_env
      { World.init true with win_window_list :=
          [sample_window, { sample_window with addr := 32, m_hwnd := 0 }] }
      (video_window_create_list
        (video_window_create_list (window_init_list ⟨0, fun _ => 0, window_link.head⟩) 16) 32)
      3 (by unfold window_links.registry; decide) (by decide)
  rw [hrun, Option.map_some', hlist, htrace, hqueue rfl (by decide)]
  decide
/-- C18 (counterexample): a `WM_USER_SELF_TERMINATE` message taken from the window
thread's queue that targets a registered window (handle 7) makes `thread_entry` tell
the loop to quit: `PostQuitMessage(0)` is called and `WM_QUIT` is queued, the message
is not forwarded, and the window keeps its surface. -/
theorem queued_self_terminate_for_registered_window_quits :
    is_mame_window [sample_window] 7 = true ∧
    (thread_entry_message sample_create_env (fun _ _ _ _ => false)
        { World.init true with win_window_list := [sample_window] }
        ⟨7, WM_USER_SELF_TERMINATE, 0, 0⟩).trace = [Effect.PostQuitMessage 0] ∧
    (thread_entry_message sample_create_env (fun _ _ _ _ => false)
        { World.init true with win_window_list := [sample_window] }
        ⟨7, WM_USER_SELF_TERMINATE, 0, 0⟩).window_queue = [⟨0, WM_QUIT, 0, 0⟩] ∧
    (thread_entry_message sample_create_env (fun _ _ _ _ => false)
        { World.init true with win_window_list := [sample_window] }
        ⟨7, WM_USER_SELF_TERMINATE, 0, 0⟩).win_window_list = [sample_window] ∧
    sample_window.m_hwnd = 7 := by
  decide

/-- C18 (amended): a `WM_USER_SELF_TERMINATE` message taken from the window thread's
queue makes the loop quit (`PostQuitMessage(0)`, `WM_QUIT` queued, message not
forwarded) when it is targetless or targets a registered window; addressed to a window
outside the registry it is forwarded untouched. The window procedure, which the
`SendMessage` of `winwindow_video_window_destroy` reaches without passing the queue,
destroys the surface of its own window only (`DestroyWindow`, renderer released, handle
and renderer nulled) and posts no quit: queues and registry are unchanged. -/
theorem self_terminate_quits_loop_or_destroys_surface (env : create_env)
    (input : Int → Int → Int → Int → Bool) (penv denv : proc_env) (w : World)
    (message : MSG) (window : win_window_info)
    (hmsg : message.message = WM_USER_SELF_TERMINATE) :
    thread_entry_message env input w message =
      (if message.hwnd = 0 ∨ is_mame_window w.win_window_list message.hwnd = true then
        { w with
          window_queue := w.window_queue ++ [⟨0, WM_QUIT, 0, 0⟩]
          trace := w.trace ++ [Effect.PostQuitMessage 0] }
       else (w.emit (Effect.TranslateMessage message)).emit (Effect.DispatchMessage message)) ∧
    (window_proc_self_terminate penv denv w window).1 =
      { w with trace := w.trace ++
          [Effect.DestroyWindow window.m_hwnd, Effect.renderer_destroy window.m_renderer,
           Effect.global_free window.m_renderer,
           Effect.DefWindowProc window.m_hwnd WM_DESTROY 0 0] } ∧
    (window_proc_self_terminate penv denv w window).2.m_hwnd = 0 ∧
    (window_proc_self_terminate penv denv w window).2.m_renderer = 0 ∧
    (window_proc_self_terminate penv denv w window).2.addr = window.addr := by
  obtain ⟨h1, h2, h3, _, h5⟩ := window_proc_self_terminate_eq penv denv w window
  refine ⟨?_, h1, h2, h3, h5⟩
  have hc : filter_input_cases input w message = none := by
    apply filter_input_cases_none
    · rw [hmsg]; decide
    · rw [hmsg]; decide
  unfold thread_entry_message thread_entry_filter
  by_cases hown : message.hwnd = 0 ∨ is_mame_window w.win_window_list message.hwnd = true
  · simp only [if_pos hown, hc, hmsg, if_true, Bool.false_eq_true, if_false]
    rfl
  · simp only [if_neg hown, if_true]

/-- Witness for C18 (amended): the targetless message that `window_exit` posts makes the
loop quit. -/
theorem self_terminate_quits_loop_or_destroys_surface_witness :
    (thread_entry_message sample_create_env (fun _ _ _ _ => false)
        { World.init true with win_window_list := [sample_window] }
        ⟨0, WM_USER_SELF_TERMINATE, 0, 0⟩).trace = [Effect.PostQuitMessage 0] ∧
    (window_proc_self_terminate sample_proc_env sample_proc_env
        { World.init true with win_window_list := [sample_window] } sample_window).1.trace
      = [Effect.DestroyWindow 7, Effect.renderer_destroy 9, Effect.global_free 9,
         Effect.DefWindowProc 7 WM_DESTROY 0 0] := by
  obtain ⟨h1, h2, _⟩ := self_terminate_quits_loop_or_destroys_surface sample_create_env
    (fun _ _ _ _ => false) sample_proc_env sample_proc_env
    { World.init true with win_window_list := [sample_window] }
    ⟨0, WM_USER_SELF_TERMINATE, 0, 0⟩ sample_window rfl
  rw [h1, h2]
  constructor <;> decide

/-- C21: each pass of the loop of `winwindow_process_events` starts with `WaitMessage()`
exactly when the pause depth is above zero at that point, then drains the queue; with
the depth above zero after the drain the loop goes round again (and blocks in
`WaitMessage()` when no further message arrives), and the function returns only in a
state whose pause depth is at most zero. -/
theorem process_events_waits_while_paused (exec : Nat → Nat → World → World)
    (input : Int → Int → Int → Int → Bool) ( ingame : Int) ( nodispatch : Bool) (time : Nat)
    (messages : List MSG) (rest drains : List (List MSG)) (w : World) :
    (0 < w.ui_temp_pause →
      process_events_loop exec input nodispatch (messages :: rest) w =
        if 0 < (process_events_drain exec input nodispatch (w.emit Effect.WaitMessage)
              messages).ui_temp_pause
        then process_events_loop exec input nodispatch rest
          (process_events_drain exec input nodispatch (w.emit Effect.WaitMessage) messages)
        else some (process_events_drain exec input nodispatch (w.emit Effect.WaitMessage)
          messages)) ∧
    (w.ui_temp_pause ≤ 0 →
      process_events_loop exec input nodispatch (messages :: rest) w =
        if 0 < (process_events_drain exec input nodispatch w messages).ui_temp_pause
        then process_events_loop exec input nodispatch rest
          (process_events_drain exec input nodispatch w messages)
        else some (process_events_drain exec input nodispatch w messages)) ∧
    (0 < w.ui_temp_pause → process_events_loop exec input nodispatch [] w = none) ∧
    (∀ w' : World,
      winwindow_process_events exec input ingame nodispatch time drains w = some w' →
        w'.ui_temp_pause ≤ 0) := by
  refine ⟨?_, ?_, ?_, ?_⟩
  · intro hp
    rw [process_events_loop_cons, if_pos hp]
  · intro hp
    rw [process_events_loop_cons, if_neg (not_lt.mpr hp)]
  · intro hp
    rw [process_events_loop, if_pos hp]
  · intro w' h
    unfold winwindow_process_events at h
    dsimp only at h
    cases hl : process_events_loop exec input nodispatch drains
        { w with last_event_check := GetTickCount time } with
    | none => rw [hl] at h; cases h
    | some v =>
      rw [hl] at h
      cases h
      exact process_events_loop_returns_unpaused exec input nodispatch drains
        { w with last_event_check := GetTickCount time } v hl

/-- Witness for C21: the first drain delivers a pause request, so the pass does not
return; it waits once, the second drain delivers the resume request, and the pass
returns at depth 0. With no second drain the pass does not return. -/
theorem process_events_waits_while_paused_witness :
    (winwindow_process_events (fun _ _ v => v) (fun _ _ _ _ => false) 0 false 5
        [[⟨0, WM_USER_UI_TEMP_PAUSE, 1, 0⟩], [⟨0, WM_USER_UI_TEMP_PAUSE, 0, 0⟩]]
        (World.init true)).map (fun v => (v.ui_temp_pause, v.trace))
      = some (0, [Effect.machine_pause, Effect.WaitMessage, Effect.machine_resume,
          Effect.winwindow_update_cursor_state]) ∧
    winwindow_process_events (fun _ _ v => v) (fun _ _ _ _ => false) 0 false 5
        [[⟨0, WM_USER_UI_TEMP_PAUSE, 1, 0⟩]] (World.init true) = none ∧
    (∀ w' : World, winwindow_process_events (fun _ _ v => v) (fun _ _ _ _ => false) 0 false 5
        [[⟨0, WM_USER_UI_TEMP_PAUSE, 1, 0⟩], [⟨0, WM_USER_UI_TEMP_PAUSE, 0, 0⟩]]
        (World.init true) = some w' → w'.ui_temp_pause ≤ 0) :=
  ⟨by decide, by decide,
   (process_events_waits_while_paused (fun _ _ v => v) (fun _ _ _ _ => false) 0 false 5 []
      [] [[⟨0, WM_USER_UI_TEMP_PAUSE, 1, 0⟩], [⟨0, WM_USER_UI_TEMP_PAUSE, 0, 0⟩]]
      (World.init true)).2.2.2⟩

/-- C25: with `nodispatch` clear, the filter of `winwindow_process_events` and the
filter of `thread_entry` give the same result on every message other than
`WM_USER_SELF_TERMINATE` and `WM_USER_FINISH_CREATE_WINDOW`, whatever its target: the
same calls to the input system and the same value of `dispatch`. -/
theorem filters_agree_without_nodispatch (env : create_env)
    (input : Int → Int → Int → Int → Bool) (w : World) (message : MSG)
    (hterm : message.message ≠ WM_USER_SELF_TERMINATE)
    (hfinish : message.message ≠ WM_USER_FINISH_CREATE_WINDOW) :
    process_events_filter input false w message = thread_entry_filter env input w message := by
  unfold process_events_filter thread_entry_filter
  by_cases hown : message.hwnd = 0 ∨ is_mame_window w.win_window_list message.hwnd = true
  · rw [if_pos hown, if_pos hown]
    cases filter_input_cases input w message with
    | some r => rfl
    | none =>
      dsimp only
      rw [if_neg hterm, if_neg hfinish]
  · rw [if_neg hown, if_neg hown]
    rfl

/-- Witness for C25: a left-button press for a registered window and a system key for a
foreign window. -/
theorem filters_agree_without_nodispatch_witness :
    process_events_filter (fun _ _ _ _ => true) false
        { World.init true with win_window_list := [sample_window] }
        ⟨7, WM_LBUTTONDOWN, 0, 0x00040003⟩
      = thread_entry_filter sample_create_env (fun _ _ _ _ => true)
        { World.init true with win_window_list := [sample_window] }
        ⟨7, WM_LBUTTONDOWN, 0, 0x00040003⟩ ∧
    (thread_entry_filter sample_create_env (fun _ _ _ _ => true)
        { World.init true with win_window_list := [sample_window] }
        ⟨7, WM_LBUTTONDOWN, 0, 0x00040003⟩).1.trace
      = [Effect.wininput_handle_mouse_button 0 TRUE 3 4] ∧
    (thread_entry_filter sample_create_env (fun _ _ _ _ => true)
        { World.init true with win_window_list := [sample_window] }
        ⟨7, WM_LBUTTONDOWN, 0, 0x00040003⟩).2 = false :=
  ⟨filters_agree_without_nodispatch sample_create_env (fun _ _ _ _ => true)
      { World.init true with win_window_list := [sample_window] }
      ⟨7, WM_LBUTTONDOWN, 0, 0x00040003⟩ (by decide) (by decide),
   by decide, by decide⟩

/-- C28 (failing input): three presses at the same position, 200 ms apart, the second
100 ms before the tick counter wraps and the third 100 ms after it. The second press is
reported as a double-click and resets `m_lastclicktime` to 0; the third press, at tick
100, is then less than the double-click time (500 ms) after tick 0 and is reported as a
double-click again. -/
theorem double_click_reported_twice_after_wrap :
    GetTickCount (2 ^ 32 + 100) = 100 ∧
    (window_proc_lbuttondown sample_proc_env (2 ^ 32 - 100) 500
      (window_proc_lbuttondown sample_proc_env (2 ^ 32 - 300) 500 (World.init true)
        sample_window 0x000A000A).1
      (window_proc_lbuttondown sample_proc_env (2 ^ 32 - 300) 500 (World.init true)
        sample_window 0x000A000A).2 0x000A000A).2.m_lastclicktime = 0 ∧
    (three_clicks sample_proc_env 500 (2 ^ 32 - 300) (2 ^ 32 - 100) (2 ^ 32 + 100)
      (World.init true) sample_window 0x000A000A).1.trace
      = [Effect.ui_input_push_mouse_down_event 8 10 10,
         Effect.ui_input_push_mouse_down_event 8 10 10,
         Effect.ui_input_push_mouse_double_click_event 8 10 10,
         Effect.ui_input_push_mouse_down_event 8 10 10,
         Effect.ui_input_push_mouse_double_click_event 8 10 10] := by
  decide

/-- C27 (counterexample): after `window_init` and the creation of the windows at 16 and
32, destroying the window at 32 leaves the registry `[16]` with `last_window_ptr` still
at the `m_next` field of the destroyed object, not at the link that ends the registry;
a window then created at 48 is written into that field and is not in the registry. -/
theorem destroy_of_last_window_leaves_tail_pointer_stale :
    (video_window_destroy_list 3
        (video_window_create_list
          (video_window_create_list (window_init_list ⟨0, fun _ => 0, window_link.head⟩) 16)
          32) 32).map
      (fun l => (l.last_window_ptr, linked l.m_next l.win_window_list [16],
        linked (video_window_create_list l 48).m_next
          (video_window_create_list l 48).win_window_list [16],
        linked (video_window_create_list l 48).m_next
          (video_window_create_list l 48).win_window_list [16, 48]))
      = some (window_link.next 32, true, true, false) ∧
    tail_link [16] = window_link.next 16 := by
  decide

/-- C27 (amended): `last_window_ptr` designates the null link that ends the registry
after `window_init` (on the empty registry) and after every
`winwindow_video_window_create` that found it so. `winwindow_video_window_destroy` and
`window_exit` never write `last_window_ptr`: it stays right when the destroyed window is
not the last of the registry, and it is left at the `m_next` field of the destroyed
object when the last window is destroyed, in particular after `window_exit` on a
non-empty registry. -/
theorem tail_pointer_kept_by_create_not_by_destroy (l : window_links) (xs : List Nat)
    (window fuel : Nat)
    (hreg : l.registry xs) (htail : l.last_window_ptr = tail_link xs)
    (hfuel : xs.length < fuel) :
    (∀ l0 : window_links, l0.win_window_list = 0 →
      (window_init_list l0).registry [] ∧
      (window_init_list l0).last_window_ptr = tail_link []) ∧
    (window ≠ 0 → window ∉ xs →
      (video_window_create_list l window).registry (xs ++ [window]) ∧
      (video_window_create_list l window).last_window_ptr = tail_link (xs ++ [window])) ∧
    (∃ l', video_window_destroy_list fuel l window = some l' ∧
      l'.registry (xs.erase window) ∧
      l'.last_window_ptr = l.last_window_ptr ∧
      (xs.getLast? ≠ some window → l'.last_window_ptr = tail_link (xs.erase window)) ∧
      (xs.getLast? = some window →
        l'.last_window_ptr = window_link.next window ∧
        l'.last_window_ptr ≠ tail_link (xs.erase window))) ∧
    (∃ l', window_exit_list fuel l = some (l', xs) ∧ l'.registry [] ∧
      l'.last_window_ptr = l.last_window_ptr ∧
      (xs ≠ [] → l'.last_window_ptr ≠ tail_link [])) := by
  have hnd : xs.Nodup := linked_nodup _ _ _ hreg
  refine ⟨window_init_list_registry,
    fun hnew hfresh => video_window_create_list_registry l xs window hreg htail hnew hfresh,
    ?_, ?_⟩
  · obtain ⟨l', hrun, hreg', hlast, _⟩ :=
      video_window_destroy_list_registry l xs window fuel hreg hfuel
    refine ⟨l', hrun, hreg', hlast, ?_, ?_⟩
    · intro hne
      rw [hlast, htail, tail_link_erase_of_ne window xs hne]
    · intro hl
      have ht : tail_link xs = window_link.next window := by
        unfold tail_link
        rw [hl]
      refine ⟨by rw [hlast, htail, ht], ?_⟩
      rw [hlast, htail, ht]
      exact (tail_link_erase_last window xs hnd).symm
  · obtain ⟨l', hrun, hreg', hlast⟩ := window_exit_list_registry xs l fuel hreg hfuel
    refine ⟨l', hrun, hreg', hlast, ?_⟩
    intro hne
    rw [hlast, htail]
    exact tail_link_ne_head xs hne

/-- Witness for C27 (amended): the registry `[16, 32]` built by `window_init` and two
creations; destroying the first window keeps `last_window_ptr` at the end of the
registry. -/
theorem tail_pointer_kept_by_create_not_by_destroy_witness :
    ∃ l', video_window_destroy_list 3
        (video_window_create_list
          (video_window_create_list (window_init_list ⟨0, fun _ => 0, window_link.head⟩) 16)
          32) 16 = some l' ∧
      l'.registry [32] ∧ l'.last_window_ptr = tail_link [32] := by
  obtain ⟨_, _, ⟨l', hrun, hreg, _, hkeep, _⟩, _⟩ :=
    tail_pointer_kept_by_create_not_by_destroy
      (video_window_create_list
        (video_window_create_list (window_init_list ⟨0, fun _ => 0, window_link.head⟩) 16)
        32) [16, 32] 16 3 (by unfold window_links.registry; decide) (by decide) (by decide)
  exact ⟨l', hrun, hreg, hkeep (by decide)⟩

/-- C23 (counterexample): a windowed window that is not fullscreen-safe, with renderer 9,
is switched to fullscreen: `set_fullscreen` returns with `m_fullscreen` 1, the old
renderer destroyed once, no renderer created and `m_renderer` null. -/
theorem set_fullscreen_leaves_unsafe_window_without_renderer :
    sample_window.m_fullscreen = 0 ∧ sample_window.m_fullscreen_safe = 0 ∧
    sample_window.m_renderer = 9 ∧
    (set_fullscreen ⟨false, false, 10, false⟩ (World.init true) sample_window 1).is_returned
      = true ∧
    (set_fullscreen ⟨false, false, 10, false⟩ (World.init true)
      sample_window 1).state.2.m_fullscreen = 1 ∧
    (set_fullscreen ⟨false, false, 10, false⟩ (World.init true)
      sample_window 1).state.2.m_renderer = 0 ∧
    (set_fullscreen ⟨false, false, 10, false⟩ (World.init true)
      sample_window 1).state.1.trace.filter Effect.is_renderer_lifetime
      = [Effect.renderer_destroy 9] := by
  decide

/-- C23 (amended): `set_fullscreen(w, f)` changes nothing and makes no call when
`w.m_fullscreen` already equals `f`. On a change of state, for a window that has a
renderer, it sets `m_fullscreen` to `f` and destroys the old renderer exactly once; it
creates a new renderer exactly when the window is to be shown (`f` is 0, or the window
is fullscreen-safe), and then returns with that renderer unless its `create()` fails;
a window that is not to be shown is left with a null renderer. -/
theorem set_fullscreen_recreates_renderer_when_shown (env : fullscreen_env) (w : World)
    (window : win_window_info) (fullscreen : Int) :
    (window.m_fullscreen = fullscreen →
      set_fullscreen env w window fullscreen = fullscreen_result.returned w window) ∧
    (window.m_fullscreen ≠ fullscreen → window.m_renderer ≠ 0 →
      (set_fullscreen env w window fullscreen).state.2.m_fullscreen = fullscreen ∧
      (∃ added : List Effect,
        (set_fullscreen env w window fullscreen).state.1.trace = w.trace ++ added ∧
        added.filter Effect.is_renderer_lifetime =
          Effect.renderer_destroy window.m_renderer ::
            (if fullscreen = 0 ∨ window.m_fullscreen_safe ≠ 0
             then [Effect.draw_create window.addr, Effect.renderer_create env.renderer]
             else [])) ∧
      (set_fullscreen env w window fullscreen).state.2.m_renderer
        = (if fullscreen = 0 ∨ window.m_fullscreen_safe ≠ 0 then env.renderer else 0) ∧
      ((set_fullscreen env w window fullscreen).is_returned = true ↔
        ¬ ((fullscreen = 0 ∨ window.m_fullscreen_safe ≠ 0) ∧
            env.renderer_create_failed = true))) := by
  refine ⟨set_fullscreen_same env w window fullscreen, ?_⟩
  intro h hr
  have hcfg := set_fullscreen_configure_lifetime env window.m_hwnd fullscreen
  by_cases hs : fullscreen = 0 ∨ window.m_fullscreen_safe ≠ 0
  · rw [set_fullscreen_shown env w window fullscreen h hr hs, if_pos hs, if_pos hs]
    cases hf : env.renderer_create_failed
    · rw [if_neg (by decide)]
      refine ⟨rfl, ⟨_, rfl, ?_⟩, rfl, ?_⟩
      · simp only [List.filter_append, hcfg]
        cases hv : env.video_mode_none <;> rfl
      · simp [fullscreen_result.is_returned]
    · rw [if_pos rfl]
      refine ⟨rfl, ⟨_, rfl, ?_⟩, rfl, ?_⟩
      · simp only [List.filter_append, hcfg]
        cases hv : env.video_mode_none <;> rfl
      · simp [fullscreen_result.is_returned, hs]
  · rw [set_fullscreen_hidden env w window fullscreen h hr hs, if_neg hs, if_neg hs]
    refine ⟨rfl, ⟨_, rfl, ?_⟩, rfl, ?_⟩
    · simp only [List.filter_append, hcfg]
      rfl
    · simp [fullscreen_result.is_returned, hs]

/-- Witness for C23 (amended): a fullscreen-safe windowed window with renderer 9 goes
fullscreen and comes back with the new renderer 10. -/
theorem set_fullscreen_recreates_renderer_when_shown_witness :
    (set_fullscreen ⟨false, false, 10, false⟩ (World.init true)
      { sample_window with m_fullscreen_safe := 1 } 1).is_returned = true ∧
    (set_fullscreen ⟨false, false, 10, false⟩ (World.init true)
      { sample_window with m_fullscreen_safe := 1 } 1).state.2.m_renderer = 10 := by
  obtain ⟨_, _, h3, h4⟩ := (set_fullscreen_recreates_renderer_when_shown
    ⟨false, false, 10, false⟩ (World.init true)
    { sample_window with m_fullscreen_safe := 1 } 1).2 (by decide) (by decide)
  exact ⟨h4.mpr (by decide), h3.trans (by decide)⟩

/-- C24: for a window that has a renderer whenever the state changes, `set_fullscreen`
ends the process with `exit(1)` if and only if the fullscreen state changes, the window
is to be shown (the new state is not fullscreen, or the window is fullscreen-safe) and
`create()` of the new renderer reports failure; in every other case it returns. In
neither case is `m_init_state` written. -/
theorem set_fullscreen_exits_iff_renderer_create_fails (env : fullscreen_env) (w : World)
    (window : win_window_info) (fullscreen : Int)
    (hrenderer : window.m_fullscreen ≠ fullscreen → window.m_renderer ≠ 0) :
    ((set_fullscreen env w window fullscreen).exit_status = some 1 ↔
      (window.m_fullscreen ≠ fullscreen ∧
       (fullscreen = 0 ∨ window.m_fullscreen_safe ≠ 0) ∧
       env.renderer_create_failed = true)) ∧
    ((set_fullscreen env w window fullscreen).exit_status = none ↔
      (set_fullscreen env w window fullscreen).is_returned = true) ∧
    ((set_fullscreen env w window fullscreen).exit_status = some 1 ∨
      (set_fullscreen env w window fullscreen).exit_status = none) ∧
    (set_fullscreen env w window fullscreen).state.2.m_init_state = window.m_init_state := by
  by_cases h : window.m_fullscreen = fullscreen
  · rw [set_fullscreen_same env w window fullscreen h]
    refine ⟨?_, ?_, Or.inr rfl, rfl⟩
    · constructor
      · intro e; cases e
      · intro e; exact absurd h e.1
    · exact ⟨fun _ => rfl, fun _ => rfl⟩
  · have hr := hrenderer h
    by_cases hs : fullscreen = 0 ∨ window.m_fullscreen_safe ≠ 0
    · rw [set_fullscreen_shown env w window fullscreen h hr hs]
      cases hf : env.renderer_create_failed
      · rw [if_neg (by decide)]
        refine ⟨?_, ?_, Or.inr rfl, rfl⟩
        · constructor
          · intro e; cases e
          · intro e; exact absurd e.2.2 (by decide)
        · exact ⟨fun _ => rfl, fun _ => rfl⟩
      · rw [if_pos rfl]
        refine ⟨?_, ?_, Or.inl rfl, rfl⟩
        · exact ⟨fun _ => ⟨h, hs, rfl⟩, fun _ => rfl⟩
        · constructor
          · intro e; cases e
          · intro e; cases e
    · rw [set_fullscreen_hidden env w window fullscreen h hr hs]
      refine ⟨?_, ?_, Or.inr rfl, rfl⟩
      · constructor
        · intro e; cases e
        · intro e; exact absurd e.2.1 hs
      · exact ⟨fun _ => rfl, fun _ => rfl⟩

/-- Witness for C24: leaving fullscreen with a renderer whose `create()` fails ends the
process with status 1 and leaves `m_init_state` at 1. -/
theorem set_fullscreen_exits_iff_renderer_create_fails_witness :
    (set_fullscreen ⟨false, false, 10, true⟩ (World.init true)
      { sample_window with m_fullscreen := 1 } 0).exit_status = some 1 ∧
    (set_fullscreen ⟨false, false, 10, true⟩ (World.init true)
      { sample_window with m_fullscreen := 1 } 0).state.2.m_init_state = 1 := by
  obtain ⟨h1, _, _, h4⟩ := set_fullscreen_exits_iff_renderer_create_fails
    ⟨false, false, 10, true⟩ (World.init true) { sample_window with m_fullscreen := 1 } 0
    (fun _ => by decide)
  exact ⟨h1.mpr (by decide), h4.trans (by decide)⟩

/-- C26 (failing input): the second window created on a monitor, in window mode and
single-thread mode, ends its handshake ready with renderer 9 and is not fullscreen-safe;
`set_fullscreen(window, 1)` returns with the window still ready and `m_renderer` null,
and the following `set_fullscreen(window, 0)` calls `destroy()` through the null
renderer. With the video mode none, `complete_create` reports success without creating
a renderer, and the `WM_DESTROY` handler calls `destroy()` through the null renderer. -/
theorem ready_window_reaches_null_renderer :
    ((winwindow_video_window_create_start { sample_create_config with addr := 32 }
        { sample_create_env with hwnd := 17 }
        { World.init false with
          win_window_list := [{ sample_window with m_monitor := 3 }] }).window 32).map
      (fun window => (window.m_init_state, window.m_renderer, window.m_fullscreen_safe))
      = some (1, 9, 0) ∧
    ((winwindow_video_window_create_start { sample_create_config with addr := 32 }
        { sample_create_env with hwnd := 17 }
        { World.init false with
          win_window_list := [{ sample_window with m_monitor := 3 }] }).window 32).map
      (fun window =>
        ((set_fullscreen ⟨false, false, 10, false⟩ (World.init false) window 1).is_returned,
         (set_fullscreen ⟨false, false, 10, false⟩ (World.init false)
            window 1).state.2.m_init_state,
         (set_fullscreen ⟨false, false, 10, false⟩ (World.init false)
            window 1).state.2.m_renderer))
      = some (true, 1, 0) ∧
    ((winwindow_video_window_create_start { sample_create_config with addr := 32 }
        { sample_create_env with hwnd := 17 }
        { World.init false with
          win_window_list := [{ sample_window with m_monitor := 3 }] }).window 32).map
      (fun window =>
        (set_fullscreen ⟨false, false, 10, false⟩
            (set_fullscreen ⟨false, false, 10, false⟩ (World.init false) window 1).state.1
            (set_fullscreen ⟨false, false, 10, false⟩ (World.init false) window 1).state.2
            0).is_null_renderer)
      = some true ∧
    ((winwindow_video_window_create_start sample_create_config
        { sample_create_env with video_mode_none := true }
        (World.init false)).window 16).map
      (fun window => (window.m_init_state, window.m_renderer))
      = some (1, 0) ∧
    ((winwindow_video_window_create_start sample_create_config
        { sample_create_env with video_mode_none := true }
        (World.init false)).window 16).map
      (fun window =>
        (window_proc_destroy sample_proc_env (World.init false) window 0 0).1.trace)
      = some [Effect.renderer_destroy 0, Effect.global_free 0,
          Effect.DefWindowProc 7 WM_DESTROY 0 0] := by
  refine ⟨?_, ?_, ?_, ?_, ?_⟩ <;> decide

/-- C22 (counterexample): two windows created one after the other on monitor 3. The
first keeps its fullscreen-safe flag (1) although the second window, whose flag is 0,
is now registered on the same monitor. -/
theorem first_window_stays_fullscreen_safe_beside_sibling :
    (create_calls (fun _ _ v => v) (fun _ _ _ _ => false)
        [⟨sample_create_config, sample_create_env, []⟩,
         ⟨{ sample_create_config with addr := 32 }, { sample_create_env with hwnd := 17 }, []⟩]
        (World.init false)).map
      (fun w => w.win_window_list.map (fun x => (x.addr, x.m_monitor, x.m_fullscreen_safe)))
      = some [(16, 3, 1), (32, 3, 0)] := by
  decide

/-- C22 (amended): after any sequence of `winwindow_video_window_create` calls that
return, starting from the empty registry and for distinct window objects, a registered
window has its fullscreen-safe flag set if and only if no window before it in the
registry is on the same monitor: the flag marks the first window of each monitor and is
not revised when a later window arrives on that monitor (callbacks run by the pump pass
are assumed not to touch the registry). -/
theorem fullscreen_safe_marks_first_window_on_monitor (exec : Nat → Nat → World → World)
    (hexec : ∀ f p v, (exec f p v).win_window_list = v.win_window_list)
    (input : Int → Int → Int → Int → Bool) ( multithreading : Bool)
    (calls : List create_call) (w' : World)
    (haddrs : (calls.map (fun c => c.cfg.addr)).Nodup)
    (hrun : create_calls exec input calls (World.init multithreading) = some w')
    (pre : List win_window_info) (x : win_window_info) (post : List win_window_info)
    (hsplit : w'.win_window_list = pre ++ x :: post) :
    x.m_fullscreen_safe ≠ 0 ↔ ∀ y ∈ pre, y.m_monitor ≠ x.m_monitor := by
  have hinv := create_calls_first_on_monitor exec hexec input calls
    (World.init multithreading) w' List.nodup_nil first_on_monitor_nil haddrs
    (fun c _ y hy => by cases hy) hrun
  have hv : safe_view w'.win_window_list
      = safe_view pre ++ (x.m_monitor, x.m_fullscreen_safe) :: safe_view post := by
    rw [hsplit]
    unfold safe_view
    rw [List.map_append, List.map_cons]
  have h := hinv (safe_view pre) (x.m_monitor, x.m_fullscreen_safe) (safe_view post) hv
  rw [h]
  unfold safe_view
  constructor
  · intro hq y hy
    exact hq (y.m_monitor, y.m_fullscreen_safe) (List.mem_map.mpr ⟨y, hy, rfl⟩)
  · intro hy q hq
    obtain ⟨y, hy', hyq⟩ := List.mem_map.mp hq
    rw [← hyq]
    exact hy y hy'

/-- Witness for C22 (amended): two windows created on monitor 3; the second one has a
window before it on its monitor and its flag is clear. -/
theorem fullscreen_safe_marks_first_window_on_monitor_witness :
    ∃ (w' : World) (a b : win_window_info),
      create_calls (fun _ _ v => v) (fun _ _ _ _ => false)
        [⟨sample_create_config, sample_create_env, []⟩,
         ⟨{ sample_create_config with addr := 32 }, { sample_create_env with hwnd := 17 }, []⟩]
        (World.init false) = some w' ∧
      w'.win_window_list = [a] ++ b :: [] ∧
      (b.m_fullscreen_safe ≠ 0 ↔ ∀ y ∈ [a], y.m_monitor ≠ b.m_monitor) := by
  have hq : (create_calls (fun _ _ v => v) (fun _ _ _ _ => false)
        [⟨sample_create_config, sample_create_env, []⟩,
         ⟨{ sample_create_config with addr := 32 }, { sample_create_env with hwnd := 17 }, []⟩]
        (World.init false)).map (fun w => w.win_window_list.length) = some 2 := by decide
  cases h : create_calls (fun _ _ v => v) (fun _ _ _ _ => false)
        [⟨sample_create_config, sample_create_env, []⟩,
         ⟨{ sample_create_config with addr := 32 }, { sample_create_env with hwnd := 17 }, []⟩]
        (World.init false) with
  | none => rw [h] at hq; cases hq
  | some w' =>
    rw [h] at hq
    simp only [Option.map_some', Option.some.injEq] at hq
    obtain ⟨a, b, hab⟩ := List.length_eq_two.mp hq
    exact ⟨w', a, b, rfl, hab,
      fullscreen_safe_marks_first_window_on_monitor (fun _ _ v => v) (fun _ _ _ => rfl)
        (fun _ _ _ _ => false) false _ w' (by decide) h [a] b [] hab⟩

end WinWindow
